import Mathlib

/-!
# ParticlePacking: the simulation lifecycle controller

A shallow embedding of `Particle_Packing/ParticlePacking.cpp`: the step loop of `main` with its
shaking, solver, synchronisation and lifecycle phases, the part of `main` ahead of the loop
(validation, generator dispatch, synchronisation set-up), `relaxationModelFromString`, the
contact pipeline, and the spacing scaling and the particle-creation loop of
`ParticleCreator::createParticles`.

Modelling conventions.
* `real_t` values that are configuration values, simulated times or particle statistics are exact
  rationals (`ℚ`); rounding is not modelled.
* The result of a `real_t` division can be non-finite when the divisor is zero. Such results are
  values of `XReal`, which adds `+inf`, `-inf` and `NaN` with the IEEE comparison rules. Zero is
  unsigned.
* `uint_t timestep` is a natural number (no wrap-around at `2^64` steps).
* Collaborators that are not part of this translation unit (collision detection, the solvers'
  kernels, synchronisation, `evaluateParticleInfo`, `std::pow`, `std::sin`) are fields of `Env`;
  every theorem holds for all of them.
* Statements of the loop body that neither write a variable of the controller nor call a kernel
  on the particle or contact storage (timers, log messages, VTK output, the histogram and the
  porosity evaluation, particle sorting) are left out.
-/

namespace ParticlePacking

/-! ## Numbers -/

/-- Result of a `real_t` computation that may leave the finite numbers. -/
inductive XReal where
  | fin (q : ℚ)
  | posInf
  | negInf
  | nan
  deriving DecidableEq, Repr

namespace XReal

/-- Division `a / b` of two finite numbers: a zero divisor gives `NaN` for `0 / 0` and a signed
infinity otherwise. -/
def div (a b : ℚ) : XReal :=
  if b = 0 then (if a = 0 then nan else if 0 < a then posInf else negInf) else fin (a / b)

/-- Ordered comparison `x < y`; every comparison with `NaN` is false. -/
def lt : XReal → XReal → Bool
  | fin a, fin b => decide (a < b)
  | fin _, posInf => true
  | negInf, fin _ => true
  | negInf, posInf => true
  | _, _ => false

/-- Unary minus. -/
def neg : XReal → XReal
  | fin a => fin (-a)
  | posInf => negInf
  | negInf => posInf
  | nan => nan

/-- Product `x * q` with a finite factor `q`. -/
def mulRat : XReal → ℚ → XReal
  | fin a, q => fin (a * q)
  | posInf, q => if q = 0 then nan else if 0 < q then posInf else negInf
  | negInf, q => if q = 0 then nan else if 0 < q then negInf else posInf
  | nan, _ => nan

end XReal

/-- Vector of three finite numbers (`Vec3`). -/
structure Vec3 where
  x : ℚ
  y : ℚ
  z : ℚ
  deriving DecidableEq, Repr

/-- Scaling `v *= f`. -/
def Vec3.scale (v : Vec3) (f : ℚ) : Vec3 := ⟨v.x * f, v.y * f, v.z * f⟩

/-- `Vector3<real_t>` whose components may be non-finite. -/
structure XVec3 where
  x : XReal
  y : XReal
  z : XReal
  deriving DecidableEq, Repr

/-! ## Data model -/

/-- The particle properties the controller reads or writes. -/
structure Particle where
  position : Vec3
  linearVelocity : Vec3
  angularVelocity : Vec3
  interactionRadius : ℚ
  owner : ℤ
  ghost : Bool
  deriving DecidableEq, Repr

/-- The per-step aggregate returned by `evaluateParticleInfo`. -/
structure ParticleInfo where
  numParticles : ℕ
  particleVolume : ℚ
  maximumHeight : ℚ
  heightOfMass : ℚ
  maximumVelocity : ℚ
  deriving DecidableEq, Repr

/-- Axis-aligned box (`math::AABB`). -/
structure AABB where
  xMin : ℚ
  yMin : ℚ
  zMin : ℚ
  xMax : ℚ
  yMax : ℚ
  zMax : ℚ
  deriving DecidableEq, Repr

/-- Extent of the box in `z`. -/
def AABB.zSize (b : AABB) : ℚ := b.zMax - b.zMin

/-- Configuration values read by `main`, and the two values fixed by the synchronisation set-up
before the loop (`smallestBlockSize`, `maxParticleDiameter`). -/
structure Config where
  domainSetup : String
  domainWidth : ℚ
  domainHeight : ℚ
  particleDensity : ℚ
  ambientDensity : ℚ
  gravitationalAcceleration : ℚ
  limitVelocity : ℚ
  initialVelocity : ℚ
  generationSpacing : ℚ
  generationHeightRatioStart : ℚ
  generationHeightRatioEnd : ℚ
  totalParticleMass : ℚ
  terminalVelocity : ℚ
  terminalRelativeHeightChange : ℚ
  terminationCheckingSpacing : ℚ
  minimalTerminalRunTime : ℚ
  velocityDampingCoefficient : ℚ
  solver : String
  dt : ℚ
  hcsits_relaxationParameter : ℚ
  hcsits_numberOfIterations : ℕ
  shaking : Bool
  shaking_amplitude : ℚ
  shaking_period : ℚ
  shaking_duration : ℚ
  shaking_activeFromBeginning : Bool
  smallestBlockSize : ℚ
  maxParticleDiameter : ℚ

/-- Collaborators outside this translation unit. -/
structure Env where
  /-- Library function `std::pow`. -/
  pow : ℚ → ℚ → ℚ
  /-- Library function `std::sin`. -/
  sin : ℚ → ℚ
  /-- Constant `math::pi`. -/
  pi : ℚ
  /-- Particle storage after the initial fill and the initial synchronisation. -/
  initialParticles : List Particle
  /-- Particle storage after contact detection, the solver, velocity limiting and the regular
  synchronisation of step `n`. -/
  physics : ℕ → List Particle → List Particle
  /-- Particle storage after `createParticles`, re-association and synchronisation in step `n`. -/
  generation : ℕ → List Particle → List Particle
  /-- Value of `evaluateParticleInfo(particleAccessor)` in step `n` (a reduction over all ranks). -/
  evaluateParticleInfo : ℕ → List Particle → ParticleInfo

/-- Calls and kernel applications of one run, in program order. -/
inductive Event where
  | contactDetection
  | addShakingForce (shakingAcceleration : XReal)
  | setGlobalAcceleration (a : XVec3)
  | hcsitsInitContacts
  | hcsitsInitParticles (globalAcceleration : XVec3)
  | reduceVelocityCorrection
  | broadcastVelocityUpdate (relaxationParam : ℚ)
  | hcsitsRelaxationStep
  | hcsitsIntegration
  | demCollision
  | demApplyGravity
  | reduceContactHistory
  | reduceForceTorque
  | demIntegration
  | velocityLimiting
  | syncCall
  | associateToBlock
  | createParticles (zMin zMax spacing initialVelocity : ℚ) (maximumAllowedInteractionRadius : XReal)
  | damping (velocityDampingFactor : ℚ)
  | createPlane
  | createCylindricalBoundary
  deriving DecidableEq, Repr

/-- The variables of `main` that the step loop reads and writes. -/
structure State where
  timestep : ℕ
  terminateSimulation : Bool
  shaking : Bool
  isShakingActive : Bool
  timeBeginShaking : ℚ
  timeEndShaking : ℚ
  timeBeginDamping : ℚ
  oldAvgParticleHeight : ℚ
  oldMaxParticleHeight : ℚ
  timeLastTerminationCheck : ℚ
  timeLastCreation : ℚ
  /-- The global acceleration held by `hcsits_initParticles`. -/
  globalAcceleration : XVec3
  particles : List Particle
  deriving DecidableEq, Repr

/-! ## Values fixed before the loop -/

/-- The box `simulationDomain`. -/
def simulationDomain (cfg : Config) : AABB :=
  ⟨-(1/2) * cfg.domainWidth, -(1/2) * cfg.domainWidth, 0,
    (1/2) * cfg.domainWidth, (1/2) * cfg.domainWidth, cfg.domainHeight⟩

/-- Gravity reduced by buoyancy: `(particleDensity - ambientDensity) / particleDensity * g`. -/
def reducedGravitationalAcceleration (cfg : Config) : XReal :=
  (XReal.div (cfg.particleDensity - cfg.ambientDensity) cfg.particleDensity).mulRat
    cfg.gravitationalAcceleration

/-- Bound on the interaction radius: infinite unless the domain is periodic. -/
def maximumAllowedInteractionRadius (cfg : Config) : XReal :=
  if cfg.domainSetup = "periodic" then XReal.fin ((1/4) * cfg.domainWidth) else XReal.posInf

/-- Upper end of the generation zone. -/
def maxGenerationHeight (cfg : Config) : ℚ := (simulationDomain cfg).zMax - cfg.generationSpacing

/-- Lower end of the generation zone. -/
def minGenerationHeight (cfg : Config) : ℚ := cfg.generationSpacing

/-- Choice of the synchronisation routine. -/
def useNextNeighborSync (cfg : Config) : Bool :=
  decide (2 * cfg.smallestBlockSize > cfg.maxParticleDiameter)

/-- Damping factor per step, `std::pow(velocityDampingCoefficient, dt)`. -/
def velocityDampingFactor (cfg : Config) (env : Env) : ℚ :=
  env.pow cfg.velocityDampingCoefficient cfg.dt

/-- Time the particles need at most to clear the creation zone. -/
def maximumTimeBetweenCreation (cfg : Config) : XReal :=
  XReal.div ((cfg.generationHeightRatioEnd - cfg.generationHeightRatioStart)
    * (simulationDomain cfg).zSize) cfg.initialVelocity

/-- The global acceleration `hcsits_initParticles` is constructed with. -/
def gravityOnly (cfg : Config) : XVec3 :=
  ⟨XReal.fin 0, XReal.fin 0, (reducedGravitationalAcceleration cfg).neg⟩

/-- State at loop entry. -/
def initState (cfg : Config) (env : Env) : State where
  timestep := 0
  terminateSimulation := false
  shaking := cfg.shaking
  isShakingActive := cfg.shaking && cfg.shaking_activeFromBeginning
  timeBeginShaking := if cfg.shaking && cfg.shaking_activeFromBeginning then 0 else -1
  timeEndShaking := -1
  timeBeginDamping := -1
  oldAvgParticleHeight := 1
  oldMaxParticleHeight := 1
  timeLastTerminationCheck := 0
  timeLastCreation := 0
  globalAcceleration := gravityOnly cfg
  particles := env.initialParticles

/-! ## One iteration of the step loop -/

/-- The simulated time of a step, `dt * real_c(timestep)`. -/
def currentTime (cfg : Config) (timestep : ℕ) : ℚ := cfg.dt * (timestep : ℚ)

/-- The horizontal acceleration
`shaking_amplitude * sin((currentTime - timeBeginShaking) * c) * c * c` with
`c = 2 * pi / shaking_period`. For a zero period `c` is infinite and the sine of the product,
hence the whole expression, is `NaN`. -/
def shakingAcceleration (cfg : Config) (env : Env) (t timeBeginShaking : ℚ) : XReal :=
  if cfg.shaking_period = 0 then XReal.nan
  else
    let shaking_common_term := 2 * env.pi / cfg.shaking_period
    XReal.fin (cfg.shaking_amplitude * env.sin ((t - timeBeginShaking) * shaking_common_term)
      * shaking_common_term * shaking_common_term)

/-- The block timed as "Shaking" ahead of the solver: while shaking is active the acceleration is
added as a force (DEM) or stored as global acceleration of `hcsits_initParticles` (otherwise). -/
def shakingPhase (cfg : Config) (env : Env) (t : ℚ) (s : State) : State × List Event :=
  if s.isShakingActive then
    if cfg.solver = "DEM" then
      (s, [Event.addShakingForce (shakingAcceleration cfg env t s.timeBeginShaking)])
    else
      let a : XVec3 := ⟨shakingAcceleration cfg env t s.timeBeginShaking, XReal.fin 0,
        (reducedGravitationalAcceleration cfg).neg⟩
      ({ s with globalAcceleration := a }, [Event.setGlobalAcceleration a])
  else (s, [])

/-- The relaxation loop of the HCSITS pipeline, `n` iterations. -/
def hcsitsIterations (relaxationParam : ℚ) : ℕ → List Event
  | 0 => []
  | n + 1 =>
    [Event.hcsitsRelaxationStep, Event.reduceVelocityCorrection,
      Event.broadcastVelocityUpdate relaxationParam] ++ hcsitsIterations relaxationParam n

/-- The HCSITS pipeline of one step. -/
def hcsitsPipeline (cfg : Config) (globalAcceleration : XVec3) : List Event :=
  [Event.hcsitsInitContacts, Event.hcsitsInitParticles globalAcceleration,
    Event.reduceVelocityCorrection, Event.broadcastVelocityUpdate 1]
  ++ hcsitsIterations cfg.hcsits_relaxationParameter cfg.hcsits_numberOfIterations
  ++ [Event.hcsitsIntegration]

/-- The DEM pipeline of one step. -/
def demPipeline : List Event :=
  [Event.demCollision, Event.demApplyGravity, Event.reduceContactHistory,
    Event.reduceForceTorque, Event.demIntegration]

/-- Solver dispatch on the configuration string. -/
def solverPhase (cfg : Config) (s : State) : List Event :=
  if cfg.solver = "HCSITS" then hcsitsPipeline cfg s.globalAcceleration
  else if cfg.solver = "DEM" then demPipeline
  else []

/-- The velocity-limiting pass runs for a positive limit only. -/
def limitingPhase (cfg : Config) : List Event :=
  if cfg.limitVelocity > 0 then [Event.velocityLimiting] else []

/-- Number of `syncCall`s of the loop
`for(i = 0; i < uint_c(std::ceil(maxParticleDiameter/smallestBlockSize)); ++i)`, for a block size
that is not zero and a quotient that is not negative (otherwise the conversion to `uint_t` is
not defined by the source; the count is then 0 here). -/
def ghostOwnerSyncCalls (cfg : Config) : ℕ :=
  Int.toNat ⌈cfg.maxParticleDiameter / cfg.smallestBlockSize⌉

/-- Synchronisation that follows a creation of particles. -/
def syncAfterCreation (cfg : Config) : List Event :=
  if useNextNeighborSync cfg then [Event.syncCall]
  else List.replicate (ghostOwnerSyncCalls cfg) Event.syncCall

/-- The test `particleVolume * particleDensity < totalParticleMass`. -/
def massBelowTarget (cfg : Config) (info : ParticleInfo) : Prop :=
  info.particleVolume * cfg.particleDensity < cfg.totalParticleMass

instance (cfg : Config) (info : ParticleInfo) : Decidable (massBelowTarget cfg info) := by
  unfold massBelowTarget; infer_instance

/-- The test that guards a generation event. -/
def generationTrigger (cfg : Config) (t : ℚ) (info : ParticleInfo) (s : State) : Prop :=
  info.maximumHeight
      < cfg.generationHeightRatioStart * (simulationDomain cfg).zSize - cfg.generationSpacing
    ∨ XReal.lt (maximumTimeBetweenCreation cfg) (XReal.fin (t - s.timeLastCreation)) = true

instance (cfg : Config) (t : ℚ) (info : ParticleInfo) (s : State) :
    Decidable (generationTrigger cfg t info s) := by
  unfold generationTrigger; infer_instance

/-- The branch taken while the mass is below the target. -/
def generationPhase (cfg : Config) (env : Env) (t : ℚ) (info : ParticleInfo) (s : State) :
    State × List Event :=
  if generationTrigger cfg t info s then
    ({ s with particles := env.generation s.timestep s.particles, timeLastCreation := t },
      [Event.createParticles
          (max (minGenerationHeight cfg) (cfg.generationHeightRatioStart * (simulationDomain cfg).zMax))
          (min (maxGenerationHeight cfg) (cfg.generationHeightRatioEnd * (simulationDomain cfg).zMax))
          cfg.generationSpacing cfg.initialVelocity (maximumAllowedInteractionRadius cfg),
        Event.associateToBlock] ++ syncAfterCreation cfg)
  else (s, [])

/-- First half of the shaking branch: set the end time while it is still negative, and start
shaking if it is not active yet. -/
def beginShaking (cfg : Config) (t : ℚ) (s : State) : State :=
  if s.timeEndShaking < 0 then
    if s.isShakingActive = false then
      { s with isShakingActive := true, timeBeginShaking := t,
               timeEndShaking := t + cfg.shaking_duration }
    else { s with timeEndShaking := t + cfg.shaking_duration }
  else s

/-- Second half of the shaking branch: switch shaking off after the end time. -/
def endShaking (t : ℚ) (s : State) : State :=
  if t > s.timeEndShaking then { s with shaking := false, isShakingActive := false } else s

/-- The branch taken at or above the target mass while `shaking` is set. -/
def shakingBranch (cfg : Config) (t : ℚ) (s : State) : State :=
  endShaking t (beginShaking cfg t s)

/-- The damping kernel applied to one particle. -/
def dampParticle (f : ℚ) (p : Particle) : Particle :=
  { p with linearVelocity := p.linearVelocity.scale f,
           angularVelocity := p.angularVelocity.scale f }

/-- The damping pass over the whole storage (`kernel::SelectAll`). -/
def applyDamping (f : ℚ) (ps : List Particle) : List Particle := ps.map (dampParticle f)

/-- Relative height change `std::abs(current - old) / old`. -/
def relDiff (current old : ℚ) : XReal := XReal.div |current - old| old

/-- The test on the maximum velocity. -/
def velocityConverged (cfg : Config) (info : ParticleInfo) : Prop :=
  info.maximumVelocity < cfg.terminalVelocity

instance (cfg : Config) (info : ParticleInfo) : Decidable (velocityConverged cfg info) := by
  unfold velocityConverged; infer_instance

/-- The test on the two relative height changes. -/
def heightConverged (cfg : Config) (info : ParticleInfo) (s : State) : Prop :=
  XReal.lt (relDiff info.maximumHeight s.oldMaxParticleHeight)
      (XReal.fin (10 * cfg.terminalRelativeHeightChange)) = true
    ∧ XReal.lt (relDiff info.heightOfMass s.oldAvgParticleHeight)
      (XReal.fin cfg.terminalRelativeHeightChange) = true

instance (cfg : Config) (info : ParticleInfo) (s : State) :
    Decidable (heightConverged cfg info s) := by
  unfold heightConverged; infer_instance

/-- The two time conditions under which a termination check is performed. -/
def checkDue (cfg : Config) (t : ℚ) (s : State) : Prop :=
  t - s.timeBeginDamping > cfg.minimalTerminalRunTime
    ∧ t - s.timeLastTerminationCheck > cfg.terminationCheckingSpacing

instance (cfg : Config) (t : ℚ) (s : State) : Decidable (checkDue cfg t s) := by
  unfold checkDue; infer_instance

/-- The termination check of the damping branch. -/
def terminationCheck (cfg : Config) (t : ℚ) (info : ParticleInfo) (s : State) : State :=
  if t - s.timeBeginDamping > cfg.minimalTerminalRunTime then
    if t - s.timeLastTerminationCheck > cfg.terminationCheckingSpacing then
      let s1 := if velocityConverged cfg info then { s with terminateSimulation := true } else s
      let s2 := if heightConverged cfg info s then { s1 with terminateSimulation := true } else s1
      { s2 with oldAvgParticleHeight := info.heightOfMass,
                oldMaxParticleHeight := info.maximumHeight,
                timeLastTerminationCheck := t }
    else s
  else s

/-- The start of damping is recorded once, while `timeBeginDamping` is negative. -/
def recordBeginDamping (t : ℚ) (s : State) : State :=
  if s.timeBeginDamping < 0 then { s with timeBeginDamping := t } else s

/-- The branch taken at or above the target mass when `shaking` is not set. -/
def dampingBranch (cfg : Config) (env : Env) (t : ℚ) (info : ParticleInfo) (s : State) :
    State × List Event :=
  let s1 := recordBeginDamping t s
  let s2 := { s1 with particles := applyDamping (velocityDampingFactor cfg env) s1.particles }
  (terminationCheck cfg t info s2, [Event.damping (velocityDampingFactor cfg env)])

/-- The lifecycle decision that follows `evaluateParticleInfo`. -/
def lifecycle (cfg : Config) (env : Env) (t : ℚ) (info : ParticleInfo) (s : State) :
    State × List Event :=
  if massBelowTarget cfg info then generationPhase cfg env t info s
  else if s.shaking then (shakingBranch cfg t s, [])
  else dampingBranch cfg env t info s

/-- State ahead of the lifecycle decision of a step: the shaking block and the storage as the
solver and the synchronisation leave it. -/
def beforeLifecycle (cfg : Config) (env : Env) (s : State) : State :=
  { (shakingPhase cfg env (currentTime cfg s.timestep) s).1 with
      particles := env.physics s.timestep s.particles }

/-- The aggregate evaluated in the step that starts in state `s`. -/
def stepInfo (cfg : Config) (env : Env) (s : State) : ParticleInfo :=
  env.evaluateParticleInfo s.timestep (beforeLifecycle cfg env s).particles

/-- Events of a step ahead of the lifecycle decision. -/
def physicsEvents (cfg : Config) (env : Env) (s : State) : List Event :=
  [Event.contactDetection]
  ++ (shakingPhase cfg env (currentTime cfg s.timestep) s).2
  ++ solverPhase cfg (shakingPhase cfg env (currentTime cfg s.timestep) s).1
  ++ limitingPhase cfg
  ++ [Event.syncCall, Event.associateToBlock]

/-- One execution of the loop body, `++timestep` included. -/
def stepBody (cfg : Config) (env : Env) (s : State) : State :=
  { (lifecycle cfg env (currentTime cfg s.timestep) (stepInfo cfg env s)
      (beforeLifecycle cfg env s)).1 with timestep := s.timestep + 1 }

/-- The events of one execution of the loop body. -/
def stepEvents (cfg : Config) (env : Env) (s : State) : List Event :=
  physicsEvents cfg env s
  ++ (lifecycle cfg env (currentTime cfg s.timestep) (stepInfo cfg env s)
      (beforeLifecycle cfg env s)).2

/-! ## The loop -/

/-- The loop `while (!terminateSimulation)`, cut off after `fuel` iterations: final state and the
events of the executed iterations. -/
def runLoop (cfg : Config) (env : Env) : ℕ → State → State × List Event
  | 0, s => (s, [])
  | fuel + 1, s =>
    if s.terminateSimulation then (s, [])
    else
      let r := runLoop cfg env fuel (stepBody cfg env s)
      (r.1, stepEvents cfg env s ++ r.2)

/-- State after `n` iterations of the loop (fewer, if the loop has ended before). -/
def stateAt (cfg : Config) (env : Env) : ℕ → State
  | 0 => initState cfg env
  | n + 1 =>
    if (stateAt cfg env n).terminateSimulation then stateAt cfg env n
    else stepBody cfg env (stateAt cfg env n)

/-- The exit status `EXIT_SUCCESS`. -/
def EXIT_SUCCESS : ℕ := 0

/-- Outcome of `main` from loop entry on: exit status, final value of `timestep` and the events of
the loop; `none` when the loop has not ended within `fuel` iterations. -/
def mainLoop (cfg : Config) (env : Env) (fuel : ℕ) : Option (ℕ × ℕ × List Event) :=
  let r := runLoop cfg env fuel (initState cfg env)
  if r.1.terminateSimulation then some (EXIT_SUCCESS, r.1.timestep, r.2) else none

/-! ## Derived notions used in the statements -/

section Notions

variable (cfg : Config) (env : Env)

/-- Whether an event is a `createParticles` call. -/
def Event.isCreation : Event → Bool
  | Event.createParticles _ _ _ _ _ => true
  | _ => false

/-- Whether an event is an application of the damping kernel. -/
def Event.isDamping : Event → Bool
  | Event.damping _ => true
  | _ => false

/-- A step contains a generation event when its events include a `createParticles` call. -/
def generationEvent (s : State) : Prop :=
  ∃ e ∈ stepEvents cfg env s, e.isCreation = true

/-- A step takes the damping branch when the mass is at or above the target and `shaking` is not
set. -/
def dampingStep (s : State) : Prop :=
  ¬ massBelowTarget cfg (stepInfo cfg env s) ∧ s.shaking = false

instance (s : State) : Decidable (dampingStep cfg env s) := by
  unfold dampingStep; infer_instance

/-- Value of `timeBeginDamping` when a damping step reaches its termination check. -/
def timeBeginDampingAtCheck (s : State) : ℚ :=
  if s.timeBeginDamping < 0 then currentTime cfg s.timestep else s.timeBeginDamping

/-- A step performs a termination check: it is a damping step and both time conditions hold. -/
def terminationCheckPerformed (s : State) : Prop :=
  dampingStep cfg env s
    ∧ currentTime cfg s.timestep - timeBeginDampingAtCheck cfg s > cfg.minimalTerminalRunTime
    ∧ currentTime cfg s.timestep - s.timeLastTerminationCheck > cfg.terminationCheckingSpacing

instance (s : State) : Decidable (terminationCheckPerformed cfg env s) := by
  unfold terminationCheckPerformed; infer_instance

/-- The loop body is executed a further time from the state after `n` iterations. -/
def running (n : ℕ) : Prop := (stateAt cfg env n).terminateSimulation = false

instance (n : ℕ) : Decidable (running cfg env n) := by
  unfold running; infer_instance

/-- Shaking that is active is also still configured, and the flag is unset while shaking is
configured. -/
def shakingInvariant (s : State) : Prop :=
  (s.isShakingActive = true → s.shaking = true)
    ∧ (s.shaking = true → s.terminateSimulation = false)

/-- Step `n` of the run is executed and performs a termination check. -/
def checkAt (n : ℕ) : Prop :=
  running cfg env n ∧ terminationCheckPerformed cfg env (stateAt cfg env n)

/-- A step takes the shaking branch when the mass is at or above the target and `shaking` is
set. -/
def shakingStep (s : State) : Prop :=
  ¬ massBelowTarget cfg (stepInfo cfg env s) ∧ s.shaking = true

/-- State of a run before the target mass has been reached for the first time, for shaking that
is configured but not active from the beginning. -/
def awaitingShaking (s : State) : Prop :=
  s.shaking = true ∧ s.isShakingActive = false ∧ s.timeEndShaking < 0
    ∧ s.terminateSimulation = false

/-- State of a run with shaking configured, before the target mass has been reached for the
first time. -/
def beforeTarget (s : State) : Prop :=
  s.shaking = true ∧ s.timeEndShaking < 0 ∧ s.terminateSimulation = false
    ∧ s.isShakingActive = cfg.shaking_activeFromBeginning
    ∧ (cfg.shaking_activeFromBeginning = true → s.timeBeginShaking = 0)

/-- Step `n` has its mass at or above the target and its time strictly after the time of step
`k` plus `shaking_duration`. -/
def switchOffDue (k n : ℕ) : Prop :=
  ¬ massBelowTarget cfg (stepInfo cfg env (stateAt cfg env n))
    ∧ currentTime cfg n > currentTime cfg k + cfg.shaking_duration

instance (k n : ℕ) : Decidable (switchOffDue cfg env k n) := by
  unfold switchOffDue; infer_instance

/-- State of a run after shaking has been started in step `k` and before it is switched off. The
end time is the one set in step `k`; for a negative time step it can be one set in a later
step. -/
def shakingOn (k : ℕ) (s : State) : Prop :=
  s.shaking = true ∧ s.isShakingActive = true ∧ s.terminateSimulation = false
    ∧ s.timeBeginShaking = currentTime cfg k
    ∧ ((0 ≤ cfg.dt ∧ s.timeEndShaking = currentTime cfg k + cfg.shaking_duration)
      ∨ (cfg.dt < 0 ∧ ∃ j, k ≤ j ∧ j < s.timestep
          ∧ s.timeEndShaking = currentTime cfg j + cfg.shaking_duration))

end Notions

/-! ## A concrete run

A configuration with the shaking parameters of the second test scenario (amplitude 0.05, period
0.1), the HCSITS solver, time step 0.01 and shaking duration 0. The aggregate volume equals the
step index, so that step 0 is a generating step and step 1 reaches the target mass. -/

/-- Stand-in for `std::sin`: the Taylor polynomial of degree 7. -/
def sinTaylor (x : ℚ) : ℚ := x - x ^ 3 / 6 + x ^ 5 / 120 - x ^ 7 / 5040

/-- Stand-in for `std::pow`: the first-order expansion in the exponent, exact for the exponents 0
and 1 and for the base 1. -/
def powLinear (b e : ℚ) : ℚ := 1 + e * (b - 1)

/-- The configuration of the concrete run. -/
def exampleConfig : Config where
  domainSetup := "container"
  domainWidth := 10
  domainHeight := 20
  particleDensity := 2650
  ambientDensity := 0
  gravitationalAcceleration := 981 / 100
  limitVelocity := 0
  initialVelocity := 1
  generationSpacing := 1
  generationHeightRatioStart := 1 / 2
  generationHeightRatioEnd := 1
  totalParticleMass := 2650
  terminalVelocity := 1 / 1000
  terminalRelativeHeightChange := 1 / 100000
  terminationCheckingSpacing := 0
  minimalTerminalRunTime := 0
  velocityDampingCoefficient := 1 / 2
  solver := "HCSITS"
  dt := 1 / 100
  hcsits_relaxationParameter := 3 / 4
  hcsits_numberOfIterations := 2
  shaking := true
  shaking_amplitude := 1 / 20
  shaking_period := 1 / 10
  shaking_duration := 0
  shaking_activeFromBeginning := false
  smallestBlockSize := 10
  maxParticleDiameter := 1

/-- A particle at rest apart from a unit velocity along `x` and a unit spin about `z`. -/
def exampleParticle (ghost : Bool) : Particle where
  position := ⟨0, 0, 5⟩
  linearVelocity := ⟨1, 0, -2⟩
  angularVelocity := ⟨0, 0, 1⟩
  interactionRadius := 1 / 2
  owner := 0
  ghost := ghost

/-- The collaborators of the concrete run: the storage holds one local and one ghost particle and
is left alone by solver and generation; the aggregate volume is the step index, and the maximum
velocity drops to zero in step 5. -/
def exampleEnv : Env where
  pow := powLinear
  sin := sinTaylor
  pi := 355 / 113
  initialParticles := [exampleParticle false, exampleParticle true]
  physics := fun _ ps => ps
  generation := fun _ ps => ps
  evaluateParticleInfo := fun n _ => ⟨n, n, 5, 3, if n < 5 then 1 else 0⟩

/-- The value of the shaking acceleration stored in step 2 of the concrete run. -/
def exampleStaleAcceleration : XReal :=
  XReal.fin (87832457285277525930175 / 757018568372035604796)

/-! ## Start-up: validation, generator dispatch, synchronisation set-up

The part of `main` ahead of the loop. Calls into other translation units (configuration parsing,
`createBlockForest`, `str_to_scaleMode`, the constructors of the generators) are taken to
return. -/

/-- The enumeration `kernel::HCSITSRelaxationStep::RelaxationModel`. -/
inductive RelaxationModel where
  | InelasticFrictionlessContact
  | ApproximateInelasticCoulombContactByDecoupling
  | ApproximateInelasticCoulombContactByOrthogonalProjections
  | InelasticCoulombContactByDecoupling
  | InelasticCoulombContactByOrthogonalProjections
  | InelasticGeneralizedMaximumDissipationContact
  | InelasticProjectedGaussSeidel
  deriving DecidableEq, Repr

/-- The identifier of a variant, as written in the source. -/
def RelaxationModel.name : RelaxationModel → String
  | InelasticFrictionlessContact => "InelasticFrictionlessContact"
  | ApproximateInelasticCoulombContactByDecoupling =>
    "ApproximateInelasticCoulombContactByDecoupling"
  | ApproximateInelasticCoulombContactByOrthogonalProjections =>
    "ApproximateInelasticCoulombContactByOrthogonalProjections"
  | InelasticCoulombContactByDecoupling => "InelasticCoulombContactByDecoupling"
  | InelasticCoulombContactByOrthogonalProjections =>
    "InelasticCoulombContactByOrthogonalProjections"
  | InelasticGeneralizedMaximumDissipationContact =>
    "InelasticGeneralizedMaximumDissipationContact"
  | InelasticProjectedGaussSeidel => "InelasticProjectedGaussSeidel"

/-- The function `relaxationModelFromString`; `WALBERLA_ABORT` is the error result. -/
def relaxationModelFromString (model : String) : Except String RelaxationModel :=
  if model = "InelasticFrictionlessContact" then
    Except.ok RelaxationModel.InelasticFrictionlessContact
  else if model = "ApproximateInelasticCoulombContactByDecoupling" then
    Except.ok RelaxationModel.ApproximateInelasticCoulombContactByDecoupling
  else if model = "ApproximateInelasticCoulombContactByOrthogonalProjections" then
    Except.ok RelaxationModel.ApproximateInelasticCoulombContactByOrthogonalProjections
  else if model = "InelasticCoulombContactByDecoupling" then
    Except.ok RelaxationModel.InelasticCoulombContactByDecoupling
  else if model = "InelasticCoulombContactByOrthogonalProjections" then
    Except.ok RelaxationModel.InelasticCoulombContactByOrthogonalProjections
  else if model = "InelasticGeneralizedMaximumDissipationContact" then
    Except.ok RelaxationModel.InelasticGeneralizedMaximumDissipationContact
  else if model = "InelasticProjectedGaussSeidel" then
    Except.ok RelaxationModel.InelasticProjectedGaussSeidel
  else Except.error ("Unknown relaxation model " ++ model)

/-- The names `relaxationModelFromString` recognises. -/
def relaxationModelNames : List String :=
  ["InelasticFrictionlessContact", "ApproximateInelasticCoulombContactByDecoupling",
    "ApproximateInelasticCoulombContactByOrthogonalProjections",
    "InelasticCoulombContactByDecoupling", "InelasticCoulombContactByOrthogonalProjections",
    "InelasticGeneralizedMaximumDissipationContact", "InelasticProjectedGaussSeidel"]

/-- The normalized-form generator handed to a shape generator. -/
inductive FormGenerator where
  | SampleFormGenerator (semiAxesFromMeshFiles : Bool)
  | DistributionFormGenerator
  | ConstFormGenerator
  deriving DecidableEq, Repr

/-- The shape generator constructed by the shape dispatch. -/
inductive ShapeGeneratorChoice where
  | SphereGenerator
  | EllipsoidGenerator (form : FormGenerator)
  | MeshesGenerator (form : FormGenerator)
  | UnscaledMeshesPerFractionGenerator
  deriving DecidableEq, Repr

/-- The dispatch on `particleShape`; `WALBERLA_ABORT` is the error result. -/
def shapeDispatch (particleShape : String) : Except String ShapeGeneratorChoice :=
  if particleShape = "Sphere" then Except.ok ShapeGeneratorChoice.SphereGenerator
  else if particleShape = "Ellipsoid" then
    Except.ok (ShapeGeneratorChoice.EllipsoidGenerator (FormGenerator.SampleFormGenerator false))
  else if particleShape = "EquivalentEllipsoid" then
    Except.ok (ShapeGeneratorChoice.EllipsoidGenerator (FormGenerator.SampleFormGenerator true))
  else if particleShape = "EllipsoidFormDistribution" then
    Except.ok (ShapeGeneratorChoice.EllipsoidGenerator FormGenerator.DistributionFormGenerator)
  else if particleShape = "Mesh" then
    Except.ok (ShapeGeneratorChoice.MeshesGenerator FormGenerator.ConstFormGenerator)
  else if particleShape = "MeshFormDistribution" then
    Except.ok (ShapeGeneratorChoice.MeshesGenerator FormGenerator.DistributionFormGenerator)
  else if particleShape = "UnscaledMeshesPerFraction" then
    Except.ok ShapeGeneratorChoice.UnscaledMeshesPerFractionGenerator
  else Except.error ("Unknown shape " ++ particleShape)

/-- The names the shape dispatch recognises. -/
def shapeNames : List String :=
  ["Sphere", "Ellipsoid", "EquivalentEllipsoid", "EllipsoidFormDistribution", "Mesh",
    "MeshFormDistribution", "UnscaledMeshesPerFraction"]

/-- The diameter generator constructed by the distribution dispatch. `DiscreteSieving` is built
from the configured diameters or from the mean diameters of the sieve sizes. -/
inductive DiameterGeneratorChoice where
  | LogNormal
  | Uniform
  | DiscreteSieving (fromSieveSizes : Bool)
  | ContinuousSieving
  deriving DecidableEq, Repr

/-- The dispatch on `particleDistribution`; `WALBERLA_ABORT` is the error result. -/
def distributionDispatch (particleDistribution : String) (useDiscreteForm : Bool) :
    Except String DiameterGeneratorChoice :=
  if particleDistribution = "LogNormal" then Except.ok DiameterGeneratorChoice.LogNormal
  else if particleDistribution = "Uniform" then Except.ok DiameterGeneratorChoice.Uniform
  else if particleDistribution = "DiameterMassFractions" then
    Except.ok (DiameterGeneratorChoice.DiscreteSieving false)
  else if particleDistribution = "SievingCurve" then
    if useDiscreteForm then Except.ok (DiameterGeneratorChoice.DiscreteSieving true)
    else Except.ok DiameterGeneratorChoice.ContinuousSieving
  else Except.error ("Unknown particle distribution specified: " ++ particleDistribution)

/-- The names the distribution dispatch recognises. -/
def distributionNames : List String :=
  ["LogNormal", "Uniform", "DiameterMassFractions", "SievingCurve"]

/-- Whether a dispatch aborts the run. -/
def aborts {α : Type} : Except String α → Bool
  | Except.error _ => true
  | Except.ok _ => false

/-- Configuration values read by `main` that only the part ahead of the loop uses. -/
structure StartupInput where
  particleShape : String
  particleDistribution : String
  sievingCurve_useDiscreteForm : Bool
  hcsits_relaxationModel : String
  initialGenerationHeightRatioStart : ℚ
  initialGenerationHeightRatioEnd : ℚ
  numBlocksPerDirection : ℕ × ℕ × ℕ

/-- The check `WALBERLA_CHECK(domainSetup == "container" || domainSetup == "periodic")`. -/
def checkDomainSetup (cfg : Config) : Bool :=
  decide (cfg.domainSetup = "container" ∨ cfg.domainSetup = "periodic")

/-- The check `WALBERLA_CHECK_GREATER(domainWidth, generationSpacing, ...)`. -/
def checkGenerationSpacing (cfg : Config) : Bool :=
  decide (cfg.domainWidth > cfg.generationSpacing)

/-- The particles created ahead of the loop: the two planes, the cylinder of the container
set-up and the initial fill. -/
def initialCreation (cfg : Config) (inp : StartupInput) : List Event :=
  [Event.createPlane, Event.createPlane]
  ++ (if cfg.domainSetup = "container" then [Event.createCylindricalBoundary] else [])
  ++ [Event.createParticles
      (max (minGenerationHeight cfg)
        (inp.initialGenerationHeightRatioStart * (simulationDomain cfg).zMax))
      (min (maxGenerationHeight cfg)
        (inp.initialGenerationHeightRatioEnd * (simulationDomain cfg).zMax))
      cfg.generationSpacing cfg.initialVelocity (maximumAllowedInteractionRadius cfg)]

/-- The initial synchronisation: re-association, then one `syncCall` or the repeated ones. -/
def initialSynchronization (cfg : Config) : List Event :=
  Event.associateToBlock :: syncAfterCreation cfg

/-- Outcome of the part of `main` ahead of the loop. -/
inductive StartupResult where
  | aborted (message : String) (events : List Event)
  | ready (relaxationModel : RelaxationModel) (events : List Event)
  deriving Repr

/-- The part of `main` ahead of the loop, in program order: the two checks, the shape and the
distribution dispatch, the creation of the initial particles, the initial synchronisation and
the conversion of the relaxation model. An abort carries the events that came before it. -/
def startup (cfg : Config) (inp : StartupInput) : StartupResult :=
  if checkDomainSetup cfg = false then
    StartupResult.aborted "domainSetup is neither container nor periodic" []
  else if checkGenerationSpacing cfg = false then
    StartupResult.aborted "Generation Spacing has to be smaller than domain size" []
  else
    match shapeDispatch inp.particleShape with
    | Except.error m => StartupResult.aborted m []
    | Except.ok _ =>
      match distributionDispatch inp.particleDistribution inp.sievingCurve_useDiscreteForm with
      | Except.error m => StartupResult.aborted m []
      | Except.ok _ =>
        match relaxationModelFromString inp.hcsits_relaxationModel with
        | Except.error m =>
          StartupResult.aborted m (initialCreation cfg inp ++ initialSynchronization cfg)
        | Except.ok r =>
          StartupResult.ready r (initialCreation cfg inp ++ initialSynchronization cfg)

/-- Whether the part ahead of the loop has ended in an abort. -/
def StartupResult.isAborted : StartupResult → Bool
  | StartupResult.aborted _ _ => true
  | StartupResult.ready _ _ => false

/-- The events of the part ahead of the loop. -/
def StartupResult.events : StartupResult → List Event
  | StartupResult.aborted _ ev => ev
  | StartupResult.ready _ ev => ev

/-- Whether an event creates a particle in the storage. -/
def Event.createsParticle : Event → Bool
  | Event.createParticles _ _ _ _ _ => true
  | Event.createPlane => true
  | Event.createCylindricalBoundary => true
  | _ => false

/-- The interaction-radius bound of a `createParticles` call. -/
def Event.interactionRadiusBound : Event → Option XReal
  | Event.createParticles _ _ _ _ r => some r
  | _ => none

/-- Whether an event belongs to one of the two solver pipelines. -/
def Event.isSolverEvent : Event → Bool
  | Event.hcsitsInitContacts => true
  | Event.hcsitsInitParticles _ => true
  | Event.reduceVelocityCorrection => true
  | Event.broadcastVelocityUpdate _ => true
  | Event.hcsitsRelaxationStep => true
  | Event.hcsitsIntegration => true
  | Event.demCollision => true
  | Event.demApplyGravity => true
  | Event.reduceContactHistory => true
  | Event.reduceForceTorque => true
  | Event.demIntegration => true
  | _ => false

/-! ### Synchronisation set-up -/

/-- The function `std::min` on values that may be non-finite: `(b < a) ? b : a`. -/
def XReal.min (a b : XReal) : XReal := if XReal.lt b a = true then b else a

/-- Extent of the box in `x`. -/
def AABB.xSize (b : AABB) : ℚ := b.xMax - b.xMin

/-- Extent of the box in `y`. -/
def AABB.ySize (b : AABB) : ℚ := b.yMax - b.yMin

/-- The smallest block extent: the minimum over the three directions of the domain extent
divided by the number of blocks. -/
def smallestBlockSize (cfg : Config) (numBlocksPerDirection : ℕ × ℕ × ℕ) : XReal :=
  XReal.min (XReal.div (simulationDomain cfg).xSize (numBlocksPerDirection.1 : ℚ))
    (XReal.min (XReal.div (simulationDomain cfg).ySize (numBlocksPerDirection.2.1 : ℚ))
      (XReal.div (simulationDomain cfg).zSize (numBlocksPerDirection.2.2 : ℚ)))

/-- The expected maximum interaction diameter: the estimate
`maxGenerationParticleDiameter * getMaxDiameterScalingFactor()`, replaced by 1.1 times the
sampled maximum if it is smaller than the sampled maximum, then replaced by twice the allowed
interaction radius if it is larger than that. -/
def maxParticleDiameter (maxGenerationParticleDiameter maxDiameterScalingFactor sampleMax : ℚ)
    (maximumAllowedInteractionRadius : XReal) : XReal :=
  let estimate := maxGenerationParticleDiameter * maxDiameterScalingFactor
  let widened := if estimate < sampleMax then 11 / 10 * sampleMax else estimate
  if XReal.lt (maximumAllowedInteractionRadius.mulRat 2) (XReal.fin widened) = true then
    maximumAllowedInteractionRadius.mulRat 2
  else XReal.fin widened

/-- The formula of the specification for the expected maximum interaction diameter:
`min(max(T, 1.1 * S), 2 * maximumAllowedInteractionRadius)`. -/
def specMaxParticleDiameter (T S : ℚ) (maximumAllowedInteractionRadius : XReal) : XReal :=
  match maximumAllowedInteractionRadius.mulRat 2 with
  | XReal.fin b => XReal.fin (min (max T (11 / 10 * S)) b)
  | XReal.posInf => XReal.fin (max T (11 / 10 * S))
  | XReal.negInf => XReal.negInf
  | XReal.nan => XReal.nan

/-- The cell width of the linked cells, `1.01 * maxParticleDiameter`. -/
def linkedCellWidth (maxParticleDiameter : ℚ) : ℚ := 101 / 100 * maxParticleDiameter

/-- The values inserted into `diameterSample`: twice the interaction radius of every local
particle. -/
def diameterSample (ps : List Particle) : List ℚ :=
  (ps.filter (fun p => !p.ghost)).map (fun p => 2 * p.interactionRadius)

/-- The two synchronisation routines `syncCall` can be bound to. -/
inductive SyncRoutine where
  | SyncNextNeighborsBlockForest
  | SyncGhostOwners
  deriving DecidableEq, Repr

/-- The routine `syncCall` is bound to. -/
def syncCall (cfg : Config) : SyncRoutine :=
  if useNextNeighborSync cfg then SyncRoutine.SyncNextNeighborsBlockForest
  else SyncRoutine.SyncGhostOwners

/-- A record of the contact storage. -/
structure Contact where
  id1 : ℕ
  id2 : ℕ
  distance : ℚ
  normal : Vec3
  position : Vec3
  deriving DecidableEq, Repr

/-- What a contact-detection functor holds after it has reported a contact. -/
structure Detection where
  idx1 : ℕ
  idx2 : ℕ
  penetrationDepth : ℚ
  contactNormal : Vec3
  contactPoint : Vec3
  deriving DecidableEq, Repr

/-- Collaborators of the contact pipeline. Each is a function of the particle storage of the
step: the pair enumerations of the two broad-phase structures (rebuilt from the storage, with
`kernel::ExcludeInfiniteInfinite`), the three detections and the ownership filter. -/
structure ContactEnv where
  /-- Pairs of `hashGrids.forEachParticlePairHalf`, in iteration order. -/
  hashGridPairs : List Particle → List (ℕ × ℕ)
  /-- Pairs of `linkedCells.forEachParticlePairHalf`, in iteration order. -/
  linkedCellPairs : List Particle → List (ℕ × ℕ)
  /-- The detection `AnalyticContactDetection` applied through `double_cast`. -/
  analyticContactDetection : List Particle → ℕ → ℕ → Option Detection
  /-- The detection `GeneralContactDetection` applied through `double_cast` to the two shapes. -/
  generalContactDetection : List Particle → ℕ → ℕ → Option Detection
  /-- The detection `GeneralContactDetection` applied to the two spheres of the interaction
  radii. -/
  boundingSphereDetection : List Particle → ℕ → ℕ → Option Detection
  /-- The ownership filter `mpi::ContactFilter`. -/
  contact_filter : List Particle → ℕ → ℕ → Vec3 → Bool

/-- The call `contactStorage->clear()`. -/
def ContactStorage.clear (_ : List Contact) : List Contact := []

/-- The call `contactStorage->create()` followed by the five setters. -/
def ContactStorage.create (storage : List Contact) (d : Detection) : List Contact :=
  storage ++ [⟨d.idx1, d.idx2, d.penetrationDepth, d.contactNormal, d.contactPoint⟩]

/-- The kernel of the hash-grid path: exact detection, then the ownership filter on its
result. -/
def hashGridKernel (ce : ContactEnv) (ps : List Particle) (storage : List Contact)
    (pair : ℕ × ℕ) : List Contact :=
  match ce.generalContactDetection ps pair.1 pair.2 with
  | some d =>
    if ce.contact_filter ps d.idx1 d.idx2 d.contactPoint then ContactStorage.create storage d
    else storage
  | none => storage

/-- The kernel `kernel::DetectAndStoreContacts` with the analytic detection: detection, then the
ownership filter on its result. -/
def detectAndStore (ce : ContactEnv) (ps : List Particle) (storage : List Contact)
    (pair : ℕ × ℕ) : List Contact :=
  match ce.analyticContactDetection ps pair.1 pair.2 with
  | some d =>
    if ce.contact_filter ps d.idx1 d.idx2 d.contactPoint then ContactStorage.create storage d
    else storage
  | none => storage

/-- The kernel of the linked-cell path for shapes other than spheres: bounding-sphere
detection, the ownership filter on its result, then exact detection. -/
def linkedCellKernel (ce : ContactEnv) (ps : List Particle) (storage : List Contact)
    (pair : ℕ × ℕ) : List Contact :=
  match ce.boundingSphereDetection ps pair.1 pair.2 with
  | some coarse =>
    if ce.contact_filter ps coarse.idx1 coarse.idx2 coarse.contactPoint then
      match ce.generalContactDetection ps pair.1 pair.2 with
      | some d => ContactStorage.create storage d
      | none => storage
    else storage
  | none => storage

/-- The contact pipeline of one step: the storage is cleared and then filled by the kernel of
the configured path, applied to the pairs in iteration order. -/
def contactPipeline (ce : ContactEnv) (useHashGrids : Bool) (particleShape : String)
    (ps : List Particle) (contactStorage : List Contact) : List Contact :=
  if useHashGrids then
    (ce.hashGridPairs ps).foldl (hashGridKernel ce ps) (ContactStorage.clear contactStorage)
  else if particleShape = "Sphere" then
    (ce.linkedCellPairs ps).foldl (detectAndStore ce ps) (ContactStorage.clear contactStorage)
  else
    (ce.linkedCellPairs ps).foldl (linkedCellKernel ce ps) (ContactStorage.clear contactStorage)

/-! ## Creation of particles at lattice points -/

/-- The shape source (`ShapeGenerator`), a collaborator. -/
structure ShapeGenerator where
  getNormalFormParameters : Vec3
  getMaxDiameterScalingFactor : ℚ
  /-- The interaction radius written by the `k`-th call
  `setShape(diameter, maximumAllowedInteractionRadius, shape, interactionRadius)`. -/
  setShape : ℕ → ℚ → XReal → ℚ

/-- Collaborators of `ParticleCreator`. -/
structure CreatorEnv where
  /-- The rank of the process. -/
  rank : ℤ
  /-- The query `particleDomain_->isContainedInLocalSubdomain(pt, 0)`. -/
  isContainedInLocalSubdomain : Vec3 → Bool
  /-- The value of the `i`-th call `diameterGenerator->get()`. -/
  diameterGenerator : ℕ → ℚ
  /-- The value of the `j`-th call `math::realRandom(min, max, gen_)`. -/
  realRandom : ℕ → ℚ → ℚ → ℚ
  shapeGenerator : ShapeGenerator

/-- What `createParticles` sets on a new particle. The angular velocity is a quotient by the
drawn diameter. -/
structure CreatedParticle where
  position : Vec3
  interactionRadius : ℚ
  linearVelocity : Vec3
  angularVelocity : XVec3
  owner : ℤ
  type : ℕ
  deriving DecidableEq, Repr

/-- Centre of the box. -/
def AABB.center (b : AABB) : Vec3 :=
  ⟨(b.xMin + b.xMax) / 2, (b.yMin + b.yMax) / 2, (b.zMin + b.zMax) / 2⟩

/-- The radial rejection of the container set-up,
`distance > containerRadius - 0.5 * spacing` with `distance` the length of the horizontal offset
from the domain centre. The length is a square root; it exceeds a bound `c` exactly when `c` is
negative or the squared length exceeds `c * c`. -/
def outsideContainer (cfg : Config) (spacing : ℚ) (pt : Vec3) : Prop :=
  let dx := pt.x - (simulationDomain cfg).center.x
  let dy := pt.y - (simulationDomain cfg).center.y
  let c := 1 / 2 * (simulationDomain cfg).xSize - 1 / 2 * spacing
  c < 0 ∨ dx * dx + dy * dy > c * c

instance (cfg : Config) (spacing : ℚ) (pt : Vec3) : Decidable (outsideContainer cfg spacing pt) := by
  unfold outsideContainer; infer_instance

/-- The particle created at an accepted point: the `k`-th particle of this creator, with the
random numbers `5 k .. 5 k + 4` of its generator. -/
def newParticle (ce : CreatorEnv) (initialVelocity : ℚ)
    (maximumAllowedInteractionRadius : XReal) (pt : Vec3) (diameter : ℚ) (k : ℕ) :
    CreatedParticle where
  position := pt
  interactionRadius := ce.shapeGenerator.setShape k diameter maximumAllowedInteractionRadius
  linearVelocity :=
    ⟨1 / 10 * ce.realRandom (5 * k) (-initialVelocity) initialVelocity,
      1 / 10 * ce.realRandom (5 * k + 1) (-initialVelocity) initialVelocity,
      -initialVelocity⟩
  angularVelocity :=
    ⟨XReal.div (1 / 10 * ce.realRandom (5 * k + 2) (-initialVelocity) initialVelocity) diameter,
      XReal.div (1 / 10 * ce.realRandom (5 * k + 3) (-initialVelocity) initialVelocity) diameter,
      XReal.div (1 / 10 * ce.realRandom (5 * k + 4) (-initialVelocity) initialVelocity) diameter⟩
  owner := ce.rank
  type := 0

/-- The loop of `createParticles` over the lattice points `pts` (scaled back, in iteration
order): a diameter is drawn for every point, points outside the local subdomain and, in the
container set-up, outside the reduced cylinder are skipped, and a particle is created at every
other point. `i` counts the diameters drawn and `k` the particles created so far. -/
def createAtPoints (cfg : Config) (ce : CreatorEnv) (spacing initialVelocity : ℚ)
    (maximumAllowedInteractionRadius : XReal) : List Vec3 → ℕ → ℕ → List CreatedParticle
  | [], _, _ => []
  | pt :: rest, i, k =>
    if ce.isContainedInLocalSubdomain pt = false then
      createAtPoints cfg ce spacing initialVelocity maximumAllowedInteractionRadius rest (i + 1) k
    else if cfg.domainSetup = "container" ∧ outsideContainer cfg spacing pt then
      createAtPoints cfg ce spacing initialVelocity maximumAllowedInteractionRadius rest (i + 1) k
    else
      newParticle ce initialVelocity maximumAllowedInteractionRadius pt
          (ce.diameterGenerator i) k
        :: createAtPoints cfg ce spacing initialVelocity maximumAllowedInteractionRadius rest
            (i + 1) (k + 1)

/-- A shape source respects its bound: the interaction radius it writes never exceeds a finite
bound it is given. -/
def ShapeGenerator.respectsBound (sg : ShapeGenerator) : Prop :=
  ∀ (k : ℕ) (diameter bound : ℚ), sg.setShape k diameter (XReal.fin bound) ≤ bound

/-! ## Concrete inputs of the part ahead of the loop -/

/-- Start-up values of the concrete run: spheres of one diameter, the frictionless relaxation
model, one block. -/
def exampleStartupInput : StartupInput where
  particleShape := "Sphere"
  particleDistribution := "Uniform"
  sievingCurve_useDiscreteForm := false
  hcsits_relaxationModel := "InelasticFrictionlessContact"
  initialGenerationHeightRatioStart := 1 / 10
  initialGenerationHeightRatioEnd := 1
  numBlocksPerDirection := (1, 1, 1)

/-- The configuration of the concrete run with a solver name in lower case. -/
def unknownSolverConfig : Config := { exampleConfig with solver := "hcsits" }

/-- Ordered comparison `x ≤ y`; every comparison with `NaN` is false. -/
def XReal.le : XReal → XReal → Bool
  | XReal.fin a, XReal.fin b => decide (a ≤ b)
  | XReal.fin _, XReal.posInf => true
  | XReal.negInf, XReal.fin _ => true
  | XReal.negInf, XReal.negInf => true
  | XReal.negInf, XReal.posInf => true
  | XReal.posInf, XReal.posInf => true
  | _, _ => false

/-- The concrete run on a domain of 10 x 10 x 20 blocks: blocks of extent 1 for particles of
diameter 1. -/
def denseBlocksConfig : Config := { exampleConfig with smallestBlockSize := 1 }

/-- A local particle of the given interaction radius. -/
def particleOfRadius (r : ℚ) : Particle := { exampleParticle false with interactionRadius := r }

/-- The concrete run with an estimated maximum diameter of 1 and an initial batch of
interaction diameter 2, which widens the expected maximum to 2.2. -/
def driftConfig : Config := { exampleConfig with maxParticleDiameter := 11 / 5 }

/-- Collaborators for `driftConfig`: every generation event adds a particle of interaction
diameter 3. -/
def driftEnv : Env :=
  { exampleEnv with
      initialParticles := [particleOfRadius 1, particleOfRadius 1]
      generation := fun _ ps => ps ++ [particleOfRadius (3 / 2)] }

/-- The concrete run in the periodic set-up: the allowed interaction radius is 2.5. -/
def periodicConfig : Config := { exampleConfig with domainSetup := "periodic" }

/-- A shape source for spheres that clamps the radius to a finite bound. -/
def clampingSphereGenerator : ShapeGenerator where
  getNormalFormParameters := ⟨1, 1, 1⟩
  getMaxDiameterScalingFactor := 1
  setShape := fun _ diameter bound =>
    match bound with
    | XReal.fin b => min (diameter / 2) b
    | _ => diameter / 2

/-- Collaborators of a creator on rank 0 whose subdomain is the whole domain and whose diameter
source returns 1.5 times the allowed interaction radius of `periodicConfig`, then 20. -/
def exampleCreatorEnv : CreatorEnv where
  rank := 0
  isContainedInLocalSubdomain := fun _ => true
  diameterGenerator := fun i => if i = 0 then 15 / 4 else 20
  realRandom := fun _ lo hi => (lo + hi) / 2
  shapeGenerator := clampingSphereGenerator

/-- Collaborators of a contact pipeline on two particles: one candidate pair, in contact and
owned by this process. -/
def exampleContactEnv : ContactEnv where
  hashGridPairs := fun _ => [(0, 1)]
  linkedCellPairs := fun _ => [(0, 1)]
  analyticContactDetection := fun _ i j => some ⟨i, j, -(1 / 100), ⟨1, 0, 0⟩, ⟨0, 0, 5⟩⟩
  generalContactDetection := fun _ i j => some ⟨i, j, -(1 / 100), ⟨1, 0, 0⟩, ⟨0, 0, 5⟩⟩
  boundingSphereDetection := fun _ i j => some ⟨i, j, -(1 / 50), ⟨1, 0, 0⟩, ⟨0, 0, 5⟩⟩
  contact_filter := fun _ _ _ _ => true

/-- The concrete run with a generation spacing equal to the domain width. -/
def wideSpacingConfig : Config := { exampleConfig with generationSpacing := 10 }

/-- A collaborator set for two non-spherical particles whose bounding spheres touch at a point
that the ownership filter assigns to another process, while the exact contact point lies in the
local subdomain: the filter accepts contact points with positive x only. -/
def splitOwnershipContactEnv : ContactEnv where
  hashGridPairs := fun _ => [(0, 1)]
  linkedCellPairs := fun _ => [(0, 1)]
  analyticContactDetection := fun _ _ _ => none
  generalContactDetection := fun _ i j => some ⟨i, j, -(1 / 100), ⟨1, 0, 0⟩, ⟨1 / 10, 0, 5⟩⟩
  boundingSphereDetection := fun _ i j => some ⟨i, j, -(1 / 50), ⟨1, 0, 0⟩, ⟨-(1 / 10), 0, 5⟩⟩
  contact_filter := fun _ _ _ pt => decide (0 < pt.x)

/-- The velocity broadcasts of the HCSITS pipeline. -/
def Event.isBroadcast : Event → Bool
  | Event.broadcastVelocityUpdate _ => true
  | _ => false

/-- The two indices of a contact are distinct indices of the particle list. -/
def Contact.indicesValid (ps : List Particle) (c : Contact) : Prop :=
  c.id1 ≠ c.id2 ∧ c.id1 < ps.length ∧ c.id2 < ps.length

/-- Every broadcast of the list directly follows a reduce, for a list that comes after the
event `prev`. -/
def broadcastsFollowReduce (prev : Event) : List Event → Prop
  | [] => True
  | e :: l => (e.isBroadcast = true → prev = Event.reduceVelocityCorrection)
      ∧ broadcastsFollowReduce e l

/-! ## Spacing scaling of the generation lattice -/

/-- The quotient `1_r / s`. -/
def XReal.inv : XReal → XReal
  | XReal.fin q => XReal.div 1 q
  | XReal.posInf => XReal.fin 0
  | XReal.negInf => XReal.fin 0
  | XReal.nan => XReal.nan

/-- The vector ahead of the sorting: the normal-form parameters of the shape source divided by
their component at index 1, or `Vec3(1_r)` without form scaling. -/
def normalizedForm (scaleGenerationSpacingWithForm : Bool) (sg : ShapeGenerator) : XVec3 :=
  if scaleGenerationSpacingWithForm then
    ⟨XReal.div sg.getNormalFormParameters.x sg.getNormalFormParameters.y,
      XReal.div sg.getNormalFormParameters.y sg.getNormalFormParameters.y,
      XReal.div sg.getNormalFormParameters.z sg.getNormalFormParameters.y⟩
  else ⟨XReal.fin 1, XReal.fin 1, XReal.fin 1⟩

/-- Exchange of the components at indices 0 and 1 if they are out of order. -/
def XVec3.orderXY (v : XVec3) : XVec3 := if XReal.lt v.y v.x = true then ⟨v.y, v.x, v.z⟩ else v

/-- Exchange of the components at indices 1 and 2 if they are out of order. -/
def XVec3.orderYZ (v : XVec3) : XVec3 := if XReal.lt v.z v.y = true then ⟨v.x, v.z, v.y⟩ else v

/-- Modelled from the spec: `sortVector` of `Utility.h`, which sorts the three components; the
call site names the result `S, I, L`, the components in ascending order. -/
def sortVector (v : XVec3) : XVec3 := v.orderXY.orderYZ.orderXY

/-- The vector `spacingScaling` of `createParticles` after `sortVector(spacingScaling)`. -/
def spacingScaling (scaleGenerationSpacingWithForm : Bool) (sg : ShapeGenerator) : XVec3 :=
  sortVector (normalizedForm scaleGenerationSpacingWithForm sg)

/-- The vector `invScaling(1_r/spacingScaling[0], 1_r/spacingScaling[1], 1_r/spacingScaling[2])`. -/
def invScaling (s : XVec3) : XVec3 := ⟨s.x.inv, s.y.inv, s.z.inv⟩

/-- Box whose bounds may be non-finite. -/
structure XAABB where
  xMin : XReal
  yMin : XReal
  zMin : XReal
  xMax : XReal
  yMax : XReal
  zMax : XReal
  deriving DecidableEq, Repr

/-- The box `creationDomain`: the bounds of the simulation domain and of the generation layer
times the inverse scaling. -/
def creationDomain (cfg : Config) (zMin zMax : ℚ) (inv : XVec3) : XAABB :=
  ⟨inv.x.mulRat (simulationDomain cfg).xMin, inv.y.mulRat (simulationDomain cfg).yMin,
    inv.z.mulRat zMin,
    inv.x.mulRat (simulationDomain cfg).xMax, inv.y.mulRat (simulationDomain cfg).yMax,
    inv.z.mulRat zMax⟩

/-- The point `pt` of a lattice point `ptUnscaled`: the component-wise product with the spacing
scaling. -/
def scaleBack (s : XVec3) (ptUnscaled : Vec3) : XVec3 :=
  ⟨s.x.mulRat ptUnscaled.x, s.y.mulRat ptUnscaled.y, s.z.mulRat ptUnscaled.z⟩

/-- A shape source whose form has its largest extent at index 0: normal-form parameters
(2, 1, 3). -/
def unsortedFormGenerator : ShapeGenerator :=
  { clampingSphereGenerator with getNormalFormParameters := ⟨2, 1, 3⟩ }

/-- A shape source with a flat form: normal-form parameters (0, 1, 2). -/
def flatFormGenerator : ShapeGenerator :=
  { clampingSphereGenerator with getNormalFormParameters := ⟨0, 1, 2⟩ }

/-- A shape source whose normal-form parameter at index 1 is zero: (1, 0, 2). -/
def zeroMiddleFormGenerator : ShapeGenerator :=
  { clampingSphereGenerator with getNormalFormParameters := ⟨1, 0, 2⟩ }

/-- A shape source with normal-form parameters in ascending order: (1/2, 1, 2). -/
def sortedFormGenerator : ShapeGenerator :=
  { clampingSphereGenerator with getNormalFormParameters := ⟨1 / 2, 1, 2⟩ }

/-- Whether the loop of `createParticles` creates a particle at the point: the point passes both
`continue` tests. -/
def acceptsPoint (cfg : Config) (ce : CreatorEnv) (spacing : ℚ) (pt : Vec3) : Bool :=
  ce.isContainedInLocalSubdomain pt
    && !decide (cfg.domainSetup = "container" ∧ outsideContainer cfg spacing pt)

/-- Collaborators of a creator on rank 3 whose subdomain is the half space of non-negative x,
with diameters 1, 2, 3, ... and a random source that returns the upper end of the interval. -/
def halfSpaceCreatorEnv : CreatorEnv where
  rank := 3
  isContainedInLocalSubdomain := fun pt => decide (0 ≤ pt.x)
  diameterGenerator := fun i => i + 1
  realRandom := fun _ _ hi => hi
  shapeGenerator := clampingSphereGenerator

section StepFacts

variable (cfg : Config) (env : Env)

theorem hcsitsIterations_no_creation (r : ℚ) (n : ℕ) :
    ∀ e ∈ hcsitsIterations r n, e.isCreation = false ∧ e.isDamping = false := by
  induction n with
  | zero => intro e he; simp [hcsitsIterations] at he
  | succ n ih =>
    intro e he
    simp only [hcsitsIterations, List.mem_append, List.mem_cons, List.mem_singleton,
      List.not_mem_nil, or_false] at he
    rcases he with (rfl | rfl | rfl) | he
    · exact ⟨rfl, rfl⟩
    · exact ⟨rfl, rfl⟩
    · exact ⟨rfl, rfl⟩
    · exact ih e he

theorem physicsEvents_no_creation (s : State) :
    ∀ e ∈ physicsEvents cfg env s, e.isCreation = false ∧ e.isDamping = false := by
  intro e he
  simp only [physicsEvents, List.mem_append, List.mem_cons, List.mem_singleton,
    List.not_mem_nil, or_false] at he
  rcases he with (((rfl | he) | he) | he) | (rfl | rfl)
  · exact ⟨rfl, rfl⟩
  · unfold shakingPhase at he
    split_ifs at he <;> simp at he <;> subst he <;> exact ⟨rfl, rfl⟩
  · unfold solverPhase hcsitsPipeline demPipeline at he
    split_ifs at he
    · simp only [List.mem_append, List.mem_cons, List.mem_singleton, List.not_mem_nil,
        or_false] at he
      rcases he with ((rfl | rfl | rfl | rfl) | he) | rfl
      · exact ⟨rfl, rfl⟩
      · exact ⟨rfl, rfl⟩
      · exact ⟨rfl, rfl⟩
      · exact ⟨rfl, rfl⟩
      · exact hcsitsIterations_no_creation _ _ e he
      · exact ⟨rfl, rfl⟩
    · simp only [List.mem_cons, List.mem_singleton, List.not_mem_nil, or_false] at he
      rcases he with rfl | rfl | rfl | rfl | rfl <;> exact ⟨rfl, rfl⟩
    · simp at he
  · unfold limitingPhase at he
    split_ifs at he <;> simp at he
    subst he; exact ⟨rfl, rfl⟩
  · exact ⟨rfl, rfl⟩
  · exact ⟨rfl, rfl⟩

theorem syncAfterCreation_no_creation :
    ∀ e ∈ syncAfterCreation cfg, e.isCreation = false ∧ e.isDamping = false := by
  intro e he
  unfold syncAfterCreation at he
  split_ifs at he
  · simp at he; subst he; exact ⟨rfl, rfl⟩
  · rw [List.mem_replicate] at he
    rw [he.2]; exact ⟨rfl, rfl⟩

@[simp] theorem shakingPhase_shaking (t : ℚ) (s : State) :
    (shakingPhase cfg env t s).1.shaking = s.shaking := by
  unfold shakingPhase; split_ifs <;> rfl

@[simp] theorem shakingPhase_isShakingActive (t : ℚ) (s : State) :
    (shakingPhase cfg env t s).1.isShakingActive = s.isShakingActive := by
  unfold shakingPhase; split_ifs <;> rfl

@[simp] theorem shakingPhase_terminateSimulation (t : ℚ) (s : State) :
    (shakingPhase cfg env t s).1.terminateSimulation = s.terminateSimulation := by
  unfold shakingPhase; split_ifs <;> rfl

@[simp] theorem shakingPhase_timeBeginShaking (t : ℚ) (s : State) :
    (shakingPhase cfg env t s).1.timeBeginShaking = s.timeBeginShaking := by
  unfold shakingPhase; split_ifs <;> rfl

@[simp] theorem shakingPhase_timeEndShaking (t : ℚ) (s : State) :
    (shakingPhase cfg env t s).1.timeEndShaking = s.timeEndShaking := by
  unfold shakingPhase; split_ifs <;> rfl

@[simp] theorem shakingPhase_timeBeginDamping (t : ℚ) (s : State) :
    (shakingPhase cfg env t s).1.timeBeginDamping = s.timeBeginDamping := by
  unfold shakingPhase; split_ifs <;> rfl

@[simp] theorem shakingPhase_oldAvgParticleHeight (t : ℚ) (s : State) :
    (shakingPhase cfg env t s).1.oldAvgParticleHeight = s.oldAvgParticleHeight := by
  unfold shakingPhase; split_ifs <;> rfl

@[simp] theorem shakingPhase_oldMaxParticleHeight (t : ℚ) (s : State) :
    (shakingPhase cfg env t s).1.oldMaxParticleHeight = s.oldMaxParticleHeight := by
  unfold shakingPhase; split_ifs <;> rfl

@[simp] theorem shakingPhase_timeLastTerminationCheck (t : ℚ) (s : State) :
    (shakingPhase cfg env t s).1.timeLastTerminationCheck = s.timeLastTerminationCheck := by
  unfold shakingPhase; split_ifs <;> rfl

@[simp] theorem shakingPhase_timeLastCreation (t : ℚ) (s : State) :
    (shakingPhase cfg env t s).1.timeLastCreation = s.timeLastCreation := by
  unfold shakingPhase; split_ifs <;> rfl

@[simp] theorem shakingPhase_timestep (t : ℚ) (s : State) :
    (shakingPhase cfg env t s).1.timestep = s.timestep := by
  unfold shakingPhase; split_ifs <;> rfl

@[simp] theorem beforeLifecycle_shaking (s : State) :
    (beforeLifecycle cfg env s).shaking = s.shaking := by simp [beforeLifecycle]

@[simp] theorem beforeLifecycle_isShakingActive (s : State) :
    (beforeLifecycle cfg env s).isShakingActive = s.isShakingActive := by simp [beforeLifecycle]

@[simp] theorem beforeLifecycle_terminateSimulation (s : State) :
    (beforeLifecycle cfg env s).terminateSimulation = s.terminateSimulation := by
  simp [beforeLifecycle]

@[simp] theorem beforeLifecycle_timeBeginShaking (s : State) :
    (beforeLifecycle cfg env s).timeBeginShaking = s.timeBeginShaking := by
  simp [beforeLifecycle]

@[simp] theorem beforeLifecycle_timeEndShaking (s : State) :
    (beforeLifecycle cfg env s).timeEndShaking = s.timeEndShaking := by simp [beforeLifecycle]

@[simp] theorem beforeLifecycle_timeBeginDamping (s : State) :
    (beforeLifecycle cfg env s).timeBeginDamping = s.timeBeginDamping := by
  simp [beforeLifecycle]

@[simp] theorem beforeLifecycle_oldAvgParticleHeight (s : State) :
    (beforeLifecycle cfg env s).oldAvgParticleHeight = s.oldAvgParticleHeight := by
  simp [beforeLifecycle]

@[simp] theorem beforeLifecycle_oldMaxParticleHeight (s : State) :
    (beforeLifecycle cfg env s).oldMaxParticleHeight = s.oldMaxParticleHeight := by
  simp [beforeLifecycle]

@[simp] theorem beforeLifecycle_timeLastTerminationCheck (s : State) :
    (beforeLifecycle cfg env s).timeLastTerminationCheck = s.timeLastTerminationCheck := by
  simp [beforeLifecycle]

@[simp] theorem beforeLifecycle_timeLastCreation (s : State) :
    (beforeLifecycle cfg env s).timeLastCreation = s.timeLastCreation := by
  simp [beforeLifecycle]

@[simp] theorem beforeLifecycle_timestep (s : State) :
    (beforeLifecycle cfg env s).timestep = s.timestep := by simp [beforeLifecycle]

@[simp] theorem beforeLifecycle_particles (s : State) :
    (beforeLifecycle cfg env s).particles = env.physics s.timestep s.particles := rfl

@[simp] theorem beforeLifecycle_globalAcceleration (s : State) :
    (beforeLifecycle cfg env s).globalAcceleration
      = (shakingPhase cfg env (currentTime cfg s.timestep) s).1.globalAcceleration := rfl

theorem simulationDomain_zSize : (simulationDomain cfg).zSize = cfg.domainHeight := by
  simp [simulationDomain, AABB.zSize]

end StepFacts

/-! ## The generation branch -/

section Generation

variable (cfg : Config) (env : Env)

theorem generationEvent_iff (s : State) :
    generationEvent cfg env s ↔
      massBelowTarget cfg (stepInfo cfg env s)
        ∧ generationTrigger cfg (currentTime cfg s.timestep) (stepInfo cfg env s)
            (beforeLifecycle cfg env s) := by
  unfold generationEvent stepEvents
  constructor
  · rintro ⟨e, he, hc⟩
    rw [List.mem_append] at he
    rcases he with he | he
    · have := (physicsEvents_no_creation cfg env s e he).1
      rw [this] at hc; cases hc
    · unfold lifecycle at he
      split_ifs at he with h1 h2
      · refine ⟨h1, ?_⟩
        unfold generationPhase at he
        split_ifs at he with h3
        · exact h3
        · simp at he
      · simp at he
      · simp only [dampingBranch, List.mem_singleton] at he
        subst he; cases hc
  · rintro ⟨h1, h3⟩
    refine ⟨Event.createParticles
      (max (minGenerationHeight cfg) (cfg.generationHeightRatioStart * (simulationDomain cfg).zMax))
      (min (maxGenerationHeight cfg) (cfg.generationHeightRatioEnd * (simulationDomain cfg).zMax))
      cfg.generationSpacing cfg.initialVelocity (maximumAllowedInteractionRadius cfg), ?_, rfl⟩
    rw [List.mem_append]
    right
    simp [lifecycle, generationPhase, h1, h3]

theorem stepBody_timeLastCreation (s : State) :
    (stepBody cfg env s).timeLastCreation
      = if massBelowTarget cfg (stepInfo cfg env s)
            ∧ generationTrigger cfg (currentTime cfg s.timestep) (stepInfo cfg env s)
                (beforeLifecycle cfg env s)
        then currentTime cfg s.timestep else s.timeLastCreation := by
  unfold stepBody lifecycle
  by_cases h1 : massBelowTarget cfg (stepInfo cfg env s)
  · by_cases h3 : generationTrigger cfg (currentTime cfg s.timestep) (stepInfo cfg env s)
        (beforeLifecycle cfg env s)
    · simp [h1, h3, generationPhase]
    · simp [h1, h3, generationPhase]
  · simp only [h1, false_and, if_false]
    split_ifs
    · simp only [shakingBranch, endShaking, beginShaking]
      split_ifs <;> simp
    · simp only [dampingBranch, terminationCheck, recordBeginDamping]
      split_ifs <;> simp

/-- C1: in a step whose aggregate mass is below the target, a generation event (a
`createParticles` call, after which `timeLastCreation` holds the current time) happens if and only
if `maximumHeight < generationHeightRatioStart * domainHeight - generationSpacing` or
`currentTime - timeLastCreation > maximumTimeBetweenCreation`; without the event
`timeLastCreation` keeps its value. In a step whose mass is at or above the target there is no
generation event and `timeLastCreation` keeps its value. -/
theorem C1_generation_event_iff_trigger (s : State) :
    (massBelowTarget cfg (stepInfo cfg env s) →
      (generationEvent cfg env s ↔
        ((stepInfo cfg env s).maximumHeight
            < cfg.generationHeightRatioStart * cfg.domainHeight - cfg.generationSpacing
          ∨ XReal.lt (maximumTimeBetweenCreation cfg)
              (XReal.fin (currentTime cfg s.timestep - s.timeLastCreation)) = true))
      ∧ (generationEvent cfg env s →
          (stepBody cfg env s).timeLastCreation = currentTime cfg s.timestep)
      ∧ (¬ generationEvent cfg env s →
          (stepBody cfg env s).timeLastCreation = s.timeLastCreation))
    ∧ (¬ massBelowTarget cfg (stepInfo cfg env s) →
        ¬ generationEvent cfg env s
        ∧ (stepBody cfg env s).timeLastCreation = s.timeLastCreation) := by
  have key := generationEvent_iff cfg env s
  have tlc := stepBody_timeLastCreation cfg env s
  refine ⟨fun hm => ⟨?_, ?_, ?_⟩, fun hm => ⟨?_, ?_⟩⟩
  · rw [key]
    simp only [generationTrigger, simulationDomain_zSize, beforeLifecycle_timeLastCreation]
    exact ⟨fun h => h.2, fun h => ⟨hm, h⟩⟩
  · intro hg
    rw [tlc, if_pos (key.mp hg)]
  · intro hg
    rw [tlc, if_neg (fun h => hg (key.mpr h))]
  · intro hg
    exact hm (key.mp hg).1
  · rw [tlc, if_neg (fun h => hm h.1)]

end Generation

/-! ## The damping branch and the termination check -/

section Termination

variable (cfg : Config) (env : Env)

theorem stepBody_terminateSimulation (s : State) (h0 : s.terminateSimulation = false) :
    (stepBody cfg env s).terminateSimulation = true ↔
      terminationCheckPerformed cfg env s
        ∧ (velocityConverged cfg (stepInfo cfg env s)
            ∨ heightConverged cfg (stepInfo cfg env s) s) := by
  unfold terminationCheckPerformed dampingStep timeBeginDampingAtCheck stepBody lifecycle
  by_cases h1 : massBelowTarget cfg (stepInfo cfg env s)
  · simp only [h1, if_true, not_true_eq_false, false_and, iff_false]
    unfold generationPhase
    split_ifs <;> simp [h0]
  · by_cases h2 : s.shaking = true
    · simp only [h1, if_false, beforeLifecycle_shaking, h2, if_true]
      simp only [shakingBranch, endShaking, beginShaking]
      split_ifs <;> simp [h0]
    · have h2f : s.shaking = false := by simpa using h2
      simp only [h1, if_false, beforeLifecycle_shaking, h2f, not_false_eq_true, true_and]
      simp only [dampingBranch, terminationCheck, recordBeginDamping, heightConverged,
        beforeLifecycle_timeBeginDamping, beforeLifecycle_timeLastTerminationCheck,
        beforeLifecycle_oldAvgParticleHeight, beforeLifecycle_oldMaxParticleHeight]
      split_ifs <;> simp_all

theorem stepBody_check_updates (s : State) :
    (terminationCheckPerformed cfg env s →
      (stepBody cfg env s).timeLastTerminationCheck = currentTime cfg s.timestep
      ∧ (stepBody cfg env s).oldAvgParticleHeight = (stepInfo cfg env s).heightOfMass
      ∧ (stepBody cfg env s).oldMaxParticleHeight = (stepInfo cfg env s).maximumHeight)
    ∧ (¬ terminationCheckPerformed cfg env s →
      (stepBody cfg env s).timeLastTerminationCheck = s.timeLastTerminationCheck
      ∧ (stepBody cfg env s).oldAvgParticleHeight = s.oldAvgParticleHeight
      ∧ (stepBody cfg env s).oldMaxParticleHeight = s.oldMaxParticleHeight) := by
  unfold terminationCheckPerformed dampingStep timeBeginDampingAtCheck stepBody lifecycle
  by_cases h1 : massBelowTarget cfg (stepInfo cfg env s)
  · simp only [h1, if_true, not_true_eq_false, false_and, false_implies, true_and,
      not_false_eq_true, true_implies]
    unfold generationPhase
    split_ifs <;> simp
  · by_cases h2 : s.shaking = true
    · simp only [h1, if_false, beforeLifecycle_shaking, h2, if_true]
      simp only [shakingBranch, endShaking, beginShaking]
      split_ifs <;> simp
    · have h2f : s.shaking = false := by simpa using h2
      simp only [h1, if_false, beforeLifecycle_shaking, h2f, not_false_eq_true, true_and]
      simp only [dampingBranch, terminationCheck, recordBeginDamping,
        beforeLifecycle_timeBeginDamping, beforeLifecycle_timeLastTerminationCheck,
        beforeLifecycle_oldAvgParticleHeight, beforeLifecycle_oldMaxParticleHeight]
      split_ifs <;> simp_all

/-- C2: when a termination check is performed in a damping step, the termination flag is set if
and only if `maximumVelocity < terminalVelocity`, or both
`|heightOfMass - oldAvg| / oldAvg < terminalRelativeHeightChange` and
`|maximumHeight - oldMax| / oldMax < 10 * terminalRelativeHeightChange`. The velocity condition
alone suffices, the two height conditions together suffice, and without the velocity condition
the flag stays unset as soon as one of the two height conditions fails. -/
theorem C2_termination_flag_iff (s : State) (h0 : s.terminateSimulation = false)
    (hcheck : terminationCheckPerformed cfg env s) :
    ((stepBody cfg env s).terminateSimulation = true ↔
      ((stepInfo cfg env s).maximumVelocity < cfg.terminalVelocity
        ∨ (XReal.lt (XReal.div |(stepInfo cfg env s).heightOfMass - s.oldAvgParticleHeight|
                s.oldAvgParticleHeight) (XReal.fin cfg.terminalRelativeHeightChange) = true
          ∧ XReal.lt (XReal.div |(stepInfo cfg env s).maximumHeight - s.oldMaxParticleHeight|
                s.oldMaxParticleHeight)
              (XReal.fin (10 * cfg.terminalRelativeHeightChange)) = true)))
    ∧ ((stepInfo cfg env s).maximumVelocity < cfg.terminalVelocity →
        (stepBody cfg env s).terminateSimulation = true)
    ∧ (XReal.lt (XReal.div |(stepInfo cfg env s).heightOfMass - s.oldAvgParticleHeight|
            s.oldAvgParticleHeight) (XReal.fin cfg.terminalRelativeHeightChange) = true →
        XReal.lt (XReal.div |(stepInfo cfg env s).maximumHeight - s.oldMaxParticleHeight|
            s.oldMaxParticleHeight) (XReal.fin (10 * cfg.terminalRelativeHeightChange)) = true →
        (stepBody cfg env s).terminateSimulation = true)
    ∧ (¬ (stepInfo cfg env s).maximumVelocity < cfg.terminalVelocity →
        XReal.lt (XReal.div |(stepInfo cfg env s).heightOfMass - s.oldAvgParticleHeight|
            s.oldAvgParticleHeight) (XReal.fin cfg.terminalRelativeHeightChange) = false →
        (stepBody cfg env s).terminateSimulation = false)
    ∧ (¬ (stepInfo cfg env s).maximumVelocity < cfg.terminalVelocity →
        XReal.lt (XReal.div |(stepInfo cfg env s).maximumHeight - s.oldMaxParticleHeight|
            s.oldMaxParticleHeight) (XReal.fin (10 * cfg.terminalRelativeHeightChange)) = false →
        (stepBody cfg env s).terminateSimulation = false) := by
  have key := stepBody_terminateSimulation cfg env s h0
  simp only [hcheck, true_and, velocityConverged, heightConverged, relDiff] at key
  refine ⟨?_, ?_, ?_, ?_, ?_⟩
  · rw [key]; tauto
  · intro hv; exact key.mpr (Or.inl hv)
  · intro ha hm; exact key.mpr (Or.inr ⟨hm, ha⟩)
  · intro hv ha
    cases hterm : (stepBody cfg env s).terminateSimulation with
    | false => rfl
    | true =>
      rcases key.mp hterm with h | h
      · exact absurd h hv
      · rw [h.2] at ha; cases ha
  · intro hv hm
    cases hterm : (stepBody cfg env s).terminateSimulation with
    | false => rfl
    | true =>
      rcases key.mp hterm with h | h
      · exact absurd h hv
      · rw [h.1] at hm; cases hm

end Termination

/-! ## Runs -/

section Runs

variable (cfg : Config) (env : Env)

theorem stateAt_succ_of_running (n : ℕ) (h : running cfg env n) :
    stateAt cfg env (n + 1) = stepBody cfg env (stateAt cfg env n) := by
  unfold running at h
  simp [stateAt, h]

theorem stateAt_succ_of_ended (n : ℕ) (h : ¬ running cfg env n) :
    stateAt cfg env (n + 1) = stateAt cfg env n := by
  unfold running at h
  have h1 : (stateAt cfg env n).terminateSimulation = true := by simpa using h
  simp [stateAt, h1]

theorem running_of_running_succ (n : ℕ) (h : running cfg env (n + 1)) : running cfg env n := by
  by_contra hn
  have := stateAt_succ_of_ended cfg env n hn
  unfold running at h hn
  rw [this] at h
  exact hn h

theorem running_of_le {m n : ℕ} (hmn : m ≤ n) (h : running cfg env n) : running cfg env m := by
  induction n with
  | zero =>
    have : m = 0 := Nat.le_zero.mp hmn
    subst this; exact h
  | succ n ih =>
    rcases Nat.lt_or_ge m (n + 1) with hlt | hge
    · exact ih (Nat.lt_succ_iff.mp hlt) (running_of_running_succ cfg env n h)
    · have : m = n + 1 := Nat.le_antisymm hmn hge
      subst this; exact h

theorem stepBody_timestep (s : State) : (stepBody cfg env s).timestep = s.timestep + 1 := rfl

theorem stateAt_timestep (n : ℕ) (h : running cfg env n) : (stateAt cfg env n).timestep = n := by
  induction n with
  | zero => rfl
  | succ n ih =>
    have hn := running_of_running_succ cfg env n h
    rw [stateAt_succ_of_running cfg env n hn, stepBody_timestep, ih hn]

theorem initState_shakingInvariant : shakingInvariant (initState cfg env) := by
  unfold shakingInvariant initState
  simp
  intro h _; exact h

theorem stepBody_shakingInvariant (s : State) (h : shakingInvariant s) :
    shakingInvariant (stepBody cfg env s) := by
  obtain ⟨h1, h2⟩ := h
  unfold shakingInvariant stepBody lifecycle
  by_cases hm : massBelowTarget cfg (stepInfo cfg env s)
  · simp only [hm, if_true]
    unfold generationPhase
    split_ifs <;> simpa using ⟨h1, h2⟩
  · by_cases hs : s.shaking = true
    · have ht := h2 hs
      simp only [hm, if_false, beforeLifecycle_shaking, hs, if_true]
      simp only [shakingBranch, endShaking, beginShaking]
      split_ifs <;> simp [hs, ht]
    · have hsf : s.shaking = false := by simpa using hs
      have ha : s.isShakingActive = false := by
        cases hact : s.isShakingActive with
        | false => rfl
        | true => exact absurd (h1 hact) hs
      simp only [hm, if_false, beforeLifecycle_shaking, hsf, Bool.false_eq_true]
      simp only [dampingBranch, terminationCheck, recordBeginDamping]
      split_ifs <;> simp [hsf, ha]

theorem stateAt_shakingInvariant (n : ℕ) : shakingInvariant (stateAt cfg env n) := by
  induction n with
  | zero => exact initState_shakingInvariant cfg env
  | succ n ih =>
    by_cases h : running cfg env n
    · rw [stateAt_succ_of_running cfg env n h]
      exact stepBody_shakingInvariant cfg env _ ih
    · rw [stateAt_succ_of_ended cfg env n h]
      exact ih

theorem timeLastTerminationCheck_between (i : ℕ) (hi : checkAt cfg env i) :
    ∀ d : ℕ, running cfg env (i + d) → (∀ m, i < m → m < i + d + 1 → ¬ checkAt cfg env m) →
      (stateAt cfg env (i + d + 1)).timeLastTerminationCheck = currentTime cfg i := by
  intro d
  induction d with
  | zero =>
    intro hr _
    rw [Nat.add_zero, stateAt_succ_of_running cfg env i hi.1,
      ((stepBody_check_updates cfg env _).1 hi.2).1, stateAt_timestep cfg env i hi.1]
  | succ d ih =>
    intro hr hno
    have hr1 : running cfg env (i + d) := running_of_le cfg env (Nat.le_succ _) hr
    have hprev := ih hr1 (fun m h1 h2 => hno m h1 (Nat.lt_succ_of_lt h2))
    have hnc : ¬ terminationCheckPerformed cfg env (stateAt cfg env (i + (d + 1))) := by
      intro hc
      exact hno (i + (d + 1)) (by omega) (by omega) ⟨hr, hc⟩
    rw [stateAt_succ_of_running cfg env _ hr, ((stepBody_check_updates cfg env _).2 hnc).1]
    exact hprev

/-- C3: the termination flag is set only in a step that takes the damping branch (mass at or
above the target, `shaking` not set, shaking not active) and for which
`currentTime - timeBeginDamping > minimalTerminalRunTime` and
`currentTime - timeLastTerminationCheck > terminationCheckingSpacing`; and two consecutive
termination checks of a run, in steps `i < j`, are more than `terminationCheckingSpacing` apart
in simulated time. -/
theorem C3_termination_only_in_damping :
    (∀ n : ℕ, running cfg env n → (stateAt cfg env (n + 1)).terminateSimulation = true →
      ¬ massBelowTarget cfg (stepInfo cfg env (stateAt cfg env n))
      ∧ (stateAt cfg env n).shaking = false
      ∧ (stateAt cfg env n).isShakingActive = false
      ∧ currentTime cfg n - timeBeginDampingAtCheck cfg (stateAt cfg env n)
          > cfg.minimalTerminalRunTime
      ∧ currentTime cfg n - (stateAt cfg env n).timeLastTerminationCheck
          > cfg.terminationCheckingSpacing)
    ∧ (∀ i j : ℕ, i < j → checkAt cfg env i → checkAt cfg env j →
        (∀ m, i < m → m < j → ¬ checkAt cfg env m) →
        currentTime cfg j - currentTime cfg i > cfg.terminationCheckingSpacing) := by
  constructor
  · intro n hr hterm
    rw [stateAt_succ_of_running cfg env n hr] at hterm
    have hc := ((stepBody_terminateSimulation cfg env _ hr).mp hterm).1
    obtain ⟨⟨hm, hs⟩, hb, hl⟩ := hc
    rw [stateAt_timestep cfg env n hr] at hb hl
    refine ⟨hm, hs, ?_, hb, hl⟩
    cases hact : (stateAt cfg env n).isShakingActive with
    | false => rfl
    | true =>
      have := (stateAt_shakingInvariant cfg env n).1 hact
      rw [hs] at this; cases this
  · intro i j hij hi hj hno
    obtain ⟨d, rfl⟩ : ∃ d, j = i + d + 1 := ⟨j - i - 1, by omega⟩
    have hr : running cfg env (i + d) := running_of_le cfg env (Nat.le_succ _) hj.1
    have hl := timeLastTerminationCheck_between cfg env i hi d hr hno
    have hcond := hj.2.2.2
    rw [hl, stateAt_timestep cfg env _ hj.1] at hcond
    exact hcond

end Runs

/-! ## The shaking branch -/

section Shaking

variable (cfg : Config) (env : Env)

theorem stepBody_of_massBelow (s : State) (hm : massBelowTarget cfg (stepInfo cfg env s)) :
    (stepBody cfg env s).shaking = s.shaking
    ∧ (stepBody cfg env s).isShakingActive = s.isShakingActive
    ∧ (stepBody cfg env s).timeBeginShaking = s.timeBeginShaking
    ∧ (stepBody cfg env s).timeEndShaking = s.timeEndShaking
    ∧ (stepBody cfg env s).timeBeginDamping = s.timeBeginDamping
    ∧ (stepBody cfg env s).oldAvgParticleHeight = s.oldAvgParticleHeight
    ∧ (stepBody cfg env s).oldMaxParticleHeight = s.oldMaxParticleHeight
    ∧ (stepBody cfg env s).timeLastTerminationCheck = s.timeLastTerminationCheck
    ∧ (stepBody cfg env s).terminateSimulation = s.terminateSimulation := by
  unfold stepBody lifecycle
  simp only [hm, if_true]
  unfold generationPhase
  split_ifs <;> simp

theorem stepBody_of_shakingStep (s : State) (h : shakingStep cfg env s) :
    stepBody cfg env s
      = { shakingBranch cfg (currentTime cfg s.timestep) (beforeLifecycle cfg env s) with
            timestep := s.timestep + 1 } := by
  obtain ⟨hm, hs⟩ := h
  unfold stepBody lifecycle
  simp [hm, hs]

theorem stepBody_of_dampingStep_shaking (s : State) (h : dampingStep cfg env s) :
    (stepBody cfg env s).shaking = s.shaking
    ∧ (stepBody cfg env s).isShakingActive = s.isShakingActive
    ∧ (stepBody cfg env s).timeBeginShaking = s.timeBeginShaking
    ∧ (stepBody cfg env s).timeEndShaking = s.timeEndShaking := by
  obtain ⟨hm, hs⟩ := h
  unfold stepBody lifecycle
  simp only [hm, if_false, beforeLifecycle_shaking, hs, Bool.false_eq_true]
  simp only [dampingBranch, terminationCheck, recordBeginDamping]
  split_ifs <;> simp [hs]

theorem initState_awaitingShaking (hs : cfg.shaking = true)
    (hafb : cfg.shaking_activeFromBeginning = false) : awaitingShaking (initState cfg env) := by
  unfold awaitingShaking initState
  simp [hs, hafb]

theorem stepBody_awaitingShaking (s : State) (h : awaitingShaking s)
    (hm : massBelowTarget cfg (stepInfo cfg env s)) : awaitingShaking (stepBody cfg env s) := by
  obtain ⟨h1, h2, h3, h4⟩ := h
  obtain ⟨e1, e2, _, e4, _, _, _, _, e9⟩ := stepBody_of_massBelow cfg env s hm
  exact ⟨e1.trans h1, e2.trans h2, by rw [e4]; exact h3, e9.trans h4⟩

theorem stepBody_start_shaking (s : State) (h : awaitingShaking s)
    (hm : ¬ massBelowTarget cfg (stepInfo cfg env s)) (hd : 0 ≤ cfg.shaking_duration) :
    (stepBody cfg env s).shaking = true
    ∧ (stepBody cfg env s).isShakingActive = true
    ∧ (stepBody cfg env s).terminateSimulation = false
    ∧ (stepBody cfg env s).timeBeginShaking = currentTime cfg s.timestep
    ∧ (stepBody cfg env s).timeEndShaking = currentTime cfg s.timestep + cfg.shaking_duration := by
  obtain ⟨h1, h2, h3, h4⟩ := h
  rw [stepBody_of_shakingStep cfg env s ⟨hm, h1⟩]
  have hnot : ¬ (currentTime cfg s.timestep
      > currentTime cfg s.timestep + cfg.shaking_duration) := by
    intro hgt; linarith
  simp [shakingBranch, beginShaking, endShaking, h1, h2, h3, h4, hnot]

theorem stepBody_active_shaking (s : State) (h1 : s.shaking = true)
    (h2 : s.isShakingActive = true) (h4 : s.terminateSimulation = false) :
    ((stepBody cfg env s).shaking = true ∧ (stepBody cfg env s).isShakingActive = true
        ∧ (stepBody cfg env s).terminateSimulation = false)
    ∨ ((stepBody cfg env s).shaking = false ∧ (stepBody cfg env s).isShakingActive = false
        ∧ (stepBody cfg env s).terminateSimulation = false) := by
  by_cases hm : massBelowTarget cfg (stepInfo cfg env s)
  · obtain ⟨e1, e2, _, _, _, _, _, _, e9⟩ := stepBody_of_massBelow cfg env s hm
    exact Or.inl ⟨e1.trans h1, e2.trans h2, e9.trans h4⟩
  · rw [stepBody_of_shakingStep cfg env s ⟨hm, h1⟩]
    simp only [shakingBranch, beginShaking, endShaking]
    split_ifs <;> simp_all

theorem stepBody_shaking_off (s : State) (h1 : s.shaking = false)
    (h2 : s.isShakingActive = false) :
    (stepBody cfg env s).shaking = false ∧ (stepBody cfg env s).isShakingActive = false := by
  by_cases hm : massBelowTarget cfg (stepInfo cfg env s)
  · obtain ⟨e1, e2, _⟩ := stepBody_of_massBelow cfg env s hm
    exact ⟨e1.trans h1, e2.trans h2⟩
  · obtain ⟨e1, e2, _⟩ := stepBody_of_dampingStep_shaking cfg env s ⟨hm, h1⟩
    exact ⟨e1.trans h1, e2.trans h2⟩

theorem stateAt_awaitingShaking (hs : cfg.shaking = true)
    (hafb : cfg.shaking_activeFromBeginning = false) (n : ℕ)
    (hbelow : ∀ i < n, massBelowTarget cfg (stepInfo cfg env (stateAt cfg env i))) :
    awaitingShaking (stateAt cfg env n) := by
  induction n with
  | zero => exact initState_awaitingShaking cfg env hs hafb
  | succ n ih =>
    have hprev := ih (fun i hi => hbelow i (Nat.lt_succ_of_lt hi))
    rw [stateAt_succ_of_running cfg env n hprev.2.2.2]
    exact stepBody_awaitingShaking cfg env _ hprev (hbelow n (Nat.lt_succ_self n))

theorem stateAt_shaking_off (n : ℕ) (h1 : (stateAt cfg env n).shaking = false)
    (h2 : (stateAt cfg env n).isShakingActive = false) (d : ℕ) :
    (stateAt cfg env (n + d)).shaking = false
    ∧ (stateAt cfg env (n + d)).isShakingActive = false := by
  induction d with
  | zero => exact ⟨h1, h2⟩
  | succ d ih =>
    by_cases hr : running cfg env (n + d)
    · have := stateAt_succ_of_running cfg env (n + d) hr
      rw [show n + (d + 1) = n + d + 1 from rfl, this]
      exact stepBody_shaking_off cfg env _ ih.1 ih.2
    · have := stateAt_succ_of_ended cfg env (n + d) hr
      rw [show n + (d + 1) = n + d + 1 from rfl, this]
      exact ih

theorem exists_massReached (hs : cfg.shaking = true)
    (hafb : cfg.shaking_activeFromBeginning = false) (N : ℕ)
    (hterm : (stateAt cfg env N).terminateSimulation = true) :
    ∃ i, i < N ∧ ¬ massBelowTarget cfg (stepInfo cfg env (stateAt cfg env i)) := by
  by_contra hcon
  have hall : ∀ i < N, massBelowTarget cfg (stepInfo cfg env (stateAt cfg env i)) := by
    intro i hi
    by_contra hmi
    exact hcon ⟨i, hi, hmi⟩
  have := (stateAt_awaitingShaking cfg env hs hafb N hall).2.2.2
  rw [hterm] at this
  cases this

/-- C4: in every run that terminates, with shaking configured, not active from the beginning and
a non-negative duration, there are steps `k < m` such that `isShakingActive` is false in every
state up to the one before step `k`, true in every state after step `k` up to the one before
step `m`, and false in every state after step `m`: it changes from false to true exactly once,
in step `k`, which is the first step whose aggregate mass is at or above the target, from true to
false exactly once, in step `m`, and is never true again. The run terminates after step `m`. -/
theorem C4_shaking_switches_exactly_once (hs : cfg.shaking = true)
    (hafb : cfg.shaking_activeFromBeginning = false) (hd : 0 ≤ cfg.shaking_duration) (N : ℕ)
    (hterm : (stateAt cfg env N).terminateSimulation = true) :
    ∃ k m : ℕ, k < m ∧ m + 1 < N
      ∧ (∀ n, n ≤ k → (stateAt cfg env n).isShakingActive = false)
      ∧ (∀ n, k < n → n ≤ m → (stateAt cfg env n).isShakingActive = true)
      ∧ (∀ n, m < n → (stateAt cfg env n).isShakingActive = false)
      ∧ ¬ massBelowTarget cfg (stepInfo cfg env (stateAt cfg env k))
      ∧ (∀ i < k, massBelowTarget cfg (stepInfo cfg env (stateAt cfg env i))) := by
  classical
  have hex : ∃ i, ¬ massBelowTarget cfg (stepInfo cfg env (stateAt cfg env i)) := by
    obtain ⟨i, _, hi⟩ := exists_massReached cfg env hs hafb N hterm
    exact ⟨i, hi⟩
  let k := Nat.find hex
  have hk : ¬ massBelowTarget cfg (stepInfo cfg env (stateAt cfg env k)) := Nat.find_spec hex
  have hbelow : ∀ i < k, massBelowTarget cfg (stepInfo cfg env (stateAt cfg env i)) := by
    intro i hi
    by_contra hmi
    exact Nat.find_min hex hi hmi
  have hwait : ∀ n, n ≤ k → awaitingShaking (stateAt cfg env n) := fun n hn =>
    stateAt_awaitingShaking cfg env hs hafb n (fun i hi => hbelow i (lt_of_lt_of_le hi hn))
  have hrunk : running cfg env k := (hwait k le_rfl).2.2.2
  have hstart := stepBody_start_shaking cfg env _ (hwait k le_rfl) hk hd
  rw [← stateAt_succ_of_running cfg env k hrunk] at hstart
  have hkN : k < N := by
    by_contra hle
    have := (hwait N (not_lt.mp hle)).2.2.2
    rw [hterm] at this; cases this
  have hoffN : (stateAt cfg env N).isShakingActive = false := by
    have hinv := stateAt_shakingInvariant cfg env N
    cases hact : (stateAt cfg env N).isShakingActive with
    | false => rfl
    | true =>
      have := hinv.2 (hinv.1 hact)
      rw [hterm] at this; cases this
  have hex2 : ∃ n, k < n ∧ (stateAt cfg env n).isShakingActive = false := ⟨N, hkN, hoffN⟩
  let n0 := Nat.find hex2
  have hn0 : k < n0 ∧ (stateAt cfg env n0).isShakingActive = false := Nat.find_spec hex2
  have hmin : ∀ n, k < n → n < n0 → (stateAt cfg env n).isShakingActive = true := by
    intro n hkn hn
    cases hact : (stateAt cfg env n).isShakingActive with
    | true => rfl
    | false => exact absurd ⟨hkn, hact⟩ (Nat.find_min hex2 hn)
  have hn0k : k + 1 < n0 := by
    rcases Nat.lt_or_ge (k + 1) n0 with h | h
    · exact h
    · have heq : n0 = k + 1 := Nat.le_antisymm h hn0.1
      have h2 := hn0.2
      rw [heq, hstart.2.1] at h2
      cases h2
  obtain ⟨m, hm⟩ : ∃ m, n0 = m + 1 := ⟨n0 - 1, by omega⟩
  have hkm : k < m := by omega
  have hactm : (stateAt cfg env m).isShakingActive = true := hmin m hkm (by omega)
  have hinvm := stateAt_shakingInvariant cfg env m
  have hshm : (stateAt cfg env m).shaking = true := hinvm.1 hactm
  have hrunm : running cfg env m := hinvm.2 hshm
  have hstep := stepBody_active_shaking cfg env _ hshm hactm hrunm
  rw [← stateAt_succ_of_running cfg env m hrunm, ← hm] at hstep
  have hoff : (stateAt cfg env n0).shaking = false
      ∧ (stateAt cfg env n0).isShakingActive = false
      ∧ (stateAt cfg env n0).terminateSimulation = false := by
    rcases hstep with h | h
    · have h2 := hn0.2
      rw [h.2.1] at h2; cases h2
    · exact h
  have hn0N : n0 ≤ N := Nat.find_min' hex2 ⟨hkN, hoffN⟩
  have hn0neN : n0 ≠ N := by
    intro heq
    have h2 := hoff.2.2
    rw [heq, hterm] at h2; cases h2
  refine ⟨k, m, hkm, by omega, ?_, ?_, ?_, hk, hbelow⟩
  · intro n hn
    exact (hwait n hn).2.1
  · intro n hkn hnm
    exact hmin n hkn (by omega)
  · intro n hmn
    obtain ⟨d, rfl⟩ : ∃ d, n = n0 + d := ⟨n - n0, by omega⟩
    exact (stateAt_shaking_off cfg env n0 hoff.1 hoff.2.1 d).2

theorem initState_beforeTarget (hs : cfg.shaking = true) : beforeTarget cfg (initState cfg env) := by
  unfold beforeTarget initState
  simp [hs]

theorem stepBody_beforeTarget (s : State) (h : beforeTarget cfg s)
    (hm : massBelowTarget cfg (stepInfo cfg env s)) : beforeTarget cfg (stepBody cfg env s) := by
  obtain ⟨h1, h2, h3, h4, h5⟩ := h
  obtain ⟨e1, e2, e3, e4, _, _, _, _, e9⟩ := stepBody_of_massBelow cfg env s hm
  exact ⟨e1.trans h1, by rw [e4]; exact h2, e9.trans h3, e2.trans h4,
    fun ha => e3.trans (h5 ha)⟩

theorem stateAt_beforeTarget (hs : cfg.shaking = true) (n : ℕ)
    (hbelow : ∀ i < n, massBelowTarget cfg (stepInfo cfg env (stateAt cfg env i))) :
    beforeTarget cfg (stateAt cfg env n) := by
  induction n with
  | zero => exact initState_beforeTarget cfg env hs
  | succ n ih =>
    have hprev := ih (fun i hi => hbelow i (Nat.lt_succ_of_lt hi))
    rw [stateAt_succ_of_running cfg env n hprev.2.2.1]
    exact stepBody_beforeTarget cfg env _ hprev (hbelow n (Nat.lt_succ_self n))

theorem stepBody_timeEndShaking_stable (s : State) (h : 0 ≤ s.timeEndShaking) :
    (stepBody cfg env s).timeEndShaking = s.timeEndShaking := by
  by_cases hm : massBelowTarget cfg (stepInfo cfg env s)
  · exact (stepBody_of_massBelow cfg env s hm).2.2.2.1
  · by_cases hs : s.shaking = true
    · rw [stepBody_of_shakingStep cfg env s ⟨hm, hs⟩]
      have hn : ¬ s.timeEndShaking < 0 := not_lt.mpr h
      simp only [shakingBranch, beginShaking, endShaking, beforeLifecycle_timeEndShaking, hn,
        if_false]
      split_ifs <;> simp
    · have hsf : s.shaking = false := by simpa using hs
      exact (stepBody_of_dampingStep_shaking cfg env s ⟨hm, hsf⟩).2.2.2

theorem stateAt_timeEndShaking_stable (n : ℕ) (h : 0 ≤ (stateAt cfg env n).timeEndShaking)
    (d : ℕ) : (stateAt cfg env (n + d)).timeEndShaking = (stateAt cfg env n).timeEndShaking := by
  induction d with
  | zero => rfl
  | succ d ih =>
    by_cases hr : running cfg env (n + d)
    · rw [show n + (d + 1) = n + d + 1 from rfl, stateAt_succ_of_running cfg env (n + d) hr,
        stepBody_timeEndShaking_stable cfg env _ (by rw [ih]; exact h), ih]
    · rw [show n + (d + 1) = n + d + 1 from rfl, stateAt_succ_of_ended cfg env (n + d) hr, ih]

theorem currentTime_nonneg (hdt : 0 ≤ cfg.dt) (n : ℕ) : 0 ≤ currentTime cfg n := by
  unfold currentTime
  exact mul_nonneg hdt (Nat.cast_nonneg n)

/-- C5: with shaking configured, let step `k` be the first step whose mass is at or above the
target. If shaking was not active, the begin block of that step sets `isShakingActive` to true,
`timeBeginShaking` to the current time and `timeEndShaking` to the current time plus
`shaking_duration`, and these are the values after the step (with `isShakingActive` still true
for a non-negative duration). If shaking was active from the beginning, `timeBeginShaking` stays
0. In both cases `timeEndShaking` after the step is exactly `currentTime + shaking_duration`, and
for a non-negative duration it has this value in every later state of the run; simulated time is
taken not to run backwards here (`0 ≤ dt`). -/
theorem C5_shaking_begin_times (hs : cfg.shaking = true) (k : ℕ)
    (hk : ¬ massBelowTarget cfg (stepInfo cfg env (stateAt cfg env k)))
    (hbelow : ∀ i < k, massBelowTarget cfg (stepInfo cfg env (stateAt cfg env i))) :
    (cfg.shaking_activeFromBeginning = false →
      (stateAt cfg env k).isShakingActive = false
      ∧ (beginShaking cfg (currentTime cfg k)
            (beforeLifecycle cfg env (stateAt cfg env k))).isShakingActive = true
      ∧ (beginShaking cfg (currentTime cfg k)
            (beforeLifecycle cfg env (stateAt cfg env k))).timeBeginShaking = currentTime cfg k
      ∧ (beginShaking cfg (currentTime cfg k)
            (beforeLifecycle cfg env (stateAt cfg env k))).timeEndShaking
          = currentTime cfg k + cfg.shaking_duration
      ∧ (stateAt cfg env (k + 1)).timeBeginShaking = currentTime cfg k
      ∧ (0 ≤ cfg.shaking_duration → (stateAt cfg env (k + 1)).isShakingActive = true))
    ∧ (cfg.shaking_activeFromBeginning = true →
      (stateAt cfg env k).isShakingActive = true
      ∧ (stateAt cfg env (k + 1)).timeBeginShaking = 0)
    ∧ (stateAt cfg env (k + 1)).timeEndShaking = currentTime cfg k + cfg.shaking_duration
    ∧ (0 ≤ cfg.dt → 0 ≤ cfg.shaking_duration → ∀ n, k < n →
        (stateAt cfg env n).timeEndShaking = currentTime cfg k + cfg.shaking_duration) := by
  have hpre := stateAt_beforeTarget cfg env hs k hbelow
  obtain ⟨h1, h2, h3, h4, h5⟩ := hpre
  have hts := stateAt_timestep cfg env k h3
  have hstep := stepBody_of_shakingStep cfg env _ ⟨hk, h1⟩
  rw [← stateAt_succ_of_running cfg env k h3, hts] at hstep
  have hend : (stateAt cfg env (k + 1)).timeEndShaking
      = currentTime cfg k + cfg.shaking_duration := by
    rw [hstep]
    simp only [shakingBranch, beginShaking, endShaking, beforeLifecycle_timeEndShaking, h2,
      if_true]
    split_ifs <;> simp
  refine ⟨?_, ?_, hend, ?_⟩
  · intro hafb
    rw [hafb] at h4
    refine ⟨h4, ?_, ?_, ?_, ?_, ?_⟩
    · simp [beginShaking, h2, h4]
    · simp [beginShaking, h2, h4]
    · simp [beginShaking, h2, h4]
    · rw [hstep]
      simp only [shakingBranch, beginShaking, endShaking, beforeLifecycle_timeEndShaking, h2,
        beforeLifecycle_isShakingActive, h4, if_true]
      split_ifs <;> simp
    · intro hd
      have hnot : ¬ (currentTime cfg k > currentTime cfg k + cfg.shaking_duration) := by
        intro hgt; linarith
      rw [hstep]
      simp [shakingBranch, beginShaking, endShaking, h2, h4, hnot]
  · intro hafb
    rw [hafb] at h4
    refine ⟨h4, ?_⟩
    rw [hstep]
    simp only [shakingBranch, beginShaking, endShaking, beforeLifecycle_timeEndShaking, h2,
      beforeLifecycle_isShakingActive, h4, if_true, Bool.true_eq_false, if_false]
    split_ifs <;> simp [h5 hafb]
  · intro hdt hd n hn
    obtain ⟨e, rfl⟩ : ∃ e, n = k + 1 + e := ⟨n - (k + 1), by omega⟩
    have hnn : 0 ≤ (stateAt cfg env (k + 1)).timeEndShaking := by
      rw [hend]
      exact add_nonneg (currentTime_nonneg cfg hdt k) hd
    rw [stateAt_timeEndShaking_stable cfg env (k + 1) hnn e, hend]

theorem currentTime_antitone (hdt : cfg.dt < 0) {j n : ℕ} (hjn : j ≤ n) :
    currentTime cfg n ≤ currentTime cfg j := by
  unfold currentTime
  have : (j : ℚ) ≤ (n : ℚ) := by exact_mod_cast hjn
  nlinarith

theorem stepBody_shakingOn (k : ℕ) (s : State) (h : shakingOn cfg k s) (hkn : k < s.timestep)
    (hd : 0 ≤ cfg.shaking_duration) :
    (¬ massBelowTarget cfg (stepInfo cfg env s)
        ∧ currentTime cfg s.timestep > currentTime cfg k + cfg.shaking_duration →
      (stepBody cfg env s).shaking = false ∧ (stepBody cfg env s).isShakingActive = false)
    ∧ (¬ (¬ massBelowTarget cfg (stepInfo cfg env s)
        ∧ currentTime cfg s.timestep > currentTime cfg k + cfg.shaking_duration) →
      shakingOn cfg k (stepBody cfg env s)) := by
  obtain ⟨h1, h2, h3, h4, h5⟩ := h
  by_cases hm : massBelowTarget cfg (stepInfo cfg env s)
  · obtain ⟨e1, e2, e3, e4, _, _, _, _, e9⟩ := stepBody_of_massBelow cfg env s hm
    refine ⟨fun hq => absurd hm hq.1, fun _ => ?_⟩
    refine ⟨e1.trans h1, e2.trans h2, e9.trans h3, e3.trans h4, ?_⟩
    rw [e4, stepBody_timestep]
    rcases h5 with h5 | ⟨hdt, j, hj1, hj2, hj3⟩
    · exact Or.inl h5
    · exact Or.inr ⟨hdt, j, hj1, Nat.lt_succ_of_lt hj2, hj3⟩
  · have hstep := stepBody_of_shakingStep cfg env s ⟨hm, h1⟩
    rcases h5 with ⟨hdt, hE⟩ | ⟨hdt, j, hj1, hj2, hE⟩
    · have hnn : ¬ s.timeEndShaking < 0 := by
        rw [hE]
        exact not_lt.mpr (add_nonneg (currentTime_nonneg cfg hdt k) hd)
      have hb : beginShaking cfg (currentTime cfg s.timestep) (beforeLifecycle cfg env s)
          = beforeLifecycle cfg env s := by
        simp [beginShaking, hnn]
      rw [hstep]
      simp only [shakingBranch, hb, endShaking, beforeLifecycle_timeEndShaking, hE]
      constructor
      · intro hq
        simp [hq.2]
      · intro hq
        have hnot : ¬ currentTime cfg s.timestep > currentTime cfg k + cfg.shaking_duration :=
          fun hgt => hq ⟨hm, hgt⟩
        simp only [hnot, if_false]
        exact ⟨by simpa using h1, by simpa using h2, by simpa using h3, by simpa using h4,
          Or.inl ⟨hdt, by simpa using hE⟩⟩
    · have hk_le : currentTime cfg s.timestep ≤ currentTime cfg k :=
        currentTime_antitone cfg hdt (Nat.le_of_lt hkn)
      have hj_le : currentTime cfg s.timestep ≤ currentTime cfg j :=
        currentTime_antitone cfg hdt (Nat.le_of_lt hj2)
      have hnq : ¬ currentTime cfg s.timestep > currentTime cfg k + cfg.shaking_duration := by
        intro hgt; linarith
      refine ⟨fun hq => absurd hq.2 hnq, fun _ => ?_⟩
      rw [hstep]
      by_cases hneg : s.timeEndShaking < 0
      · have hnot : ¬ currentTime cfg s.timestep
            > currentTime cfg s.timestep + cfg.shaking_duration := by
          intro hgt; linarith
        refine ⟨?_, ?_, ?_, ?_, Or.inr ⟨hdt, s.timestep, Nat.le_of_lt hkn, Nat.lt_succ_self _, ?_⟩⟩
          <;> simp [shakingBranch, beginShaking, endShaking, hneg, h1, h2, h3, h4, hnot]
      · have hnot : ¬ currentTime cfg s.timestep > s.timeEndShaking := by
          rw [hE]; intro hgt; linarith
        have hb : beginShaking cfg (currentTime cfg s.timestep) (beforeLifecycle cfg env s)
            = beforeLifecycle cfg env s := by
          simp [beginShaking, hneg]
        have he : endShaking (currentTime cfg s.timestep) (beforeLifecycle cfg env s)
            = beforeLifecycle cfg env s := by
          simp [endShaking, hnot]
        simp only [shakingBranch, hb, he]
        exact ⟨by simpa using h1, by simpa using h2, by simpa using h3, by simpa using h4,
          Or.inr ⟨hdt, j, hj1, Nat.lt_succ_of_lt hj2, by simpa using hE⟩⟩

theorem stateAt_shakingOn (hs : cfg.shaking = true)
    (hafb : cfg.shaking_activeFromBeginning = false) (k : ℕ)
    (hk : ¬ massBelowTarget cfg (stepInfo cfg env (stateAt cfg env k)))
    (hbelow : ∀ i < k, massBelowTarget cfg (stepInfo cfg env (stateAt cfg env i))) :
    ∀ e : ℕ, (∀ i, k ≤ i → i < k + 1 + e → ¬ switchOffDue cfg env k i) →
      shakingOn cfg k (stateAt cfg env (k + 1 + e)) := by
  have hwait := stateAt_awaitingShaking cfg env hs hafb k hbelow
  have hrunk : running cfg env k := hwait.2.2.2
  have hdur : (∀ i, k ≤ i → i < k + 1 → ¬ switchOffDue cfg env k i) →
      0 ≤ cfg.shaking_duration := by
    intro hno
    have h := hno k le_rfl (Nat.lt_succ_self k)
    unfold switchOffDue at h
    by_contra hneg
    exact h ⟨hk, by linarith [not_le.mp hneg]⟩
  intro e
  induction e with
  | zero =>
    intro hno
    have hd := hdur hno
    have hstart := stepBody_start_shaking cfg env _ hwait hk hd
    rw [← stateAt_succ_of_running cfg env k hrunk, stateAt_timestep cfg env k hrunk] at hstart
    obtain ⟨s1, s2, s3, s4, s5⟩ := hstart
    refine ⟨s1, s2, s3, s4, ?_⟩
    by_cases hdt : 0 ≤ cfg.dt
    · exact Or.inl ⟨hdt, s5⟩
    · refine Or.inr ⟨not_le.mp hdt, k, le_rfl, ?_, s5⟩
      rw [stateAt_timestep cfg env (k + 1) s3]
      exact Nat.lt_succ_self k
  | succ e ih =>
    intro hno
    have hd := hdur (fun i h1 h2 => hno i h1 (by omega))
    have hprev := ih (fun i h1 h2 => hno i h1 (by omega))
    have hrun : running cfg env (k + 1 + e) := hprev.2.2.1
    have hts := stateAt_timestep cfg env (k + 1 + e) hrun
    have hnq := hno (k + 1 + e) (by omega) (by omega)
    unfold switchOffDue at hnq
    have hstep := (stepBody_shakingOn cfg env k _ hprev (by rw [hts]; omega) hd).2
    rw [hts] at hstep
    rw [show k + 1 + (e + 1) = k + 1 + e + 1 from rfl, stateAt_succ_of_running cfg env _ hrun]
    exact hstep hnq

/-- C6: for shaking configured and not active from the beginning, let step `k` be the first step
whose mass is at or above the target (the step that starts shaking, with
`timeBeginShaking = currentTime k`). For every step `n ≥ k` such that no earlier step from `k` on
had its mass at or above the target and its time strictly greater than
`timeBeginShaking + shaking_duration`: step `n` is executed, shaking is still configured and
active at its start (for `n > k`), and step `n` switches shaking off (`shaking` and
`isShakingActive` false) if and only if its mass is at or above the target and its time is
strictly greater than that bound; in particular a step whose time equals the bound leaves
shaking active. For a non-negative duration, 0 included, step `k + 1` is executed with shaking
active and applies the shaking acceleration (as a force under DEM, as global acceleration
otherwise). -/
theorem C6_shaking_switched_off_after_end (hs : cfg.shaking = true)
    (hafb : cfg.shaking_activeFromBeginning = false) (k : ℕ)
    (hk : ¬ massBelowTarget cfg (stepInfo cfg env (stateAt cfg env k)))
    (hbelow : ∀ i < k, massBelowTarget cfg (stepInfo cfg env (stateAt cfg env i))) :
    (∀ n, k ≤ n → (∀ i, k ≤ i → i < n → ¬ switchOffDue cfg env k i) →
      running cfg env n
      ∧ (k < n → (stateAt cfg env n).shaking = true
          ∧ (stateAt cfg env n).isShakingActive = true
          ∧ (stateAt cfg env n).timeBeginShaking = currentTime cfg k)
      ∧ (switchOffDue cfg env k n →
          (stateAt cfg env (n + 1)).shaking = false
          ∧ (stateAt cfg env (n + 1)).isShakingActive = false)
      ∧ (¬ switchOffDue cfg env k n →
          (stateAt cfg env (n + 1)).shaking = true
          ∧ (stateAt cfg env (n + 1)).isShakingActive = true
          ∧ (stateAt cfg env (n + 1)).timeBeginShaking = currentTime cfg k)
      ∧ (currentTime cfg n = currentTime cfg k + cfg.shaking_duration →
          (stateAt cfg env (n + 1)).shaking = true
          ∧ (stateAt cfg env (n + 1)).isShakingActive = true))
    ∧ (0 ≤ cfg.shaking_duration →
        running cfg env (k + 1)
        ∧ (stateAt cfg env (k + 1)).isShakingActive = true
        ∧ (if cfg.solver = "DEM" then
              Event.addShakingForce
                (shakingAcceleration cfg env (currentTime cfg (k + 1)) (currentTime cfg k))
            else
              Event.setGlobalAcceleration
                ⟨shakingAcceleration cfg env (currentTime cfg (k + 1)) (currentTime cfg k),
                  XReal.fin 0, (reducedGravitationalAcceleration cfg).neg⟩)
            ∈ stepEvents cfg env (stateAt cfg env (k + 1))) := by
  have hwait := stateAt_awaitingShaking cfg env hs hafb k hbelow
  have hrunk : running cfg env k := hwait.2.2.2
  have hon := stateAt_shakingOn cfg env hs hafb k hk hbelow
  have main : ∀ n, k ≤ n → (∀ i, k ≤ i → i < n → ¬ switchOffDue cfg env k i) →
      running cfg env n
      ∧ (k < n → (stateAt cfg env n).shaking = true
          ∧ (stateAt cfg env n).isShakingActive = true
          ∧ (stateAt cfg env n).timeBeginShaking = currentTime cfg k)
      ∧ (switchOffDue cfg env k n →
          (stateAt cfg env (n + 1)).shaking = false
          ∧ (stateAt cfg env (n + 1)).isShakingActive = false)
      ∧ (¬ switchOffDue cfg env k n →
          (stateAt cfg env (n + 1)).shaking = true
          ∧ (stateAt cfg env (n + 1)).isShakingActive = true
          ∧ (stateAt cfg env (n + 1)).timeBeginShaking = currentTime cfg k) := by
    intro n hkn hno
    have hnext : ¬ switchOffDue cfg env k n →
        (stateAt cfg env (n + 1)).shaking = true
        ∧ (stateAt cfg env (n + 1)).isShakingActive = true
        ∧ (stateAt cfg env (n + 1)).timeBeginShaking = currentTime cfg k := by
      intro hnq
      obtain ⟨e, rfl⟩ : ∃ e, n = k + e := ⟨n - k, by omega⟩
      have h := hon e (by
        intro i h1 h2
        rcases Nat.lt_or_ge i (k + e) with hlt | hge
        · exact hno i h1 hlt
        · have : i = k + e := by omega
          subst this; exact hnq)
      rw [show k + 1 + e = k + e + 1 by omega] at h
      exact ⟨h.1, h.2.1, h.2.2.2.1⟩
    rcases Nat.eq_or_lt_of_le hkn with heq | hlt
    · subst heq
      refine ⟨hrunk, fun h => absurd h (lt_irrefl _), ?_, hnext⟩
      intro hq
      have hstep := stepBody_of_shakingStep cfg env _ ⟨hk, hwait.1⟩
      rw [← stateAt_succ_of_running cfg env k hrunk, stateAt_timestep cfg env k hrunk] at hstep
      rw [hstep]
      have hgt := hq.2
      simp [shakingBranch, beginShaking, endShaking, hwait.2.1, hwait.2.2.1, hgt]
    · obtain ⟨e, rfl⟩ : ∃ e, n = k + 1 + e := ⟨n - (k + 1), by omega⟩
      have h := hon e hno
      have hrun : running cfg env (k + 1 + e) := h.2.2.1
      have hts := stateAt_timestep cfg env (k + 1 + e) hrun
      have hd : 0 ≤ cfg.shaking_duration := by
        have hk0 := hno k le_rfl (by omega)
        unfold switchOffDue at hk0
        by_contra hneg
        exact hk0 ⟨hk, by linarith [not_le.mp hneg]⟩
      refine ⟨hrun, fun _ => ⟨h.1, h.2.1, h.2.2.2.1⟩, ?_, hnext⟩
      intro hq
      have hoff := (stepBody_shakingOn cfg env k _ h (by rw [hts]; omega) hd).1
      rw [hts] at hoff
      rw [stateAt_succ_of_running cfg env _ hrun]
      exact hoff hq
  constructor
  · intro n hkn hno
    obtain ⟨m1, m2, m3, m4⟩ := main n hkn hno
    refine ⟨m1, m2, m3, m4, ?_⟩
    intro heq
    have hnq : ¬ switchOffDue cfg env k n := by
      intro hq
      have := hq.2
      rw [heq] at this
      exact lt_irrefl _ this
    exact ⟨(m4 hnq).1, (m4 hnq).2.1⟩
  · intro hd
    have hnq : ¬ switchOffDue cfg env k k := by
      intro hq
      have := hq.2
      linarith
    obtain ⟨_, _, _, m4⟩ := main k le_rfl (fun i h1 h2 => absurd h1 (not_le.mpr h2))
    obtain ⟨_, a2, a3⟩ := m4 hnq
    have h := hon 0 (by
      intro i h1 h2
      have : i = k := by omega
      subst this; exact hnq)
    have hrun : running cfg env (k + 1) := h.2.2.1
    have hts := stateAt_timestep cfg env (k + 1) hrun
    refine ⟨hrun, a2, ?_⟩
    unfold stepEvents physicsEvents shakingPhase
    rw [hts, a2, a3]
    by_cases hsol : cfg.solver = "DEM"
    · simp [hsol]
    · simp [hsol]

end Shaking

/-! ## Frame of the generation branch, loop exit, damping -/

section Frame

variable (cfg : Config) (env : Env)

theorem lifecycle_events_no_damping (t : ℚ) (info : ParticleInfo) (s : State)
    (h : massBelowTarget cfg info ∨ s.shaking = true) :
    ∀ e ∈ (lifecycle cfg env t info s).2, e.isDamping = false := by
  intro e he
  unfold lifecycle at he
  split_ifs at he with h1 h2
  · unfold generationPhase at he
    split_ifs at he
    · simp only [List.cons_append, List.nil_append, List.mem_cons] at he
      rcases he with rfl | rfl | he
      · rfl
      · rfl
      · exact (syncAfterCreation_no_creation cfg e he).2
    · simp at he
  · simp at he
  · rcases h with h | h
    · exact absurd h h1
    · exact absurd h h2

theorem stepEvents_no_damping (s : State) (h : ¬ dampingStep cfg env s) :
    ∀ e ∈ stepEvents cfg env s, e.isDamping = false := by
  intro e he
  unfold stepEvents at he
  rw [List.mem_append] at he
  rcases he with he | he
  · exact (physicsEvents_no_creation cfg env s e he).2
  · refine lifecycle_events_no_damping cfg env _ _ _ ?_ e he
    unfold dampingStep at h
    by_cases hm : massBelowTarget cfg (stepInfo cfg env s)
    · exact Or.inl hm
    · right
      rw [beforeLifecycle_shaking]
      cases hs : s.shaking with
      | true => rfl
      | false => exact absurd ⟨hm, hs⟩ h

theorem stepBody_particles_of_massBelow (s : State)
    (hm : massBelowTarget cfg (stepInfo cfg env s)) :
    (stepBody cfg env s).particles
      = if generationTrigger cfg (currentTime cfg s.timestep) (stepInfo cfg env s)
            (beforeLifecycle cfg env s)
        then env.generation s.timestep (env.physics s.timestep s.particles)
        else env.physics s.timestep s.particles := by
  unfold stepBody lifecycle
  simp only [hm, if_true]
  unfold generationPhase
  split_ifs <;> simp

/-- C8: in every step whose aggregate mass is below the target, the step leaves `shaking`,
`isShakingActive`, `timeBeginShaking`, `timeEndShaking`, `timeBeginDamping`, the two reference
heights, `timeLastTerminationCheck` and the termination flag unchanged, and it applies no
velocity damping: no event of the step is a damping pass, and the particle storage after the step
is the one left by the solver and the synchronisation, or by the generation event. -/
theorem C8_generating_step_frame (s : State)
    (hm : massBelowTarget cfg (stepInfo cfg env s)) :
    (stepBody cfg env s).shaking = s.shaking
    ∧ (stepBody cfg env s).isShakingActive = s.isShakingActive
    ∧ (stepBody cfg env s).timeBeginShaking = s.timeBeginShaking
    ∧ (stepBody cfg env s).timeEndShaking = s.timeEndShaking
    ∧ (stepBody cfg env s).timeBeginDamping = s.timeBeginDamping
    ∧ (stepBody cfg env s).oldAvgParticleHeight = s.oldAvgParticleHeight
    ∧ (stepBody cfg env s).oldMaxParticleHeight = s.oldMaxParticleHeight
    ∧ (stepBody cfg env s).timeLastTerminationCheck = s.timeLastTerminationCheck
    ∧ (stepBody cfg env s).terminateSimulation = s.terminateSimulation
    ∧ (∀ e ∈ stepEvents cfg env s, e.isDamping = false)
    ∧ (stepBody cfg env s).particles
        = (if generationTrigger cfg (currentTime cfg s.timestep) (stepInfo cfg env s)
              (beforeLifecycle cfg env s)
          then env.generation s.timestep (env.physics s.timestep s.particles)
          else env.physics s.timestep s.particles) := by
  obtain ⟨e1, e2, e3, e4, e5, e6, e7, e8, e9⟩ := stepBody_of_massBelow cfg env s hm
  exact ⟨e1, e2, e3, e4, e5, e6, e7, e8, e9,
    stepEvents_no_damping cfg env s (fun h => h.1 hm),
    stepBody_particles_of_massBelow cfg env s hm⟩

theorem runLoop_of_terminated (s : State) (h : s.terminateSimulation = true) (fuel : ℕ) :
    runLoop cfg env fuel s = (s, []) := by
  cases fuel with
  | zero => rfl
  | succ f => simp [runLoop, h]

theorem runLoop_add (a b : ℕ) (s : State) :
    runLoop cfg env (a + b) s
      = ((runLoop cfg env b (runLoop cfg env a s).1).1,
          (runLoop cfg env a s).2 ++ (runLoop cfg env b (runLoop cfg env a s).1).2) := by
  induction a generalizing s with
  | zero => simp [runLoop]
  | succ a ih =>
    rw [show a + 1 + b = (a + b) + 1 by omega]
    by_cases h : s.terminateSimulation = true
    · simp [runLoop, h, runLoop_of_terminated cfg env s h b]
    · have hf : s.terminateSimulation = false := by simpa using h
      simp only [runLoop, hf, Bool.false_eq_true, if_false]
      rw [ih (stepBody cfg env s)]
      simp

theorem runLoop_fst_stateAt (fuel : ℕ) :
    (runLoop cfg env fuel (initState cfg env)).1 = stateAt cfg env fuel := by
  induction fuel with
  | zero => rfl
  | succ f ih =>
    rw [runLoop_add cfg env f 1 (initState cfg env)]
    simp only [ih]
    by_cases h : (stateAt cfg env f).terminateSimulation = true
    · simp [runLoop, stateAt, h]
    · have hf : (stateAt cfg env f).terminateSimulation = false := by simpa using h
      simp [runLoop, stateAt, hf]

/-- C9: once step `n` has set the termination flag, the loop body is not entered again: the loop
started from the state after that step returns it unchanged without any event, whatever the
bound on iterations; every run of the loop allowed at least `n + 1` iterations ends in the state
after step `n` with exactly the events of the steps `0..n`; the final value of `timestep` is
`n + 1`; and `main` returns the exit status 0. -/
theorem C9_terminating_step_is_last (n : ℕ) (hr : running cfg env n)
    (ht : (stateAt cfg env (n + 1)).terminateSimulation = true) :
    (∀ fuel, runLoop cfg env fuel (stateAt cfg env (n + 1)) = (stateAt cfg env (n + 1), []))
    ∧ (∀ fuel, n + 1 ≤ fuel →
        runLoop cfg env fuel (initState cfg env) = runLoop cfg env (n + 1) (initState cfg env)
        ∧ (runLoop cfg env fuel (initState cfg env)).1 = stepBody cfg env (stateAt cfg env n)
        ∧ mainLoop cfg env fuel
            = some (0, n + 1, (runLoop cfg env (n + 1) (initState cfg env)).2))
    ∧ (stateAt cfg env (n + 1)).timestep = n + 1 := by
  have hts : (stateAt cfg env (n + 1)).timestep = n + 1 := by
    rw [stateAt_succ_of_running cfg env n hr, stepBody_timestep, stateAt_timestep cfg env n hr]
  have hstop := runLoop_of_terminated cfg env _ ht
  refine ⟨hstop, ?_, hts⟩
  intro fuel hfuel
  obtain ⟨b, rfl⟩ : ∃ b, fuel = (n + 1) + b := ⟨fuel - (n + 1), by omega⟩
  have hrun : runLoop cfg env (n + 1 + b) (initState cfg env)
      = runLoop cfg env (n + 1) (initState cfg env) := by
    rw [runLoop_add cfg env (n + 1) b (initState cfg env), runLoop_fst_stateAt cfg env (n + 1),
      hstop b]
    simp [← runLoop_fst_stateAt cfg env (n + 1)]
  refine ⟨hrun, ?_, ?_⟩
  · rw [hrun, runLoop_fst_stateAt cfg env (n + 1), stateAt_succ_of_running cfg env n hr]
  · unfold mainLoop
    simp only [hrun, runLoop_fst_stateAt cfg env (n + 1), ht, if_true, hts, EXIT_SUCCESS]

/-! ### Damping -/

end Frame

/-! ## The theorems on the concrete run -/

section Witnesses

/-- C1 at step 0 of the concrete run: the mass is below the target, the maximum height 5 is below
`0.5 * 20 - 1`, and the step contains a generation event. -/
theorem C1_witness :
    massBelowTarget exampleConfig (stepInfo exampleConfig exampleEnv (initState exampleConfig exampleEnv))
    ∧ generationEvent exampleConfig exampleEnv (initState exampleConfig exampleEnv) :=
  ⟨by decide!,
    ((C1_generation_event_iff_trigger exampleConfig exampleEnv
      (initState exampleConfig exampleEnv)).1 (by decide!)).1.mpr (Or.inl (by decide!))⟩

/-- C2 at step 5 of the concrete run: a termination check is performed and the velocity
condition sets the flag. -/
theorem C2_witness :
    (stateAt exampleConfig exampleEnv 5).terminateSimulation = false
    ∧ terminationCheckPerformed exampleConfig exampleEnv (stateAt exampleConfig exampleEnv 5)
    ∧ (stepBody exampleConfig exampleEnv (stateAt exampleConfig exampleEnv 5)).terminateSimulation
        = true :=
  ⟨by decide!, by decide!,
    (C2_termination_flag_iff exampleConfig exampleEnv (stateAt exampleConfig exampleEnv 5)
      (by decide!) (by decide!)).2.1 (by decide!)⟩

/-- C3 on the concrete run: step 5 sets the flag, so it is a damping step; and the checks of
steps 4 and 5 are consecutive, so their times differ by more than
`terminationCheckingSpacing`. -/
theorem C3_witness :
    (running exampleConfig exampleEnv 5
      ∧ (stateAt exampleConfig exampleEnv 6).terminateSimulation = true
      ∧ (stateAt exampleConfig exampleEnv 5).shaking = false)
    ∧ (checkAt exampleConfig exampleEnv 4 ∧ checkAt exampleConfig exampleEnv 5
      ∧ currentTime exampleConfig 5 - currentTime exampleConfig 4
          > exampleConfig.terminationCheckingSpacing) :=
  ⟨⟨by decide!, by decide!,
      ((C3_termination_only_in_damping exampleConfig exampleEnv).1 5 (by decide!)
        (by decide!)).2.1⟩,
    ⟨⟨by decide!, by decide!⟩, ⟨by decide!, by decide!⟩,
      (C3_termination_only_in_damping exampleConfig exampleEnv).2 4 5 (by decide)
        ⟨by decide!, by decide!⟩ ⟨by decide!, by decide!⟩ (fun m h1 h2 => by omega)⟩⟩

/-- C4 on the concrete run, which terminates within 6 steps. -/
theorem C4_witness :
    exampleConfig.shaking = true ∧ exampleConfig.shaking_activeFromBeginning = false
    ∧ 0 ≤ exampleConfig.shaking_duration
    ∧ (stateAt exampleConfig exampleEnv 6).terminateSimulation = true
    ∧ ∃ k m : ℕ, k < m ∧ m + 1 < 6
      ∧ (∀ n, n ≤ k → (stateAt exampleConfig exampleEnv n).isShakingActive = false)
      ∧ (∀ n, k < n → n ≤ m → (stateAt exampleConfig exampleEnv n).isShakingActive = true)
      ∧ (∀ n, m < n → (stateAt exampleConfig exampleEnv n).isShakingActive = false)
      ∧ ¬ massBelowTarget exampleConfig
          (stepInfo exampleConfig exampleEnv (stateAt exampleConfig exampleEnv k))
      ∧ (∀ i < k, massBelowTarget exampleConfig
          (stepInfo exampleConfig exampleEnv (stateAt exampleConfig exampleEnv i))) :=
  ⟨by decide, by decide, by decide!, by decide!,
    C4_shaking_switches_exactly_once exampleConfig exampleEnv (by decide) (by decide)
      (by decide!) 6 (by decide!)⟩

/-- C5 on the concrete run: step 1 is the first step at or above the target mass; it starts
shaking at time 0.01 with end time 0.01, and the end time is still 0.01 four steps later. -/
theorem C5_witness :
    exampleConfig.shaking = true
    ∧ ¬ massBelowTarget exampleConfig
        (stepInfo exampleConfig exampleEnv (stateAt exampleConfig exampleEnv 1))
    ∧ (∀ i < 1, massBelowTarget exampleConfig
        (stepInfo exampleConfig exampleEnv (stateAt exampleConfig exampleEnv i)))
    ∧ (stateAt exampleConfig exampleEnv 2).timeEndShaking
        = currentTime exampleConfig 1 + exampleConfig.shaking_duration
    ∧ (stateAt exampleConfig exampleEnv 5).timeEndShaking
        = currentTime exampleConfig 1 + exampleConfig.shaking_duration :=
  ⟨by decide, by decide!, by decide!,
    (C5_shaking_begin_times exampleConfig exampleEnv (by decide) 1 (by decide!)
      (by decide!)).2.2.1,
    (C5_shaking_begin_times exampleConfig exampleEnv (by decide) 1 (by decide!)
      (by decide!)).2.2.2 (by decide!) (by decide!) 5 (by decide)⟩

/-- C6 on the concrete run: shaking starts in step 1 with duration 0; step 2 is the first step
at or above the target mass after the bound, it is executed with shaking active and switches
shaking off. -/
theorem C6_witness :
    exampleConfig.shaking = true ∧ exampleConfig.shaking_activeFromBeginning = false
    ∧ ¬ massBelowTarget exampleConfig
        (stepInfo exampleConfig exampleEnv (stateAt exampleConfig exampleEnv 1))
    ∧ (∀ i < 1, massBelowTarget exampleConfig
        (stepInfo exampleConfig exampleEnv (stateAt exampleConfig exampleEnv i)))
    ∧ switchOffDue exampleConfig exampleEnv 1 2
    ∧ (stateAt exampleConfig exampleEnv 2).isShakingActive = true
    ∧ (stateAt exampleConfig exampleEnv 3).shaking = false
    ∧ (stateAt exampleConfig exampleEnv 3).isShakingActive = false :=
  ⟨by decide, by decide, by decide!, by decide!, by decide!,
    ((C6_shaking_switched_off_after_end exampleConfig exampleEnv (by decide) (by decide) 1
      (by decide!) (by decide!)).2 (by decide!)).2.1,
    ((C6_shaking_switched_off_after_end exampleConfig exampleEnv (by decide) (by decide) 1
      (by decide!) (by decide!)).1 2 (by decide) (by decide!)).2.2.1 (by decide!)⟩

/-- C8 at step 0 of the concrete run, a step below the target mass. -/
theorem C8_witness :
    massBelowTarget exampleConfig
        (stepInfo exampleConfig exampleEnv (initState exampleConfig exampleEnv))
    ∧ (stepBody exampleConfig exampleEnv (initState exampleConfig exampleEnv)).shaking
        = (initState exampleConfig exampleEnv).shaking
    ∧ (stepBody exampleConfig exampleEnv (initState exampleConfig exampleEnv)).terminateSimulation
        = (initState exampleConfig exampleEnv).terminateSimulation :=
  ⟨by decide!,
    (C8_generating_step_frame exampleConfig exampleEnv (initState exampleConfig exampleEnv)
      (by decide!)).1,
    (C8_generating_step_frame exampleConfig exampleEnv (initState exampleConfig exampleEnv)
      (by decide!)).2.2.2.2.2.2.2.2.1⟩

/-- C9 on the concrete run: step 5 sets the flag, and `main` returns 0 with `timestep = 6`
whether the loop is allowed 6 or 100 iterations. -/
theorem C9_witness :
    running exampleConfig exampleEnv 5
    ∧ (stateAt exampleConfig exampleEnv 6).terminateSimulation = true
    ∧ mainLoop exampleConfig exampleEnv 100
        = some (0, 6, (runLoop exampleConfig exampleEnv 6 (initState exampleConfig exampleEnv)).2) :=
  ⟨by decide!, by decide!,
    ((C9_terminating_step_is_last exampleConfig exampleEnv 5 (by decide!) (by decide!)).2.1 100
      (by decide)).2.2⟩

end Witnesses

/-! ## The global acceleration of the HCSITS solver after shaking -/

section StaleAcceleration

variable (cfg : Config) (env : Env)

/-- The step stores a global acceleration only in its shaking block, and only while shaking is
active and the solver is not DEM; no other statement of the loop body writes it. -/
theorem stepBody_globalAcceleration (s : State) :
    (stepBody cfg env s).globalAcceleration
      = if s.isShakingActive = true ∧ cfg.solver ≠ "DEM" then
          ⟨shakingAcceleration cfg env (currentTime cfg s.timestep) s.timeBeginShaking,
            XReal.fin 0, (reducedGravitationalAcceleration cfg).neg⟩
        else s.globalAcceleration := by
  have hlife : (stepBody cfg env s).globalAcceleration
      = (shakingPhase cfg env (currentTime cfg s.timestep) s).1.globalAcceleration := by
    unfold stepBody lifecycle
    split_ifs
    · unfold generationPhase
      split_ifs <;> simp
    · simp only [shakingBranch, beginShaking, endShaking]
      split_ifs <;> simp
    · simp only [dampingBranch, terminationCheck, recordBeginDamping]
      split_ifs <;> simp
  rw [hlife]
  unfold shakingPhase
  by_cases ha : s.isShakingActive = true
  · by_cases hsol : cfg.solver = "DEM"
    · simp [ha, hsol]
    · simp [ha, hsol]
  · simp [ha]

/-- Under HCSITS a step that starts with shaking inactive initialises the particles with the
global acceleration stored by an earlier step. -/
theorem hcsitsInitParticles_uses_stored (s : State) (hsol : cfg.solver = "HCSITS")
    (ha : s.isShakingActive = false) :
    Event.hcsitsInitParticles s.globalAcceleration ∈ stepEvents cfg env s := by
  unfold stepEvents physicsEvents solverPhase hcsitsPipeline shakingPhase
  simp [hsol, ha]

/-- C7, evaluated on the concrete run (HCSITS, shaking period 0.1, amplitude 0.05, duration 0,
time step 0.01): shaking is switched off in step 2; step 3 starts with `shaking` and
`isShakingActive` false, and its HCSITS pipeline initialises the particles with the global
acceleration stored in step 2, whose horizontal component is not zero, instead of
`(0, 0, -reducedGravitationalAcceleration)`. -/
theorem C7_stale_global_acceleration :
    exampleConfig.solver = "HCSITS"
    ∧ (stateAt exampleConfig exampleEnv 2).isShakingActive = true
    ∧ running exampleConfig exampleEnv 3
    ∧ (stateAt exampleConfig exampleEnv 3).shaking = false
    ∧ (stateAt exampleConfig exampleEnv 3).isShakingActive = false
    ∧ gravityOnly exampleConfig = ⟨XReal.fin 0, XReal.fin 0, XReal.fin (-(981 / 100))⟩
    ∧ Event.hcsitsInitParticles ⟨exampleStaleAcceleration, XReal.fin 0, XReal.fin (-(981 / 100))⟩
        ∈ stepEvents exampleConfig exampleEnv (stateAt exampleConfig exampleEnv 3)
    ∧ Event.hcsitsInitParticles (gravityOnly exampleConfig)
        ∉ stepEvents exampleConfig exampleEnv (stateAt exampleConfig exampleEnv 3)
    ∧ exampleStaleAcceleration ≠ XReal.fin 0
    ∧ exampleStaleAcceleration
        = shakingAcceleration exampleConfig exampleEnv (currentTime exampleConfig 2)
            (stateAt exampleConfig exampleEnv 2).timeBeginShaking := by
  refine ⟨by decide, by decide!, by decide!, by decide!, by decide!, by decide!, by decide!,
    by decide!, by decide!, by decide!⟩

end StaleAcceleration

/-! ## Configuration errors -/

section ConfigurationErrors

theorem relaxationModelFromString_unknown (model : String) (h : model ∉ relaxationModelNames) :
    relaxationModelFromString model = Except.error ("Unknown relaxation model " ++ model) := by
  simp only [relaxationModelNames, List.mem_cons, List.mem_singleton, List.not_mem_nil,
    or_false, not_or] at h
  obtain ⟨h1, h2, h3, h4, h5, h6, h7⟩ := h
  simp [relaxationModelFromString, h1, h2, h3, h4, h5, h6, h7]

/-- C15: `relaxationModelFromString` returns the like-named variant for each of the seven
recognised names, distinct names give distinct variants, and it aborts for every other string,
among them the empty string and the lower-case and upper-case spellings of the seven names. -/
theorem C15_relaxationModelFromString :
    (∀ m : RelaxationModel, relaxationModelFromString m.name = Except.ok m)
    ∧ (∀ model : String, model ∈ relaxationModelNames ↔ ∃ m : RelaxationModel, m.name = model)
    ∧ (∀ m1 m2 : RelaxationModel, m1.name = m2.name → m1 = m2)
    ∧ (∀ model : String, model ∉ relaxationModelNames →
        relaxationModelFromString model = Except.error ("Unknown relaxation model " ++ model))
    ∧ (∀ model : String,
        aborts (relaxationModelFromString model) = true ↔ model ∉ relaxationModelNames)
    ∧ aborts (relaxationModelFromString "") = true
    ∧ (∀ m : RelaxationModel, aborts (relaxationModelFromString m.name.toLower) = true
        ∧ aborts (relaxationModelFromString m.name.toUpper) = true) := by
  have hok : ∀ m : RelaxationModel, relaxationModelFromString m.name = Except.ok m := by
    intro m; cases m <;> rfl
  have hnames : ∀ model : String,
      model ∈ relaxationModelNames ↔ ∃ m : RelaxationModel, m.name = model := by
    intro model
    constructor
    · intro h
      simp only [relaxationModelNames, List.mem_cons, List.mem_singleton, List.not_mem_nil,
        or_false] at h
      rcases h with h | h | h | h | h | h | h
      · exact ⟨RelaxationModel.InelasticFrictionlessContact, h.symm⟩
      · exact ⟨RelaxationModel.ApproximateInelasticCoulombContactByDecoupling, h.symm⟩
      · exact ⟨RelaxationModel.ApproximateInelasticCoulombContactByOrthogonalProjections, h.symm⟩
      · exact ⟨RelaxationModel.InelasticCoulombContactByDecoupling, h.symm⟩
      · exact ⟨RelaxationModel.InelasticCoulombContactByOrthogonalProjections, h.symm⟩
      · exact ⟨RelaxationModel.InelasticGeneralizedMaximumDissipationContact, h.symm⟩
      · exact ⟨RelaxationModel.InelasticProjectedGaussSeidel, h.symm⟩
    · rintro ⟨m, rfl⟩
      cases m <;> simp [relaxationModelNames, RelaxationModel.name]
  refine ⟨hok, hnames, ?_, relaxationModelFromString_unknown, ?_, by decide, ?_⟩
  · intro m1 m2 h
    have h1 := hok m1
    rw [h, hok m2] at h1
    exact (Except.ok.inj h1).symm
  · intro model
    constructor
    · intro hab hmem
      obtain ⟨m, rfl⟩ := (hnames model).mp hmem
      rw [hok m] at hab
      cases hab
    · intro h
      rw [relaxationModelFromString_unknown model h]
      rfl
  · intro m
    cases m <;> exact ⟨by decide!, by decide!⟩

theorem shapeDispatch_unknown (particleShape : String) (h : particleShape ∉ shapeNames) :
    shapeDispatch particleShape = Except.error ("Unknown shape " ++ particleShape) := by
  simp only [shapeNames, List.mem_cons, List.mem_singleton, List.not_mem_nil, or_false,
    not_or] at h
  obtain ⟨h1, h2, h3, h4, h5, h6, h7⟩ := h
  simp [shapeDispatch, h1, h2, h3, h4, h5, h6, h7]

theorem shapeDispatch_known (particleShape : String) (h : particleShape ∈ shapeNames) :
    aborts (shapeDispatch particleShape) = false := by
  simp only [shapeNames, List.mem_cons, List.mem_singleton, List.not_mem_nil, or_false] at h
  rcases h with rfl | rfl | rfl | rfl | rfl | rfl | rfl <;> rfl

theorem distributionDispatch_unknown (particleDistribution : String) (useDiscreteForm : Bool)
    (h : particleDistribution ∉ distributionNames) :
    distributionDispatch particleDistribution useDiscreteForm
      = Except.error ("Unknown particle distribution specified: " ++ particleDistribution) := by
  simp only [distributionNames, List.mem_cons, List.mem_singleton, List.not_mem_nil, or_false,
    not_or] at h
  obtain ⟨h1, h2, h3, h4⟩ := h
  simp [distributionDispatch, h1, h2, h3, h4]

theorem distributionDispatch_known (particleDistribution : String) (useDiscreteForm : Bool)
    (h : particleDistribution ∈ distributionNames) :
    aborts (distributionDispatch particleDistribution useDiscreteForm) = false := by
  simp only [distributionNames, List.mem_cons, List.mem_singleton, List.not_mem_nil,
    or_false] at h
  rcases h with rfl | rfl | rfl | rfl <;> cases useDiscreteForm <;> rfl

/-- C17: the shape dispatch aborts if and only if `particleShape` is none of `Sphere`,
`Ellipsoid`, `EquivalentEllipsoid`, `EllipsoidFormDistribution`, `Mesh`, `MeshFormDistribution`,
`UnscaledMeshesPerFraction`, and the distribution dispatch aborts if and only if
`particleDistribution` is none of `LogNormal`, `Uniform`, `DiameterMassFractions`,
`SievingCurve`; each recognised name selects one generator, the one listed here. -/
theorem C17_dispatch_aborts_iff_unknown :
    (∀ particleShape : String,
      aborts (shapeDispatch particleShape) = true ↔ particleShape ∉ shapeNames)
    ∧ shapeNames = ["Sphere", "Ellipsoid", "EquivalentEllipsoid", "EllipsoidFormDistribution",
        "Mesh", "MeshFormDistribution", "UnscaledMeshesPerFraction"]
    ∧ shapeDispatch "Sphere" = Except.ok ShapeGeneratorChoice.SphereGenerator
    ∧ shapeDispatch "Ellipsoid"
        = Except.ok (ShapeGeneratorChoice.EllipsoidGenerator
            (FormGenerator.SampleFormGenerator false))
    ∧ shapeDispatch "EquivalentEllipsoid"
        = Except.ok (ShapeGeneratorChoice.EllipsoidGenerator
            (FormGenerator.SampleFormGenerator true))
    ∧ shapeDispatch "EllipsoidFormDistribution"
        = Except.ok (ShapeGeneratorChoice.EllipsoidGenerator
            FormGenerator.DistributionFormGenerator)
    ∧ shapeDispatch "Mesh"
        = Except.ok (ShapeGeneratorChoice.MeshesGenerator FormGenerator.ConstFormGenerator)
    ∧ shapeDispatch "MeshFormDistribution"
        = Except.ok (ShapeGeneratorChoice.MeshesGenerator
            FormGenerator.DistributionFormGenerator)
    ∧ shapeDispatch "UnscaledMeshesPerFraction"
        = Except.ok ShapeGeneratorChoice.UnscaledMeshesPerFractionGenerator
    ∧ (∀ (particleDistribution : String) (useDiscreteForm : Bool),
        aborts (distributionDispatch particleDistribution useDiscreteForm) = true
          ↔ particleDistribution ∉ distributionNames)
    ∧ distributionNames = ["LogNormal", "Uniform", "DiameterMassFractions", "SievingCurve"]
    ∧ (∀ useDiscreteForm : Bool,
        distributionDispatch "LogNormal" useDiscreteForm
          = Except.ok DiameterGeneratorChoice.LogNormal
        ∧ distributionDispatch "Uniform" useDiscreteForm
          = Except.ok DiameterGeneratorChoice.Uniform
        ∧ distributionDispatch "DiameterMassFractions" useDiscreteForm
          = Except.ok (DiameterGeneratorChoice.DiscreteSieving false))
    ∧ distributionDispatch "SievingCurve" true
        = Except.ok (DiameterGeneratorChoice.DiscreteSieving true)
    ∧ distributionDispatch "SievingCurve" false
        = Except.ok DiameterGeneratorChoice.ContinuousSieving := by
  refine ⟨?_, rfl, rfl, rfl, rfl, rfl, rfl, rfl, rfl, ?_, rfl, ?_, rfl, rfl⟩
  · intro particleShape
    constructor
    · intro hab hmem
      rw [shapeDispatch_known particleShape hmem] at hab
      cases hab
    · intro h
      rw [shapeDispatch_unknown particleShape h]
      rfl
  · intro particleDistribution useDiscreteForm
    constructor
    · intro hab hmem
      rw [distributionDispatch_known particleDistribution useDiscreteForm hmem] at hab
      cases hab
    · intro h
      rw [distributionDispatch_unknown particleDistribution useDiscreteForm h]
      rfl
  · intro useDiscreteForm
    exact ⟨rfl, rfl, rfl⟩

/-- C16: the domain-sizing check is passed if and only if `domainWidth > generationSpacing`, and
for every configuration with `generationSpacing ≥ domainWidth`, equality included, the part
ahead of the loop ends in an abort before any event, so before any particle is created. -/
theorem C16_generation_spacing_check (cfg : Config) (inp : StartupInput) :
    (checkGenerationSpacing cfg = true ↔ cfg.domainWidth > cfg.generationSpacing)
    ∧ (cfg.generationSpacing ≥ cfg.domainWidth →
        (startup cfg inp).isAborted = true
        ∧ (startup cfg inp).events = []
        ∧ ∀ e ∈ (startup cfg inp).events, e.createsParticle = false)
    ∧ (cfg.generationSpacing = cfg.domainWidth → (startup cfg inp).isAborted = true) := by
  have hcheck : checkGenerationSpacing cfg = true ↔ cfg.domainWidth > cfg.generationSpacing := by
    simp [checkGenerationSpacing]
  have habort : cfg.generationSpacing ≥ cfg.domainWidth →
      (startup cfg inp).isAborted = true ∧ (startup cfg inp).events = [] := by
    intro hge
    have hc : checkGenerationSpacing cfg = false := by
      cases hv : checkGenerationSpacing cfg with
      | false => rfl
      | true => exact absurd (hcheck.mp hv) (not_lt.mpr hge)
    unfold startup
    by_cases h1 : checkDomainSetup cfg = false
    · simp [h1, StartupResult.isAborted, StartupResult.events]
    · simp [h1, hc, StartupResult.isAborted, StartupResult.events]
  refine ⟨hcheck, ?_, ?_⟩
  · intro hge
    obtain ⟨h1, h2⟩ := habort hge
    refine ⟨h1, h2, ?_⟩
    intro e he
    rw [h2] at he
    cases he
  · intro heq
    exact (habort (le_of_eq heq.symm)).1

/-- C16 on `wideSpacingConfig`, where the generation spacing equals the domain width 10: the
check fails and the part ahead of the loop aborts without any event; the concrete run, with
spacing 1, passes the check and is not aborted. -/
theorem C16_witness :
    wideSpacingConfig.generationSpacing = wideSpacingConfig.domainWidth
    ∧ (startup wideSpacingConfig exampleStartupInput).isAborted = true
    ∧ (startup wideSpacingConfig exampleStartupInput).events = []
    ∧ checkGenerationSpacing exampleConfig = true
    ∧ (startup exampleConfig exampleStartupInput).isAborted = false :=
  ⟨by decide!,
    ((C16_generation_spacing_check wideSpacingConfig exampleStartupInput).2.1 (by decide!)).1,
    ((C16_generation_spacing_check wideSpacingConfig exampleStartupInput).2.1 (by decide!)).2.1,
    (C16_generation_spacing_check exampleConfig exampleStartupInput).1.mpr (by decide!),
    by decide!⟩

end ConfigurationErrors

/-! ## The solver name -/

section SolverName

variable (cfg : Config) (env : Env)

theorem lifecycle_no_solver_event (t : ℚ) (info : ParticleInfo) (s : State) :
    ∀ e ∈ (lifecycle cfg env t info s).2, e.isSolverEvent = false := by
  intro e he
  unfold lifecycle at he
  split_ifs at he
  · unfold generationPhase at he
    split_ifs at he
    · simp only [List.cons_append, List.nil_append, List.mem_cons] at he
      rcases he with rfl | rfl | he
      · rfl
      · rfl
      · unfold syncAfterCreation at he
        split_ifs at he
        · simp at he; subst he; rfl
        · rw [List.mem_replicate] at he
          rw [he.2]; rfl
    · simp at he
  · simp at he
  · simp only [dampingBranch, List.mem_singleton] at he
    subst he; rfl

theorem stepEvents_no_solver_event (s : State) (h1 : cfg.solver ≠ "HCSITS")
    (h2 : cfg.solver ≠ "DEM") : ∀ e ∈ stepEvents cfg env s, e.isSolverEvent = false := by
  intro e he
  unfold stepEvents at he
  rw [List.mem_append] at he
  rcases he with he | he
  · simp only [physicsEvents, solverPhase, h1, h2, if_false, List.append_nil, List.mem_append,
      List.mem_cons, List.mem_singleton, List.not_mem_nil, or_false] at he
    rcases he with ((rfl | he) | he) | (rfl | rfl)
    · rfl
    · unfold shakingPhase at he
      split_ifs at he <;> simp at he
      subst he; rfl
    · unfold limitingPhase at he
      split_ifs at he <;> simp at he
      subst he; rfl
    · rfl
    · rfl
  · exact lifecycle_no_solver_event cfg env _ _ _ e he

/-- C18, evaluated on the configuration of the concrete run with `solver = "hcsits"`: the part
ahead of the loop does not examine the solver name (its outcome is the same for every value of
`solver`) and does not abort; and in every step of a configuration whose solver is neither
`"HCSITS"` nor `"DEM"` the solver dispatch runs neither pipeline, so the step contains no solver
event at all. For the two known names the dispatch runs the HCSITS and the DEM pipeline. -/
theorem C18_unknown_solver_is_accepted :
    unknownSolverConfig.solver ≠ "HCSITS" ∧ unknownSolverConfig.solver ≠ "DEM"
    ∧ (startup unknownSolverConfig exampleStartupInput).isAborted = false
    ∧ (∀ (cfg : Config) (inp : StartupInput) (solver : String),
        startup { cfg with solver := solver } inp = startup cfg inp)
    ∧ (∀ (env : Env) (s : State),
        solverPhase unknownSolverConfig s = []
        ∧ ∀ e ∈ stepEvents unknownSolverConfig env s, e.isSolverEvent = false)
    ∧ (∀ (cfg : Config) (s : State), cfg.solver = "HCSITS" →
        solverPhase cfg s = hcsitsPipeline cfg s.globalAcceleration)
    ∧ (∀ (cfg : Config) (s : State), cfg.solver = "DEM" → solverPhase cfg s = demPipeline) := by
  have h1 : unknownSolverConfig.solver ≠ "HCSITS" := by decide
  have h2 : unknownSolverConfig.solver ≠ "DEM" := by decide
  refine ⟨h1, h2, by decide!, ?_, ?_, ?_, ?_⟩
  · intro cfg inp solver
    rfl
  · intro env s
    refine ⟨?_, stepEvents_no_solver_event unknownSolverConfig env s h1 h2⟩
    simp [solverPhase, h1, h2]
  · intro cfg s h
    simp [solverPhase, h]
  · intro cfg s h
    have hne : cfg.solver ≠ "HCSITS" := by rw [h]; decide
    simp [solverPhase, h, hne]

end SolverName

/-! ## Synchronisation set-up -/

section SyncSetup

theorem simulationDomain_xSize (cfg : Config) : (simulationDomain cfg).xSize = cfg.domainWidth := by
  simp [simulationDomain, AABB.xSize]
  ring

theorem simulationDomain_ySize (cfg : Config) : (simulationDomain cfg).ySize = cfg.domainWidth := by
  simp [simulationDomain, AABB.ySize]
  ring

theorem xmin_fin (a b : ℚ) : XReal.min (XReal.fin a) (XReal.fin b) = XReal.fin (min a b) := by
  unfold XReal.min XReal.lt
  by_cases h : b < a
  · simp [h, min_eq_right (le_of_lt h)]
  · simp [h, min_eq_left (not_lt.mp h)]

theorem xdiv_of_ne_zero (a b : ℚ) (h : b ≠ 0) : XReal.div a b = XReal.fin (a / b) := by
  simp [XReal.div, h]

/-- C11, as the code decides it: the immediate-neighbour routine is selected if and only if
twice the smallest block extent is more than the maximum particle diameter, and the ghost-owner
routine in every other case. A smallest block extent of more than twice a non-negative maximum
diameter is sufficient for the immediate-neighbour routine, not necessary. For positive block
counts the smallest block extent is the minimum of the three quotients of domain extent and
block count. -/
theorem C11_next_neighbor_sync_iff (cfg : Config) :
    (syncCall cfg = SyncRoutine.SyncNextNeighborsBlockForest
      ↔ 2 * cfg.smallestBlockSize > cfg.maxParticleDiameter)
    ∧ (syncCall cfg = SyncRoutine.SyncGhostOwners
      ↔ ¬ 2 * cfg.smallestBlockSize > cfg.maxParticleDiameter)
    ∧ (0 ≤ cfg.maxParticleDiameter → cfg.smallestBlockSize > 2 * cfg.maxParticleDiameter →
        syncCall cfg = SyncRoutine.SyncNextNeighborsBlockForest)
    ∧ (∀ nx ny nz : ℕ, 0 < nx → 0 < ny → 0 < nz →
        smallestBlockSize cfg (nx, ny, nz)
          = XReal.fin (min (cfg.domainWidth / nx)
              (min (cfg.domainWidth / ny) (cfg.domainHeight / nz)))) := by
  have h1 : syncCall cfg = SyncRoutine.SyncNextNeighborsBlockForest
      ↔ 2 * cfg.smallestBlockSize > cfg.maxParticleDiameter := by
    unfold syncCall useNextNeighborSync
    by_cases h : 2 * cfg.smallestBlockSize > cfg.maxParticleDiameter
    · simp [h]
    · simp [h]
  refine ⟨h1, ?_, ?_, ?_⟩
  · unfold syncCall useNextNeighborSync
    by_cases h : 2 * cfg.smallestBlockSize > cfg.maxParticleDiameter
    · simp [h]
    · simp [h]
  · intro hd hs
    apply h1.mpr
    linarith
  · intro nx ny nz hx hy hz
    have hx0 : (nx : ℚ) ≠ 0 := by exact_mod_cast (Nat.pos_iff_ne_zero.mp hx)
    have hy0 : (ny : ℚ) ≠ 0 := by exact_mod_cast (Nat.pos_iff_ne_zero.mp hy)
    have hz0 : (nz : ℚ) ≠ 0 := by exact_mod_cast (Nat.pos_iff_ne_zero.mp hz)
    simp only [smallestBlockSize, simulationDomain_xSize, simulationDomain_ySize,
      simulationDomain_zSize, xdiv_of_ne_zero _ _ hx0, xdiv_of_ne_zero _ _ hy0,
      xdiv_of_ne_zero _ _ hz0, xmin_fin]

/-- C11 as stated fails: with blocks of extent 1 and a maximum particle diameter of 1 the
immediate-neighbour routine is selected although the smallest block extent is not more than
twice the maximum diameter. -/
theorem C11_counterexample :
    ¬ (syncCall denseBlocksConfig = SyncRoutine.SyncNextNeighborsBlockForest
        ↔ denseBlocksConfig.smallestBlockSize > 2 * denseBlocksConfig.maxParticleDiameter) := by
  decide!

/-- C11 on the block layout of `denseBlocksConfig`. -/
theorem C11_witness :
    syncCall denseBlocksConfig = SyncRoutine.SyncNextNeighborsBlockForest
    ∧ smallestBlockSize denseBlocksConfig (10, 10, 20)
        = XReal.fin denseBlocksConfig.smallestBlockSize :=
  ⟨(C11_next_neighbor_sync_iff denseBlocksConfig).1.mpr (by decide!), by decide!⟩

theorem widened_ge (T S r : ℚ) (hr0 : 0 ≤ r) (hrS : 2 * r ≤ S ∨ 2 * r ≤ T) :
    2 * r ≤ (if T < S then 11 / 10 * S else T) := by
  by_cases h : T < S
  · rw [if_pos h]
    rcases hrS with h1 | h1 <;> linarith
  · rw [if_neg h]
    rcases hrS with h1 | h1 <;> linarith

/-- C12, as the code computes it: with `T = maxGenerationParticleDiameter * scaling factor` and
`S` the sampled maximum, the expected maximum interaction diameter is
`min(T', 2 * maximumAllowedInteractionRadius)`, where `T' = 1.1 * S` if `T < S` and `T' = T`
otherwise (just `T'` for an infinite allowed radius). For non-negative `T` this is the formula
`min(max(T, 1.1 * S), 2 * maximumAllowedInteractionRadius)` whenever `T < S` or `1.1 * S ≤ T`. -/
theorem C12_max_diameter_formula (G F S : ℚ) (R : XReal) :
    (∀ b : ℚ, R = XReal.fin b →
      maxParticleDiameter G F S R
        = XReal.fin (min (if G * F < S then 11 / 10 * S else G * F) (2 * b)))
    ∧ (R = XReal.posInf →
      maxParticleDiameter G F S R = XReal.fin (if G * F < S then 11 / 10 * S else G * F))
    ∧ (0 ≤ G * F → (G * F < S ∨ 11 / 10 * S ≤ G * F) →
        (R = XReal.posInf ∨ ∃ b : ℚ, R = XReal.fin b) →
        maxParticleDiameter G F S R = specMaxParticleDiameter (G * F) S R) := by
  have hfin : ∀ b : ℚ, R = XReal.fin b →
      maxParticleDiameter G F S R
        = XReal.fin (min (if G * F < S then 11 / 10 * S else G * F) (2 * b)) := by
    intro b hb
    subst hb
    simp only [maxParticleDiameter, XReal.mulRat, XReal.lt, decide_eq_true_eq]
    by_cases h : b * 2 < (if G * F < S then 11 / 10 * S else G * F)
    · rw [if_pos h, min_eq_right (by linarith)]
      congr 1; ring
    · rw [if_neg h, min_eq_left (by linarith [not_lt.mp h])]
  have hinf : R = XReal.posInf →
      maxParticleDiameter G F S R = XReal.fin (if G * F < S then 11 / 10 * S else G * F) := by
    intro hR
    subst hR
    simp [maxParticleDiameter, XReal.mulRat, XReal.lt]
  have hmax : 0 ≤ G * F → (G * F < S ∨ 11 / 10 * S ≤ G * F) →
      (if G * F < S then 11 / 10 * S else G * F) = max (G * F) (11 / 10 * S) := by
    intro hT hcase
    by_cases h : G * F < S
    · rw [if_pos h, max_eq_right (by linarith)]
    · rw [if_neg h]
      rcases hcase with h1 | h1
      · exact absurd h1 h
      · rw [max_eq_left h1]
  refine ⟨hfin, hinf, ?_⟩
  intro hT hcase hR
  rcases hR with hR | ⟨b, hR⟩
  · rw [hinf hR, hmax hT hcase]
    subst hR
    simp [specMaxParticleDiameter, XReal.mulRat]
  · rw [hfin b hR, hmax hT hcase]
    subst hR
    simp only [specMaxParticleDiameter, XReal.mulRat]
    congr 2; ring

/-- C12 as stated fails: for `T = 1` and a sampled maximum `S = 1` in the container set-up the
code keeps the estimate 1, while `min(max(T, 1.1 * S), ∞)` is 1.1. -/
theorem C12_counterexample :
    maxParticleDiameter 1 1 1 (maximumAllowedInteractionRadius exampleConfig) = XReal.fin 1
    ∧ specMaxParticleDiameter (1 * 1) 1 (maximumAllowedInteractionRadius exampleConfig)
        = XReal.fin (11 / 10)
    ∧ maxParticleDiameter 1 1 1 (maximumAllowedInteractionRadius exampleConfig)
        ≠ specMaxParticleDiameter (1 * 1) 1 (maximumAllowedInteractionRadius exampleConfig) := by
  refine ⟨by decide!, by decide!, by decide!⟩

/-- C12 for an estimate of 1 and a sampled maximum of 2 in the container set-up: the expected
maximum is 2.2, as the formula says. -/
theorem C12_witness :
    maxParticleDiameter 1 1 2 XReal.posInf = XReal.fin (11 / 5)
    ∧ maxParticleDiameter 1 1 2 XReal.posInf = specMaxParticleDiameter (1 * 1) 2 XReal.posInf :=
  ⟨by decide!,
    (C12_max_diameter_formula 1 1 2 XReal.posInf).2.2 (by decide!) (Or.inl (by decide!))
      (Or.inl rfl)⟩

theorem maxParticleDiameter_ge (G F S : ℚ) (R : XReal) (d r : ℚ)
    (hd : maxParticleDiameter G F S R = XReal.fin d) (hr0 : 0 ≤ r)
    (hrR : XReal.le (XReal.fin r) R = true) (hrS : 2 * r ≤ S ∨ 2 * r ≤ G * F) :
    2 * r ≤ d := by
  have hw := widened_ge (G * F) S r hr0 hrS
  obtain ⟨w, hw_def⟩ : ∃ w, w = (if G * F < S then 11 / 10 * S else G * F) := ⟨_, rfl⟩
  have hd2 : (if XReal.lt (R.mulRat 2) (XReal.fin w) = true then R.mulRat 2 else XReal.fin w)
      = XReal.fin d := by
    rw [hw_def]; exact hd
  rw [← hw_def] at hw
  clear hw_def hd
  cases R with
  | fin b =>
    have hrb : r ≤ b := by simpa [XReal.le] using hrR
    simp only [XReal.mulRat, XReal.lt, decide_eq_true_eq] at hd2
    split_ifs at hd2 with h
    · have := XReal.fin.inj hd2
      linarith
    · have := XReal.fin.inj hd2
      linarith
  | posInf =>
    simp [XReal.mulRat, XReal.lt] at hd2
    linarith
  | negInf => simp [XReal.le] at hrR
  | nan => simp [XReal.le] at hrR

/-- C13, as far as the code ensures it: let `d` be the expected maximum interaction diameter
computed ahead of the loop from the estimate `T`, the maximum `S` of the sampled initial batch
and the allowed interaction radius. Then `d` and the cell width `1.01 * d` are at least the
interaction diameter of every local particle of the initial batch, and of every other particle
whose interaction diameter does not exceed `S` or `T`, provided the interaction radius is
non-negative and within the allowed interaction radius. The value is computed once; particles
of later generation events are not sampled. -/
theorem C13_max_diameter_covers_sample (G F S : ℚ) (R : XReal) (d : ℚ) (ps : List Particle)
    (hd : maxParticleDiameter G F S R = XReal.fin d)
    (hS : ∀ x ∈ diameterSample ps, x ≤ S) :
    (∀ p ∈ ps, p.ghost = false → 0 ≤ p.interactionRadius →
        XReal.le (XReal.fin p.interactionRadius) R = true →
        2 * p.interactionRadius ≤ d ∧ 2 * p.interactionRadius ≤ linkedCellWidth d)
    ∧ (∀ r : ℚ, 0 ≤ r → XReal.le (XReal.fin r) R = true → (2 * r ≤ S ∨ 2 * r ≤ G * F) →
        2 * r ≤ d ∧ 2 * r ≤ linkedCellWidth d) := by
  have hgen : ∀ r : ℚ, 0 ≤ r → XReal.le (XReal.fin r) R = true →
      (2 * r ≤ S ∨ 2 * r ≤ G * F) → 2 * r ≤ d ∧ 2 * r ≤ linkedCellWidth d := by
    intro r hr0 hrR hrS
    have h := maxParticleDiameter_ge G F S R d r hd hr0 hrR hrS
    refine ⟨h, ?_⟩
    unfold linkedCellWidth
    linarith
  refine ⟨?_, hgen⟩
  intro p hp hg hr0 hrR
  refine hgen p.interactionRadius hr0 hrR (Or.inl (hS _ ?_))
  unfold diameterSample
  rw [List.mem_map]
  exact ⟨p, List.mem_filter.mpr ⟨hp, by simp [hg]⟩, rfl⟩

/-- C13 as stated fails: in `driftConfig` the initial batch has interaction diameter 2 for an
estimate of 1, so the expected maximum is widened to 2.2, the value of the configuration, and
the cell width is 2.222. Step 0 contains a generation event that adds a particle of interaction
diameter 3, so the storage after step 0 holds a particle whose interaction diameter exceeds
both. -/
theorem C13_counterexample :
    diameterSample driftEnv.initialParticles = [2, 2]
    ∧ maxParticleDiameter 1 1 2 (maximumAllowedInteractionRadius driftConfig)
        = XReal.fin driftConfig.maxParticleDiameter
    ∧ (∃ e ∈ stepEvents driftConfig driftEnv (initState driftConfig driftEnv),
        e.isCreation = true)
    ∧ particleOfRadius (3 / 2) ∈ (stateAt driftConfig driftEnv 1).particles
    ∧ driftConfig.maxParticleDiameter < 2 * (particleOfRadius (3 / 2)).interactionRadius
    ∧ linkedCellWidth driftConfig.maxParticleDiameter
        < 2 * (particleOfRadius (3 / 2)).interactionRadius
    ∧ ¬ (∀ n : ℕ, ∀ p ∈ (stateAt driftConfig driftEnv n).particles,
          2 * p.interactionRadius ≤ driftConfig.maxParticleDiameter) := by
  have hmem : particleOfRadius (3 / 2) ∈ (stateAt driftConfig driftEnv 1).particles := by
    decide!
  have hlt : driftConfig.maxParticleDiameter
      < 2 * (particleOfRadius (3 / 2)).interactionRadius := by decide!
  refine ⟨by decide!, by decide!, ?_, hmem, hlt, by decide!, ?_⟩
  · exact (generationEvent_iff driftConfig driftEnv (initState driftConfig driftEnv)).mpr
      ⟨by decide!, by decide!⟩
  · intro hall
    exact absurd (hall 1 _ hmem) (not_le.mpr hlt)

/-- C13 on the initial batch of `driftEnv`: both particles have interaction diameter 2, below
the expected maximum 2.2. -/
theorem C13_witness :
    maxParticleDiameter 1 1 2 XReal.posInf = XReal.fin (11 / 5)
    ∧ (∀ x ∈ diameterSample driftEnv.initialParticles, x ≤ 2)
    ∧ ∀ p ∈ driftEnv.initialParticles, p.ghost = false → 0 ≤ p.interactionRadius →
        XReal.le (XReal.fin p.interactionRadius) XReal.posInf = true →
        2 * p.interactionRadius ≤ 11 / 5 ∧ 2 * p.interactionRadius ≤ linkedCellWidth (11 / 5) :=
  ⟨by decide!, by decide!,
    (C13_max_diameter_covers_sample 1 1 2 XReal.posInf (11 / 5) driftEnv.initialParticles
      (by decide!) (by decide!)).1⟩

end SyncSetup

/-! ## The bound on the interaction radius -/

section InteractionRadiusBound

variable (cfg : Config) (env : Env)

theorem initialCreation_bound (inp : StartupInput) :
    ∀ e ∈ initialCreation cfg inp, e.isCreation = true →
      e.interactionRadiusBound = some (maximumAllowedInteractionRadius cfg) := by
  intro e he hc
  unfold initialCreation at he
  simp only [List.mem_append, List.mem_cons, List.mem_singleton, List.not_mem_nil,
    or_false] at he
  rcases he with ((rfl | rfl) | he) | rfl
  · cases hc
  · cases hc
  · split_ifs at he
    · simp at he; subst he; cases hc
    · simp at he
  · rfl

theorem startup_events_bound (inp : StartupInput) :
    ∀ e ∈ (startup cfg inp).events, e.isCreation = true →
      e.interactionRadiusBound = some (maximumAllowedInteractionRadius cfg) := by
  intro e he hc
  have hcases : (startup cfg inp).events = []
      ∨ (startup cfg inp).events = initialCreation cfg inp ++ initialSynchronization cfg := by
    unfold startup
    split_ifs
    · exact Or.inl rfl
    · exact Or.inl rfl
    · split
      · exact Or.inl rfl
      · split
        · exact Or.inl rfl
        · split
          · exact Or.inr rfl
          · exact Or.inr rfl
  rcases hcases with h | h
  · rw [h] at he; cases he
  · rw [h, List.mem_append] at he
    rcases he with he | he
    · exact initialCreation_bound cfg inp e he hc
    · unfold initialSynchronization at he
      rw [List.mem_cons] at he
      rcases he with rfl | he
      · cases hc
      · rw [(syncAfterCreation_no_creation cfg e he).1] at hc
        cases hc

theorem stepEvents_bound (s : State) :
    ∀ e ∈ stepEvents cfg env s, e.isCreation = true →
      e.interactionRadiusBound = some (maximumAllowedInteractionRadius cfg) := by
  intro e he hc
  unfold stepEvents at he
  rw [List.mem_append] at he
  rcases he with he | he
  · rw [(physicsEvents_no_creation cfg env s e he).1] at hc
    cases hc
  · unfold lifecycle at he
    split_ifs at he
    · unfold generationPhase at he
      split_ifs at he
      · simp only [List.cons_append, List.nil_append, List.mem_cons] at he
        rcases he with rfl | rfl | he
        · rfl
        · cases hc
        · rw [(syncAfterCreation_no_creation cfg e he).1] at hc
          cases hc
      · simp at he
    · simp at he
    · simp only [dampingBranch, List.mem_singleton] at he
      subst he; cases hc

theorem createAtPoints_interactionRadius (ce : CreatorEnv) (spacing initialVelocity : ℚ)
    (bound : XReal) (pts : List Vec3) :
    ∀ (i k : ℕ), ∀ p ∈ createAtPoints cfg ce spacing initialVelocity bound pts i k,
      ∃ (j : ℕ) (diameter : ℚ),
        p.interactionRadius = ce.shapeGenerator.setShape j diameter bound := by
  induction pts with
  | nil => intro i k p hp; simp [createAtPoints] at hp
  | cons pt rest ih =>
    intro i k p hp
    unfold createAtPoints at hp
    split_ifs at hp
    · exact ih _ _ p hp
    · exact ih _ _ p hp
    · rw [List.mem_cons] at hp
      rcases hp with rfl | hp
      · exact ⟨k, ce.diameterGenerator i, rfl⟩
      · exact ih _ _ p hp

theorem maximumAllowedInteractionRadius_periodic (h : cfg.domainSetup = "periodic") :
    maximumAllowedInteractionRadius cfg = XReal.fin (cfg.domainWidth / 4) := by
  unfold maximumAllowedInteractionRadius
  rw [if_pos h]
  congr 1
  ring

/-- C19: in the periodic set-up the allowed interaction radius is `domainWidth / 4`, in the
container set-up it is infinite; every `createParticles` call, the initial fill and every later
generation event, is handed this value; `createParticles` hands it unchanged to the shape source
for every particle it creates. So with a shape source that respects its bound, every created
particle of the periodic set-up has an interaction radius of at most `domainWidth / 4`, hence
(for a non-negative domain width or radius) of at most half the domain width, whatever the drawn
diameter, 1.5 times the bound included. -/
theorem C19_interaction_radius_bound (inp : StartupInput) (ce : CreatorEnv) :
    (cfg.domainSetup = "periodic" →
      maximumAllowedInteractionRadius cfg = XReal.fin (cfg.domainWidth / 4))
    ∧ (cfg.domainSetup = "container" → maximumAllowedInteractionRadius cfg = XReal.posInf)
    ∧ (∀ e ∈ (startup cfg inp).events, e.isCreation = true →
        e.interactionRadiusBound = some (maximumAllowedInteractionRadius cfg))
    ∧ (∀ (s : State), ∀ e ∈ stepEvents cfg env s, e.isCreation = true →
        e.interactionRadiusBound = some (maximumAllowedInteractionRadius cfg))
    ∧ (∀ (spacing initialVelocity : ℚ) (bound : XReal) (pts : List Vec3) (i k : ℕ),
        ∀ p ∈ createAtPoints cfg ce spacing initialVelocity bound pts i k,
          ∃ (j : ℕ) (diameter : ℚ),
            p.interactionRadius = ce.shapeGenerator.setShape j diameter bound)
    ∧ (cfg.domainSetup = "periodic" → ce.shapeGenerator.respectsBound →
        ∀ (spacing initialVelocity : ℚ) (pts : List Vec3) (i k : ℕ),
        ∀ p ∈ createAtPoints cfg ce spacing initialVelocity
            (maximumAllowedInteractionRadius cfg) pts i k,
          p.interactionRadius ≤ cfg.domainWidth / 4
          ∧ ((0 ≤ cfg.domainWidth ∨ 0 ≤ p.interactionRadius) →
              p.interactionRadius ≤ cfg.domainWidth / 2))
    ∧ (cfg.domainSetup = "periodic" → ce.shapeGenerator.respectsBound → ∀ j : ℕ,
        ce.shapeGenerator.setShape j (3 / 2 * (cfg.domainWidth / 4))
            (maximumAllowedInteractionRadius cfg) ≤ cfg.domainWidth / 4) := by
  refine ⟨maximumAllowedInteractionRadius_periodic cfg, ?_, startup_events_bound cfg inp,
    fun s => stepEvents_bound cfg env s, ?_, ?_, ?_⟩
  · intro h
    unfold maximumAllowedInteractionRadius
    have hne : cfg.domainSetup ≠ "periodic" := by rw [h]; decide
    rw [if_neg hne]
  · intro spacing initialVelocity bound pts i k
    exact createAtPoints_interactionRadius cfg ce spacing initialVelocity bound pts i k
  · intro hper hresp spacing initialVelocity pts i k p hp
    obtain ⟨j, diameter, hj⟩ :=
      createAtPoints_interactionRadius cfg ce spacing initialVelocity _ pts i k p hp
    rw [maximumAllowedInteractionRadius_periodic cfg hper] at hj
    have hle : p.interactionRadius ≤ cfg.domainWidth / 4 := by
      rw [hj]; exact hresp j diameter _
    refine ⟨hle, ?_⟩
    intro h
    rcases h with h | h <;> linarith
  · intro hper hresp j
    rw [maximumAllowedInteractionRadius_periodic cfg hper]
    exact hresp j _ _

theorem clampingSphereGenerator_respectsBound : clampingSphereGenerator.respectsBound := by
  intro k diameter bound
  exact min_le_right _ _

/-- C19 on `periodicConfig` (domain width 10, bound 2.5) with the clamping sphere source: a
diameter of 1.5 times the bound gives the radius 1.875, a diameter of 20 gives the radius 2.5. -/
theorem C19_witness :
    periodicConfig.domainSetup = "periodic"
    ∧ maximumAllowedInteractionRadius periodicConfig = XReal.fin (5 / 2)
    ∧ (createAtPoints periodicConfig exampleCreatorEnv 1 1
          (maximumAllowedInteractionRadius periodicConfig) [⟨0, 0, 5⟩, ⟨1, 0, 5⟩] 0 0).map
        (fun p => p.interactionRadius) = [15 / 8, 5 / 2]
    ∧ ∀ p ∈ createAtPoints periodicConfig exampleCreatorEnv 1 1
          (maximumAllowedInteractionRadius periodicConfig) [⟨0, 0, 5⟩, ⟨1, 0, 5⟩] 0 0,
        p.interactionRadius ≤ periodicConfig.domainWidth / 4
        ∧ ((0 ≤ periodicConfig.domainWidth ∨ 0 ≤ p.interactionRadius) →
            p.interactionRadius ≤ periodicConfig.domainWidth / 2) :=
  ⟨by decide, by decide!, by decide!,
    (C19_interaction_radius_bound periodicConfig exampleEnv exampleStartupInput
      exampleCreatorEnv).2.2.2.2.2.1 (by decide) clampingSphereGenerator_respectsBound 1 1
      [⟨0, 0, 5⟩, ⟨1, 0, 5⟩] 0 0⟩

end InteractionRadiusBound

/-! ## The contact pipeline -/

section ContactPipeline

/-- C20: the contact list produced by the contact pipeline depends only on the particle storage,
the configuration and the collaborators, not on the contact storage left by the previous step;
so running the pipeline again on the contacts it has just produced, with the particle storage
unchanged, yields the same contact list. -/
theorem C20_contact_pipeline_idempotent (ce : ContactEnv) (useHashGrids : Bool)
    (particleShape : String) (ps : List Particle) (old1 old2 : List Contact) :
    contactPipeline ce useHashGrids particleShape ps old1
      = contactPipeline ce useHashGrids particleShape ps old2
    ∧ contactPipeline ce useHashGrids particleShape ps
        (contactPipeline ce useHashGrids particleShape ps old1)
      = contactPipeline ce useHashGrids particleShape ps old1 := by
  constructor <;> simp only [contactPipeline, ContactStorage.clear]

/-- C20 on two particles with one candidate pair: the pipeline yields the one contact whatever
the storage held before, on each of the three detection paths. -/
theorem C20_witness :
    contactPipeline exampleContactEnv false "Ellipsoid" exampleEnv.initialParticles []
      = [⟨0, 1, -(1 / 100), ⟨1, 0, 0⟩, ⟨0, 0, 5⟩⟩]
    ∧ contactPipeline exampleContactEnv false "Ellipsoid" exampleEnv.initialParticles
        [⟨3, 4, 0, ⟨0, 0, 1⟩, ⟨0, 0, 0⟩⟩]
      = contactPipeline exampleContactEnv false "Ellipsoid" exampleEnv.initialParticles []
    ∧ contactPipeline exampleContactEnv true "Sphere" exampleEnv.initialParticles
        (contactPipeline exampleContactEnv true "Sphere" exampleEnv.initialParticles [])
      = contactPipeline exampleContactEnv true "Sphere" exampleEnv.initialParticles [] :=
  ⟨by decide!,
    (C20_contact_pipeline_idempotent exampleContactEnv false "Ellipsoid"
      exampleEnv.initialParticles [⟨3, 4, 0, ⟨0, 0, 1⟩, ⟨0, 0, 0⟩⟩] []).1,
    (C20_contact_pipeline_idempotent exampleContactEnv true "Sphere"
      exampleEnv.initialParticles [] []).2⟩

end ContactPipeline

/-! ## Contact indices, coarse and fine detection -/

section ContactIndices

theorem foldl_kernel_invariant (P : Contact → Prop)
    (kernel : List Contact → ℕ × ℕ → List Contact) (pairs : List (ℕ × ℕ))
    (hk : ∀ storage : List Contact, (∀ c ∈ storage, P c) →
      ∀ p ∈ pairs, ∀ c ∈ kernel storage p, P c) :
    ∀ storage : List Contact, (∀ c ∈ storage, P c) →
      ∀ c ∈ pairs.foldl kernel storage, P c := by
  induction pairs with
  | nil => intro storage hs; simpa using hs
  | cons p rest ih =>
    intro storage hs
    rw [List.foldl_cons]
    exact ih (fun st hst q hq => hk st hst q (List.mem_cons_of_mem _ hq)) _
      (hk storage hs p (List.mem_cons_self _ _))

theorem create_invariant (P : Contact → Prop) (storage : List Contact) (d : Detection)
    (hs : ∀ c ∈ storage, P c)
    (hd : P ⟨d.idx1, d.idx2, d.penetrationDepth, d.contactNormal, d.contactPoint⟩) :
    ∀ c ∈ ContactStorage.create storage d, P c := by
  intro c hc
  simp only [ContactStorage.create, List.mem_append, List.mem_singleton] at hc
  rcases hc with hc | hc
  · exact hs c hc
  · rw [hc]; exact hd

theorem detection_indicesValid (ps : List Particle) (p : ℕ × ℕ) (d : Detection)
    (hp : p.1 ≠ p.2 ∧ p.1 < ps.length ∧ p.2 < ps.length)
    (hd : (d.idx1 = p.1 ∧ d.idx2 = p.2) ∨ (d.idx1 = p.2 ∧ d.idx2 = p.1)) :
    Contact.indicesValid ps
      ⟨d.idx1, d.idx2, d.penetrationDepth, d.contactNormal, d.contactPoint⟩ := by
  unfold Contact.indicesValid
  rcases hd with ⟨h1, h2⟩ | ⟨h1, h2⟩
  · simp only [h1, h2]; exact hp
  · simp only [h1, h2]; exact ⟨fun h => hp.1 h.symm, hp.2.2, hp.2.1⟩

theorem hashGridKernel_indicesValid (ce : ContactEnv) (ps : List Particle)
    (hGeneral : ∀ i j d, ce.generalContactDetection ps i j = some d →
      (d.idx1 = i ∧ d.idx2 = j) ∨ (d.idx1 = j ∧ d.idx2 = i))
    (storage : List Contact) (hs : ∀ c ∈ storage, Contact.indicesValid ps c) (p : ℕ × ℕ)
    (hp : p.1 ≠ p.2 ∧ p.1 < ps.length ∧ p.2 < ps.length) :
    ∀ c ∈ hashGridKernel ce ps storage p, Contact.indicesValid ps c := by
  unfold hashGridKernel
  cases hdet : ce.generalContactDetection ps p.1 p.2 with
  | none => exact hs
  | some d =>
    simp only
    split_ifs
    · exact create_invariant _ storage d hs
        (detection_indicesValid ps p d hp (hGeneral _ _ d hdet))
    · exact hs

theorem detectAndStore_indicesValid (ce : ContactEnv) (ps : List Particle)
    (hAnalytic : ∀ i j d, ce.analyticContactDetection ps i j = some d →
      (d.idx1 = i ∧ d.idx2 = j) ∨ (d.idx1 = j ∧ d.idx2 = i))
    (storage : List Contact) (hs : ∀ c ∈ storage, Contact.indicesValid ps c) (p : ℕ × ℕ)
    (hp : p.1 ≠ p.2 ∧ p.1 < ps.length ∧ p.2 < ps.length) :
    ∀ c ∈ detectAndStore ce ps storage p, Contact.indicesValid ps c := by
  unfold detectAndStore
  cases hdet : ce.analyticContactDetection ps p.1 p.2 with
  | none => exact hs
  | some d =>
    simp only
    split_ifs
    · exact create_invariant _ storage d hs
        (detection_indicesValid ps p d hp (hAnalytic _ _ d hdet))
    · exact hs

theorem linkedCellKernel_indicesValid (ce : ContactEnv) (ps : List Particle)
    (hGeneral : ∀ i j d, ce.generalContactDetection ps i j = some d →
      (d.idx1 = i ∧ d.idx2 = j) ∨ (d.idx1 = j ∧ d.idx2 = i))
    (storage : List Contact) (hs : ∀ c ∈ storage, Contact.indicesValid ps c) (p : ℕ × ℕ)
    (hp : p.1 ≠ p.2 ∧ p.1 < ps.length ∧ p.2 < ps.length) :
    ∀ c ∈ linkedCellKernel ce ps storage p, Contact.indicesValid ps c := by
  unfold linkedCellKernel
  cases ce.boundingSphereDetection ps p.1 p.2 with
  | none => exact hs
  | some coarse =>
    simp only
    split_ifs
    · cases hdet : ce.generalContactDetection ps p.1 p.2 with
      | none => exact hs
      | some d =>
        exact create_invariant _ storage d hs
          (detection_indicesValid ps p d hp (hGeneral _ _ d hdet))
    · exact hs

/-- C21: every contact stored by the contact pipeline of a step has two different indices, both
of them indices of particles of that step's particle list, provided the pair enumerations of
the hash grids and of the linked cells yield only pairs of distinct valid indices and the
analytic and the general detection report the two indices of the pair they were given, in
either order. -/
theorem C21_contact_indices_valid (ce : ContactEnv) (useHashGrids : Bool)
    (particleShape : String) (ps : List Particle) (old : List Contact)
    (hHash : ∀ p ∈ ce.hashGridPairs ps, p.1 ≠ p.2 ∧ p.1 < ps.length ∧ p.2 < ps.length)
    (hCells : ∀ p ∈ ce.linkedCellPairs ps, p.1 ≠ p.2 ∧ p.1 < ps.length ∧ p.2 < ps.length)
    (hAnalytic : ∀ i j d, ce.analyticContactDetection ps i j = some d →
      (d.idx1 = i ∧ d.idx2 = j) ∨ (d.idx1 = j ∧ d.idx2 = i))
    (hGeneral : ∀ i j d, ce.generalContactDetection ps i j = some d →
      (d.idx1 = i ∧ d.idx2 = j) ∨ (d.idx1 = j ∧ d.idx2 = i)) :
    ∀ c ∈ contactPipeline ce useHashGrids particleShape ps old,
      c.id1 ≠ c.id2 ∧ c.id1 < ps.length ∧ c.id2 < ps.length := by
  have hnil : ∀ c ∈ ContactStorage.clear old, Contact.indicesValid ps c := by
    intro c hc; simp [ContactStorage.clear] at hc
  intro c hc
  unfold contactPipeline at hc
  split_ifs at hc
  · exact foldl_kernel_invariant (Contact.indicesValid ps) _ _
      (fun st hst p hp => hashGridKernel_indicesValid ce ps hGeneral st hst p (hHash p hp))
      _ hnil c hc
  · exact foldl_kernel_invariant (Contact.indicesValid ps) _ _
      (fun st hst p hp => detectAndStore_indicesValid ce ps hAnalytic st hst p (hCells p hp))
      _ hnil c hc
  · exact foldl_kernel_invariant (Contact.indicesValid ps) _ _
      (fun st hst p hp => linkedCellKernel_indicesValid ce ps hGeneral st hst p (hCells p hp))
      _ hnil c hc

/-- C21 on two particles with the one candidate pair (0, 1): the contact stored on the hash-grid
path has the indices 0 and 1. -/
theorem C21_witness :
    contactPipeline exampleContactEnv true "Ellipsoid" exampleEnv.initialParticles []
      = [⟨0, 1, -(1 / 100), ⟨1, 0, 0⟩, ⟨0, 0, 5⟩⟩]
    ∧ exampleEnv.initialParticles.length = 2
    ∧ ∀ c ∈ contactPipeline exampleContactEnv true "Ellipsoid" exampleEnv.initialParticles [],
        c.id1 ≠ c.id2 ∧ c.id1 < exampleEnv.initialParticles.length
          ∧ c.id2 < exampleEnv.initialParticles.length :=
  ⟨by decide!, by decide!,
    C21_contact_indices_valid exampleContactEnv true "Ellipsoid" exampleEnv.initialParticles []
      (by intro p hp
          simp only [exampleContactEnv, List.mem_singleton] at hp
          subst hp; decide!)
      (by intro p hp
          simp only [exampleContactEnv, List.mem_singleton] at hp
          subst hp; decide!)
      (by intro i j d hd
          simp only [exampleContactEnv, Option.some.injEq] at hd
          subst hd; exact Or.inl ⟨rfl, rfl⟩)
      (by intro i j d hd
          simp only [exampleContactEnv, Option.some.injEq] at hd
          subst hd; exact Or.inl ⟨rfl, rfl⟩)⟩

end ContactIndices

section CoarseThenFine

/-- C22: the linked-cell kernel for non-sphere shapes stores a contact only after the
bounding-sphere check, the ownership filter on the coarse result and the exact detection have
all succeeded, but the hash-grid kernel never consults the bounding-sphere check: it runs the
exact detection at once and decides the ownership filter on the exact contact point. For two
particles whose coarse contact point is rejected by the filter and whose exact contact point is
accepted, the hash-grid path stores the contact and the linked-cell path stores nothing. -/
theorem C22_hash_grid_filters_on_exact_result :
    (∀ (ce : ContactEnv) (ps : List Particle) (storage : List Contact) (pair : ℕ × ℕ),
      linkedCellKernel ce ps storage pair = storage
      ∨ ∃ coarse d, ce.boundingSphereDetection ps pair.1 pair.2 = some coarse
          ∧ ce.contact_filter ps coarse.idx1 coarse.idx2 coarse.contactPoint = true
          ∧ ce.generalContactDetection ps pair.1 pair.2 = some d
          ∧ linkedCellKernel ce ps storage pair = ContactStorage.create storage d)
    ∧ (∀ (ce : ContactEnv) (ps : List Particle) (storage : List Contact) (pair : ℕ × ℕ)
        (d : Detection), ce.generalContactDetection ps pair.1 pair.2 = some d →
        ce.contact_filter ps d.idx1 d.idx2 d.contactPoint = true →
        hashGridKernel ce ps storage pair = ContactStorage.create storage d)
    ∧ (∀ (ce : ContactEnv) (coarseCheck : List Particle → ℕ → ℕ → Option Detection)
        (shape : String) (ps : List Particle) (old : List Contact),
        contactPipeline { ce with boundingSphereDetection := coarseCheck } true shape ps old
          = contactPipeline ce true shape ps old)
    ∧ splitOwnershipContactEnv.contact_filter exampleEnv.initialParticles 0 1
        ⟨-(1 / 10), 0, 5⟩ = false
    ∧ contactPipeline splitOwnershipContactEnv true "Ellipsoid" exampleEnv.initialParticles []
        = [⟨0, 1, -(1 / 100), ⟨1, 0, 0⟩, ⟨1 / 10, 0, 5⟩⟩]
    ∧ contactPipeline splitOwnershipContactEnv false "Ellipsoid" exampleEnv.initialParticles []
        = [] := by
  refine ⟨?_, ?_, ?_, by decide!, by decide!, by decide!⟩
  · intro ce ps storage pair
    unfold linkedCellKernel
    cases hc : ce.boundingSphereDetection ps pair.1 pair.2 with
    | none => exact Or.inl rfl
    | some coarse =>
      simp only
      by_cases hf : ce.contact_filter ps coarse.idx1 coarse.idx2 coarse.contactPoint = true
      · rw [if_pos hf]
        cases hd : ce.generalContactDetection ps pair.1 pair.2 with
        | none => exact Or.inl rfl
        | some d => exact Or.inr ⟨coarse, d, rfl, hf, rfl, rfl⟩
      · rw [if_neg hf]; exact Or.inl rfl
  · intro ce ps storage pair d hd hf
    unfold hashGridKernel
    rw [hd]
    simp only [hf, if_true]
  · intro ce coarseCheck shape ps old
    rfl

end CoarseThenFine

/-! ## The HCSITS sequence -/

section HcsitsSequence

theorem hcsitsIterations_eq_replicate (r : ℚ) (n : ℕ) :
    hcsitsIterations r n
      = (List.replicate n [Event.hcsitsRelaxationStep, Event.reduceVelocityCorrection,
          Event.broadcastVelocityUpdate r]).flatten := by
  induction n with
  | zero => rfl
  | succ n ih =>
    rw [hcsitsIterations, ih, List.replicate_succ, List.flatten_cons]

theorem hcsitsIterations_count_reduce (r : ℚ) (n : ℕ) :
    (hcsitsIterations r n).count Event.reduceVelocityCorrection = n := by
  induction n with
  | zero => rfl
  | succ n ih =>
    rw [hcsitsIterations, List.count_append, ih]
    simp [List.count_cons]
    omega

theorem hcsitsIterations_count_broadcast (r : ℚ) (n : ℕ) :
    (hcsitsIterations r n).countP Event.isBroadcast = n := by
  induction n with
  | zero => rfl
  | succ n ih =>
    rw [hcsitsIterations, List.countP_append, ih]
    simp [List.countP_cons, Event.isBroadcast]
    omega

theorem hcsitsIterations_count_integration (r : ℚ) (n : ℕ) :
    (hcsitsIterations r n).count Event.hcsitsIntegration = 0 := by
  induction n with
  | zero => rfl
  | succ n ih =>
    rw [hcsitsIterations, List.count_append, ih]
    simp [List.count_cons]

theorem hcsitsIterations_count_relaxation (r : ℚ) (n : ℕ) :
    (hcsitsIterations r n).count Event.hcsitsRelaxationStep = n := by
  induction n with
  | zero => rfl
  | succ n ih =>
    rw [hcsitsIterations, List.count_append, ih]
    simp [List.count_cons]
    omega

theorem broadcastsFollowReduce_split (l : List Event) :
    ∀ (prev : Event), broadcastsFollowReduce prev l →
      ∀ l1 l2 r, l = l1 ++ Event.broadcastVelocityUpdate r :: l2 →
        (l1 = [] ∧ prev = Event.reduceVelocityCorrection)
        ∨ ∃ l0, l1 = l0 ++ [Event.reduceVelocityCorrection] := by
  induction l with
  | nil => intro prev _ l1 l2 r h; simp at h
  | cons e l ih =>
    intro prev hok l1 l2 r h
    obtain ⟨hhead, htail⟩ := hok
    cases l1 with
    | nil =>
      simp only [List.nil_append, List.cons.injEq] at h
      exact Or.inl ⟨rfl, hhead (by rw [h.1]; rfl)⟩
    | cons a l1 =>
      simp only [List.cons_append, List.cons.injEq] at h
      obtain ⟨ha, hrest⟩ := h
      rcases ih e htail l1 l2 r hrest with ⟨h1, h2⟩ | ⟨l0, hl0⟩
      · exact Or.inr ⟨[], by rw [h1, ← ha, h2]; rfl⟩
      · exact Or.inr ⟨a :: l0, by rw [hl0]; rfl⟩

theorem broadcastsFollowReduce_iterations (r : ℚ) (n : ℕ) (tail : List Event)
    (ht : ∀ prev, broadcastsFollowReduce prev tail) :
    ∀ prev, broadcastsFollowReduce prev (hcsitsIterations r n ++ tail) := by
  induction n with
  | zero => intro prev; simpa [hcsitsIterations] using ht prev
  | succ n ih =>
    intro prev
    simp only [hcsitsIterations, List.cons_append, List.nil_append, List.append_assoc,
      broadcastsFollowReduce, Event.isBroadcast]
    exact ⟨by simp, by simp, by simp, ih _⟩

/-- C23: for every iteration count, the HCSITS pipeline of one step is: initialise contacts,
initialise particles, a reduce and a broadcast with relaxation parameter 1, then the configured
number of times (relaxation step, reduce, broadcast with the configured relaxation parameter),
then one integration; it holds one more reduce and one more broadcast than iterations and
exactly one integration, and every broadcast directly follows a reduce. -/
theorem C23_hcsits_step_sequence (cfg : Config) (globalAcceleration : XVec3) :
    hcsitsPipeline cfg globalAcceleration
      = [Event.hcsitsInitContacts, Event.hcsitsInitParticles globalAcceleration,
          Event.reduceVelocityCorrection, Event.broadcastVelocityUpdate 1]
        ++ (List.replicate cfg.hcsits_numberOfIterations
              [Event.hcsitsRelaxationStep, Event.reduceVelocityCorrection,
                Event.broadcastVelocityUpdate cfg.hcsits_relaxationParameter]).flatten
        ++ [Event.hcsitsIntegration]
    ∧ (hcsitsPipeline cfg globalAcceleration).count Event.reduceVelocityCorrection
        = cfg.hcsits_numberOfIterations + 1
    ∧ (hcsitsPipeline cfg globalAcceleration).countP Event.isBroadcast
        = cfg.hcsits_numberOfIterations + 1
    ∧ (hcsitsPipeline cfg globalAcceleration).count Event.hcsitsRelaxationStep
        = cfg.hcsits_numberOfIterations
    ∧ (hcsitsPipeline cfg globalAcceleration).count Event.hcsitsIntegration = 1
    ∧ (∀ l1 l2 r, hcsitsPipeline cfg globalAcceleration
          = l1 ++ Event.broadcastVelocityUpdate r :: l2 →
        ∃ l0, l1 = l0 ++ [Event.reduceVelocityCorrection])
    ∧ (cfg.solver = "HCSITS" → ∀ s : State,
        solverPhase cfg s = hcsitsPipeline cfg s.globalAcceleration) := by
  refine ⟨?_, ?_, ?_, ?_, ?_, ?_, ?_⟩
  · rw [hcsitsPipeline, hcsitsIterations_eq_replicate]
  · rw [hcsitsPipeline, List.count_append, List.count_append, hcsitsIterations_count_reduce]
    simp [List.count_cons]
    omega
  · rw [hcsitsPipeline, List.countP_append, List.countP_append,
      hcsitsIterations_count_broadcast]
    simp [List.countP_cons, Event.isBroadcast]
    omega
  · rw [hcsitsPipeline, List.count_append, List.count_append,
      hcsitsIterations_count_relaxation]
    simp [List.count_cons]
  · rw [hcsitsPipeline, List.count_append, List.count_append,
      hcsitsIterations_count_integration]
    simp [List.count_cons]
  · intro l1 l2 r h
    have hok : broadcastsFollowReduce Event.hcsitsIntegration
        (hcsitsPipeline cfg globalAcceleration) := by
      simp only [hcsitsPipeline, List.cons_append, List.nil_append, List.append_assoc,
        broadcastsFollowReduce, Event.isBroadcast]
      refine ⟨by simp, by simp, by simp, by simp, ?_⟩
      exact broadcastsFollowReduce_iterations _ _ _
        (fun prev => by simp [broadcastsFollowReduce, Event.isBroadcast]) _
    rcases broadcastsFollowReduce_split _ _ hok l1 l2 r h with ⟨_, h2⟩ | h3
    · exact absurd h2 (by decide)
    · exact h3
  · intro hs s
    simp only [solverPhase, hs, if_true]

/-- C23 on the concrete configuration with two iterations: the pipeline has three reduce and
broadcast pairs, and the first broadcast follows the reduce after the initialisation. -/
theorem C23_witness :
    exampleConfig.hcsits_numberOfIterations = 2
    ∧ exampleConfig.solver = "HCSITS"
    ∧ hcsitsPipeline exampleConfig (gravityOnly exampleConfig)
        = [Event.hcsitsInitContacts, Event.hcsitsInitParticles (gravityOnly exampleConfig),
            Event.reduceVelocityCorrection, Event.broadcastVelocityUpdate 1,
            Event.hcsitsRelaxationStep, Event.reduceVelocityCorrection,
            Event.broadcastVelocityUpdate (3 / 4),
            Event.hcsitsRelaxationStep, Event.reduceVelocityCorrection,
            Event.broadcastVelocityUpdate (3 / 4), Event.hcsitsIntegration]
    ∧ ∃ l0, [Event.hcsitsInitContacts, Event.hcsitsInitParticles (gravityOnly exampleConfig),
        Event.reduceVelocityCorrection] = l0 ++ [Event.reduceVelocityCorrection] :=
  ⟨by decide, by decide, by decide!,
    (C23_hcsits_step_sequence exampleConfig (gravityOnly exampleConfig)).2.2.2.2.2.1
      [Event.hcsitsInitContacts, Event.hcsitsInitParticles (gravityOnly exampleConfig),
        Event.reduceVelocityCorrection]
      [Event.hcsitsRelaxationStep, Event.reduceVelocityCorrection,
        Event.broadcastVelocityUpdate (3 / 4),
        Event.hcsitsRelaxationStep, Event.reduceVelocityCorrection,
        Event.broadcastVelocityUpdate (3 / 4), Event.hcsitsIntegration] 1 (by decide!)⟩

end HcsitsSequence

/-! ## Spacing scaling -/

section SpacingScaling

theorem sortVector_fin_middle (a c : ℚ) :
    ((sortVector ⟨XReal.fin a, XReal.fin 1, XReal.fin c⟩).y = XReal.fin 1
      ↔ (a ≤ 1 ∧ 1 ≤ c) ∨ (c ≤ 1 ∧ 1 ≤ a))
    ∧ ((sortVector ⟨XReal.fin a, XReal.fin 1, XReal.fin c⟩).x = XReal.fin 1
        ∨ (sortVector ⟨XReal.fin a, XReal.fin 1, XReal.fin c⟩).y = XReal.fin 1
        ∨ (sortVector ⟨XReal.fin a, XReal.fin 1, XReal.fin c⟩).z = XReal.fin 1) := by
  constructor
  · by_cases h1 : (1 : ℚ) < a <;> by_cases h4 : a < 1 <;> by_cases h2 : c < a <;>
      by_cases h3 : c < 1 <;>
      simp [sortVector, XVec3.orderXY, XVec3.orderYZ, XReal.lt, h1, h2, h3, h4]
    all_goals
      first
      | exact Or.inl ⟨by linarith, by linarith⟩
      | exact Or.inr ⟨by linarith, by linarith⟩
      | (constructor
         · intro h
           subst h
           first
           | exact Or.inl ⟨by linarith, by linarith⟩
           | exact Or.inr ⟨by linarith, by linarith⟩
         · rintro (⟨h5, h6⟩ | ⟨h5, h6⟩) <;> linarith)
  · by_cases h1 : (1 : ℚ) < a <;> by_cases h4 : a < 1 <;> by_cases h2 : c < a <;>
      by_cases h3 : c < 1 <;>
      simp [sortVector, XVec3.orderXY, XVec3.orderYZ, XReal.lt, h1, h2, h3, h4]

theorem sortVector_components (P : XReal → Prop) (v : XVec3) (hx : P v.x) (hy : P v.y)
    (hz : P v.z) : P (sortVector v).x ∧ P (sortVector v).y ∧ P (sortVector v).z := by
  unfold sortVector XVec3.orderXY XVec3.orderYZ
  split_ifs <;> exact ⟨by assumption, by assumption, by assumption⟩

theorem normalizedForm_of_ne_zero (sg : ShapeGenerator)
    (hy : sg.getNormalFormParameters.y ≠ 0) :
    normalizedForm true sg
      = ⟨XReal.fin (sg.getNormalFormParameters.x / sg.getNormalFormParameters.y), XReal.fin 1,
          XReal.fin (sg.getNormalFormParameters.z / sg.getNormalFormParameters.y)⟩ := by
  simp only [normalizedForm, XReal.div, if_true, if_neg hy, div_self hy]

theorem sortVector_ones :
    sortVector ⟨XReal.fin 1, XReal.fin 1, XReal.fin 1⟩
      = ⟨XReal.fin 1, XReal.fin 1, XReal.fin 1⟩ := by
  simp [sortVector, XVec3.orderXY, XVec3.orderYZ, XReal.lt]

theorem spacingScaling_without_form (sg : ShapeGenerator) :
    spacingScaling false sg = ⟨XReal.fin 1, XReal.fin 1, XReal.fin 1⟩
    ∧ invScaling (spacingScaling false sg) = ⟨XReal.fin 1, XReal.fin 1, XReal.fin 1⟩
    ∧ ∀ pt : Vec3, scaleBack (spacingScaling false sg) pt
        = ⟨XReal.fin pt.x, XReal.fin pt.y, XReal.fin pt.z⟩ := by
  have hoff : spacingScaling false sg = ⟨XReal.fin 1, XReal.fin 1, XReal.fin 1⟩ := by
    simp only [spacingScaling, normalizedForm, Bool.false_eq_true, if_false, sortVector_ones]
  refine ⟨hoff, ?_, ?_⟩
  · rw [hoff]
    simp [invScaling, XReal.inv, XReal.div]
  · intro pt
    rw [hoff]
    simp [scaleBack, XReal.mulRat]

/-- For a normal-form vector with a positive component at index 1, the sorted spacing scaling
holds the value 1, and its middle component is 1 exactly when the component at index 1 lies
between the other two. -/
theorem spacingScaling_middle_iff_median (sg : ShapeGenerator)
    (hy : 0 < sg.getNormalFormParameters.y) :
    ((spacingScaling true sg).y = XReal.fin 1 ↔
      (sg.getNormalFormParameters.x ≤ sg.getNormalFormParameters.y
          ∧ sg.getNormalFormParameters.y ≤ sg.getNormalFormParameters.z)
        ∨ (sg.getNormalFormParameters.z ≤ sg.getNormalFormParameters.y
          ∧ sg.getNormalFormParameters.y ≤ sg.getNormalFormParameters.x))
    ∧ ((spacingScaling true sg).x = XReal.fin 1 ∨ (spacingScaling true sg).y = XReal.fin 1
        ∨ (spacingScaling true sg).z = XReal.fin 1) := by
  have hon := sortVector_fin_middle
    (sg.getNormalFormParameters.x / sg.getNormalFormParameters.y)
    (sg.getNormalFormParameters.z / sg.getNormalFormParameters.y)
  rw [← normalizedForm_of_ne_zero sg hy.ne.symm] at hon
  refine ⟨?_, hon.2⟩
  rw [spacingScaling, hon.1]
  simp only [div_le_one hy, one_le_div hy]

/-- C24: `createParticles` divides the normal-form vector by its component at index 1 and sorts
afterwards. For the vector (2, 1, 3), whose components are positive and whose component at
index 1 is the smallest, the vector divided is (2, 1, 3) and the sorted scaling is (1, 2, 3):
its middle component is 2, not 1. For the vector (1/2, 1, 2), given in ascending order, the
sorted scaling is (1/2, 1, 2) with middle component 1. Without form scaling the scaling vector
and its inverse are (1, 1, 1) and every lattice point is used as it is. -/
theorem C24_normalisation_ahead_of_sorting :
    unsortedFormGenerator.getNormalFormParameters = ⟨2, 1, 3⟩
    ∧ normalizedForm true unsortedFormGenerator = ⟨XReal.fin 2, XReal.fin 1, XReal.fin 3⟩
    ∧ spacingScaling true unsortedFormGenerator = ⟨XReal.fin 1, XReal.fin 2, XReal.fin 3⟩
    ∧ (spacingScaling true unsortedFormGenerator).y ≠ XReal.fin 1
    ∧ sortedFormGenerator.getNormalFormParameters = ⟨1 / 2, 1, 2⟩
    ∧ spacingScaling true sortedFormGenerator = ⟨XReal.fin (1 / 2), XReal.fin 1, XReal.fin 2⟩
    ∧ (∀ sg : ShapeGenerator,
        spacingScaling false sg = ⟨XReal.fin 1, XReal.fin 1, XReal.fin 1⟩
        ∧ invScaling (spacingScaling false sg) = ⟨XReal.fin 1, XReal.fin 1, XReal.fin 1⟩
        ∧ ∀ pt : Vec3, scaleBack (spacingScaling false sg) pt
            = ⟨XReal.fin pt.x, XReal.fin pt.y, XReal.fin pt.z⟩) :=
  ⟨by decide!, by decide!, by decide!, by decide!, by decide!, by decide!,
    spacingScaling_without_form⟩

theorem XReal.inv_fin_of_ne_zero (q : ℚ) (hq : q ≠ 0) :
    XReal.inv (XReal.fin q) = XReal.fin (1 / q) := by
  simp only [XReal.inv, XReal.div, if_neg hq]

/-- C25: for a normal-form vector without a zero component, and also without form scaling, the
spacing scaling is a vector of finite non-zero numbers, its component-wise inverse is finite,
the bounds of the creation domain are finite, and every lattice point scaled back is a point
with finite coordinates. -/
theorem C25_scaling_finite_without_zero_component (cfg : Config) (sg : ShapeGenerator)
    (scaleGenerationSpacingWithForm : Bool) (zMin zMax : ℚ)
    (hx : sg.getNormalFormParameters.x ≠ 0) (hy : sg.getNormalFormParameters.y ≠ 0)
    (hz : sg.getNormalFormParameters.z ≠ 0) :
    ∃ s : Vec3, s.x ≠ 0 ∧ s.y ≠ 0 ∧ s.z ≠ 0
      ∧ spacingScaling scaleGenerationSpacingWithForm sg
          = ⟨XReal.fin s.x, XReal.fin s.y, XReal.fin s.z⟩
      ∧ invScaling (spacingScaling scaleGenerationSpacingWithForm sg)
          = ⟨XReal.fin (1 / s.x), XReal.fin (1 / s.y), XReal.fin (1 / s.z)⟩
      ∧ creationDomain cfg zMin zMax
            (invScaling (spacingScaling scaleGenerationSpacingWithForm sg))
          = ⟨XReal.fin (1 / s.x * (simulationDomain cfg).xMin),
              XReal.fin (1 / s.y * (simulationDomain cfg).yMin), XReal.fin (1 / s.z * zMin),
              XReal.fin (1 / s.x * (simulationDomain cfg).xMax),
              XReal.fin (1 / s.y * (simulationDomain cfg).yMax), XReal.fin (1 / s.z * zMax)⟩
      ∧ ∀ ptUnscaled : Vec3,
          scaleBack (spacingScaling scaleGenerationSpacingWithForm sg) ptUnscaled
            = ⟨XReal.fin (s.x * ptUnscaled.x), XReal.fin (s.y * ptUnscaled.y),
                XReal.fin (s.z * ptUnscaled.z)⟩ := by
  have hnorm : (∃ q : ℚ, q ≠ 0 ∧ (normalizedForm scaleGenerationSpacingWithForm sg).x
        = XReal.fin q)
      ∧ (∃ q : ℚ, q ≠ 0 ∧ (normalizedForm scaleGenerationSpacingWithForm sg).y = XReal.fin q)
      ∧ (∃ q : ℚ, q ≠ 0 ∧ (normalizedForm scaleGenerationSpacingWithForm sg).z
        = XReal.fin q) := by
    cases scaleGenerationSpacingWithForm with
    | false =>
      simp only [normalizedForm, Bool.false_eq_true, if_false]
      exact ⟨⟨1, one_ne_zero, rfl⟩, ⟨1, one_ne_zero, rfl⟩, ⟨1, one_ne_zero, rfl⟩⟩
    | true =>
      rw [normalizedForm_of_ne_zero sg hy]
      exact ⟨⟨_, div_ne_zero hx hy, rfl⟩, ⟨1, one_ne_zero, rfl⟩, ⟨_, div_ne_zero hz hy, rfl⟩⟩
  obtain ⟨⟨a, ha, hsa⟩, ⟨b, hb, hsb⟩, ⟨c, hc, hsc⟩⟩ :=
    sortVector_components (fun r => ∃ q : ℚ, q ≠ 0 ∧ r = XReal.fin q)
      (normalizedForm scaleGenerationSpacingWithForm sg) hnorm.1 hnorm.2.1 hnorm.2.2
  have hs : spacingScaling scaleGenerationSpacingWithForm sg
      = ⟨XReal.fin a, XReal.fin b, XReal.fin c⟩ := by
    unfold spacingScaling
    rw [← hsa, ← hsb, ← hsc]
  refine ⟨⟨a, b, c⟩, ha, hb, hc, hs, ?_, ?_, ?_⟩
  · rw [hs]
    simp only [invScaling, XReal.inv_fin_of_ne_zero _ ha, XReal.inv_fin_of_ne_zero _ hb,
      XReal.inv_fin_of_ne_zero _ hc]
  · rw [hs]
    simp only [invScaling, creationDomain, XReal.inv_fin_of_ne_zero _ ha,
      XReal.inv_fin_of_ne_zero _ hb, XReal.inv_fin_of_ne_zero _ hc, XReal.mulRat]
  · intro ptUnscaled
    rw [hs]
    simp only [scaleBack, XReal.mulRat]

/-- C25: for the normal-form vector (0, 1, 2) the sorted scaling is (0, 1, 2) and the inverse
scaling divides by zero, `1 / 0`, so the creation domain has infinite bounds; for the vector
(1, 0, 2) the normalisation itself divides by zero and yields infinite and undefined
components. -/
theorem C25_counterexample :
    flatFormGenerator.getNormalFormParameters = ⟨0, 1, 2⟩
    ∧ spacingScaling true flatFormGenerator = ⟨XReal.fin 0, XReal.fin 1, XReal.fin 2⟩
    ∧ invScaling (spacingScaling true flatFormGenerator)
        = ⟨XReal.posInf, XReal.fin 1, XReal.fin (1 / 2)⟩
    ∧ creationDomain exampleConfig 10 20 (invScaling (spacingScaling true flatFormGenerator))
        = ⟨XReal.negInf, XReal.fin (-5), XReal.fin 5, XReal.posInf, XReal.fin 5, XReal.fin 10⟩
    ∧ zeroMiddleFormGenerator.getNormalFormParameters = ⟨1, 0, 2⟩
    ∧ normalizedForm true zeroMiddleFormGenerator = ⟨XReal.posInf, XReal.nan, XReal.posInf⟩ := by
  decide!

/-- C25 on the normal-form vector (2, 1, 3): scaling (1, 2, 3), inverse (1, 1/2, 1/3), and the
lattice point (3, 4, 5) scaled back is (3, 8, 15). -/
theorem C25_witness :
    unsortedFormGenerator.getNormalFormParameters.x ≠ 0
    ∧ unsortedFormGenerator.getNormalFormParameters.y ≠ 0
    ∧ unsortedFormGenerator.getNormalFormParameters.z ≠ 0
    ∧ invScaling (spacingScaling true unsortedFormGenerator)
        = ⟨XReal.fin 1, XReal.fin (1 / 2), XReal.fin (1 / 3)⟩
    ∧ scaleBack (spacingScaling true unsortedFormGenerator) ⟨3, 4, 5⟩
        = ⟨XReal.fin 3, XReal.fin 8, XReal.fin 15⟩
    ∧ ∃ s : Vec3, s.x ≠ 0 ∧ s.y ≠ 0 ∧ s.z ≠ 0
      ∧ spacingScaling true unsortedFormGenerator
          = ⟨XReal.fin s.x, XReal.fin s.y, XReal.fin s.z⟩
      ∧ invScaling (spacingScaling true unsortedFormGenerator)
          = ⟨XReal.fin (1 / s.x), XReal.fin (1 / s.y), XReal.fin (1 / s.z)⟩
      ∧ creationDomain exampleConfig 10 20
            (invScaling (spacingScaling true unsortedFormGenerator))
          = ⟨XReal.fin (1 / s.x * (simulationDomain exampleConfig).xMin),
              XReal.fin (1 / s.y * (simulationDomain exampleConfig).yMin),
              XReal.fin (1 / s.z * 10),
              XReal.fin (1 / s.x * (simulationDomain exampleConfig).xMax),
              XReal.fin (1 / s.y * (simulationDomain exampleConfig).yMax),
              XReal.fin (1 / s.z * 20)⟩
      ∧ ∀ ptUnscaled : Vec3,
          scaleBack (spacingScaling true unsortedFormGenerator) ptUnscaled
            = ⟨XReal.fin (s.x * ptUnscaled.x), XReal.fin (s.y * ptUnscaled.y),
                XReal.fin (s.z * ptUnscaled.z)⟩ :=
  ⟨by decide!, by decide!, by decide!, by decide!, by decide!,
    C25_scaling_finite_without_zero_component exampleConfig unsortedFormGenerator true 10 20
      (by decide!) (by decide!) (by decide!)⟩

end SpacingScaling

/-! ## Acceptance of lattice points and initial velocities -/

section CreatedParticles

theorem createAtPoints_positions (cfg : Config) (ce : CreatorEnv) (spacing initialVelocity : ℚ)
    (bound : XReal) (pts : List Vec3) :
    ∀ (i k : ℕ), (createAtPoints cfg ce spacing initialVelocity bound pts i k).map
        (fun p => p.position) = pts.filter (acceptsPoint cfg ce spacing) := by
  induction pts with
  | nil => intro i k; rfl
  | cons pt rest ih =>
    intro i k
    unfold createAtPoints
    by_cases h1 : ce.isContainedInLocalSubdomain pt = false
    · rw [if_pos h1, ih, List.filter_cons_of_neg]
      simp [acceptsPoint, h1]
    · rw [if_neg h1]
      by_cases h2 : cfg.domainSetup = "container" ∧ outsideContainer cfg spacing pt
      · rw [if_pos h2, ih, List.filter_cons_of_neg]
        simp [acceptsPoint, h2]
      · rw [if_neg h2, List.map_cons, ih, List.filter_cons_of_pos]
        · rfl
        · simp only [Bool.not_eq_false] at h1
          simp [acceptsPoint, h1, h2]

theorem outsideContainer_iff_distance (cfg : Config) (spacing : ℚ) (pt : Vec3) :
    ¬ outsideContainer cfg spacing pt ↔
      Real.sqrt (((pt.x - (simulationDomain cfg).center.x : ℚ) : ℝ) ^ 2
          + ((pt.y - (simulationDomain cfg).center.y : ℚ) : ℝ) ^ 2)
        ≤ ((cfg.domainWidth / 2 - spacing / 2 : ℚ) : ℝ) := by
  have hc : (1 / 2 * (simulationDomain cfg).xSize - 1 / 2 * spacing : ℚ)
      = cfg.domainWidth / 2 - spacing / 2 := by
    rw [simulationDomain_xSize]; ring
  unfold outsideContainer
  simp only [hc]
  rw [Real.sqrt_le_iff, not_or, not_lt, not_lt]
  constructor
  · rintro ⟨h1, h2⟩
    refine ⟨by exact_mod_cast h1, ?_⟩
    have h3 : (((pt.x - (simulationDomain cfg).center.x) * (pt.x - (simulationDomain cfg).center.x)
        + (pt.y - (simulationDomain cfg).center.y) * (pt.y - (simulationDomain cfg).center.y)
          : ℚ) : ℝ)
        ≤ (((cfg.domainWidth / 2 - spacing / 2) * (cfg.domainWidth / 2 - spacing / 2) : ℚ) : ℝ) := by
      exact_mod_cast h2
    push_cast at h3 ⊢
    nlinarith [h3]
  · rintro ⟨h1, h2⟩
    refine ⟨by exact_mod_cast h1, ?_⟩
    have h3 : (((pt.x - (simulationDomain cfg).center.x) * (pt.x - (simulationDomain cfg).center.x)
        + (pt.y - (simulationDomain cfg).center.y) * (pt.y - (simulationDomain cfg).center.y)
          : ℚ) : ℝ)
        ≤ (((cfg.domainWidth / 2 - spacing / 2) * (cfg.domainWidth / 2 - spacing / 2) : ℚ) : ℝ) := by
      push_cast at h2 ⊢
      nlinarith [h2]
    exact_mod_cast h3

/-- C26: the particles created by the loop of `createParticles` sit, in lattice order, at
exactly the lattice points that lie in the local subdomain and, in the container set-up, have a
horizontal distance from the domain centre of at most `domainWidth / 2 - spacing / 2`; so every
particle created in the container set-up is within that distance of the axis, and outside the
container set-up the local subdomain is the only test. -/
theorem C26_created_iff_accepted (cfg : Config) (ce : CreatorEnv) (spacing initialVelocity : ℚ)
    (bound : XReal) (pts : List Vec3) (i k : ℕ) :
    (createAtPoints cfg ce spacing initialVelocity bound pts i k).map (fun p => p.position)
      = pts.filter (acceptsPoint cfg ce spacing)
    ∧ (∀ pt : Vec3, acceptsPoint cfg ce spacing pt = true ↔
        ce.isContainedInLocalSubdomain pt = true
        ∧ (cfg.domainSetup = "container" →
            Real.sqrt (((pt.x - (simulationDomain cfg).center.x : ℚ) : ℝ) ^ 2
                + ((pt.y - (simulationDomain cfg).center.y : ℚ) : ℝ) ^ 2)
              ≤ ((cfg.domainWidth / 2 - spacing / 2 : ℚ) : ℝ)))
    ∧ (cfg.domainSetup = "container" →
        ∀ p ∈ createAtPoints cfg ce spacing initialVelocity bound pts i k,
          Real.sqrt (((p.position.x - (simulationDomain cfg).center.x : ℚ) : ℝ) ^ 2
              + ((p.position.y - (simulationDomain cfg).center.y : ℚ) : ℝ) ^ 2)
            ≤ ((cfg.domainWidth / 2 - spacing / 2 : ℚ) : ℝ))
    ∧ (cfg.domainSetup ≠ "container" →
        (createAtPoints cfg ce spacing initialVelocity bound pts i k).map (fun p => p.position)
          = pts.filter ce.isContainedInLocalSubdomain) := by
  have hiff : ∀ pt : Vec3, acceptsPoint cfg ce spacing pt = true ↔
      ce.isContainedInLocalSubdomain pt = true
      ∧ (cfg.domainSetup = "container" →
          Real.sqrt (((pt.x - (simulationDomain cfg).center.x : ℚ) : ℝ) ^ 2
              + ((pt.y - (simulationDomain cfg).center.y : ℚ) : ℝ) ^ 2)
            ≤ ((cfg.domainWidth / 2 - spacing / 2 : ℚ) : ℝ)) := by
    intro pt
    rw [← outsideContainer_iff_distance]
    simp only [acceptsPoint, Bool.and_eq_true, Bool.not_eq_true', decide_eq_false_iff_not,
      not_and]
  refine ⟨createAtPoints_positions cfg ce spacing initialVelocity bound pts i k, hiff, ?_, ?_⟩
  · intro hc p hp
    have hmem : p.position ∈ (createAtPoints cfg ce spacing initialVelocity bound pts i k).map
        (fun p => p.position) := List.mem_map_of_mem _ hp
    rw [createAtPoints_positions, List.mem_filter] at hmem
    exact ((hiff p.position).1 hmem.2).2 hc
  · intro hc
    rw [createAtPoints_positions]
    congr 1
    funext pt
    simp [acceptsPoint, hc]

/-- C26 in the container of width 10 with spacing 1 and the half space of non-negative x as
local subdomain: of the lattice points (0, 0, 5), (4, 0, 5), (5, 0, 5) and (-1, 0, 5), the third
is further than 4.5 from the axis and the fourth is outside the subdomain; particles are
created at the first two. -/
theorem C26_witness :
    exampleConfig.domainSetup = "container"
    ∧ (createAtPoints exampleConfig halfSpaceCreatorEnv 1 1 XReal.posInf
        [⟨0, 0, 5⟩, ⟨4, 0, 5⟩, ⟨5, 0, 5⟩, ⟨-1, 0, 5⟩] 0 0).map (fun p => p.position)
        = [⟨0, 0, 5⟩, ⟨4, 0, 5⟩]
    ∧ (createAtPoints periodicConfig halfSpaceCreatorEnv 1 1 XReal.posInf
        [⟨0, 0, 5⟩, ⟨4, 0, 5⟩, ⟨5, 0, 5⟩, ⟨-1, 0, 5⟩] 0 0).map (fun p => p.position)
        = [⟨0, 0, 5⟩, ⟨4, 0, 5⟩, ⟨5, 0, 5⟩]
    ∧ ∀ p ∈ createAtPoints exampleConfig halfSpaceCreatorEnv 1 1 XReal.posInf
        [⟨0, 0, 5⟩, ⟨4, 0, 5⟩, ⟨5, 0, 5⟩, ⟨-1, 0, 5⟩] 0 0,
          Real.sqrt (((p.position.x - (simulationDomain exampleConfig).center.x : ℚ) : ℝ) ^ 2
              + ((p.position.y - (simulationDomain exampleConfig).center.y : ℚ) : ℝ) ^ 2)
            ≤ ((exampleConfig.domainWidth / 2 - 1 / 2 : ℚ) : ℝ) :=
  ⟨by decide, by decide!, by decide!,
    (C26_created_iff_accepted exampleConfig halfSpaceCreatorEnv 1 1 XReal.posInf
      [⟨0, 0, 5⟩, ⟨4, 0, 5⟩, ⟨5, 0, 5⟩, ⟨-1, 0, 5⟩] 0 0).2.2.1 (by decide)⟩

end CreatedParticles

/-! ## Time between generation events -/

section TimeBetweenCreation

end TimeBetweenCreation

/-! ## The first termination check -/

section FirstCheck

variable (cfg : Config) (env : Env)

theorem references_before_first_check (n : ℕ) (hfirst : ∀ m < n, ¬ checkAt cfg env m) :
    (stateAt cfg env n).oldAvgParticleHeight = 1
    ∧ (stateAt cfg env n).oldMaxParticleHeight = 1
    ∧ (stateAt cfg env n).timeLastTerminationCheck = 0 := by
  induction n with
  | zero => exact ⟨rfl, rfl, rfl⟩
  | succ n ih =>
    have ihn := ih (fun m hm => hfirst m (Nat.lt_succ_of_lt hm))
    by_cases hr : running cfg env n
    · rw [stateAt_succ_of_running cfg env n hr]
      have hno : ¬ terminationCheckPerformed cfg env (stateAt cfg env n) :=
        fun h => hfirst n (Nat.lt_succ_self n) ⟨hr, h⟩
      obtain ⟨h1, h2, h3⟩ := (stepBody_check_updates cfg env (stateAt cfg env n)).2 hno
      rw [h1, h2, h3]
      exact ⟨ihn.1, ihn.2.1, ihn.2.2⟩
    · rw [stateAt_succ_of_ended cfg env n hr]
      exact ihn

theorem heightConverged_of_unit_references (info : ParticleInfo) (s : State)
    (havg : s.oldAvgParticleHeight = 1) (hmax : s.oldMaxParticleHeight = 1) :
    heightConverged cfg info s ↔
      |info.heightOfMass - 1| < cfg.terminalRelativeHeightChange
      ∧ |info.maximumHeight - 1| < 10 * cfg.terminalRelativeHeightChange := by
  unfold heightConverged relDiff
  rw [havg, hmax]
  simp only [XReal.div, one_ne_zero, if_false, div_one, XReal.lt, decide_eq_true_eq]
  exact and_comm

/-- C29: at the first termination check of a run both reference heights are 1 and the time of
the last check is 0, so the check is due as soon as the time exceeds
`terminationCheckingSpacing`; its height test holds exactly when
`|heightOfMass - 1| < terminalRelativeHeightChange` and
`|maximumHeight - 1| < 10 * terminalRelativeHeightChange`, and it sets the termination flag
exactly when this or the velocity test holds. Every check of a run stores the current heights
and the current time as the references of the next one. -/
theorem C29_first_termination_check (n : ℕ) (hcheck : checkAt cfg env n)
    (hfirst : ∀ m < n, ¬ checkAt cfg env m) :
    (stateAt cfg env n).oldAvgParticleHeight = 1
    ∧ (stateAt cfg env n).oldMaxParticleHeight = 1
    ∧ (stateAt cfg env n).timeLastTerminationCheck = 0
    ∧ currentTime cfg n > cfg.terminationCheckingSpacing
    ∧ (heightConverged cfg (stepInfo cfg env (stateAt cfg env n)) (stateAt cfg env n) ↔
        |(stepInfo cfg env (stateAt cfg env n)).heightOfMass - 1|
            < cfg.terminalRelativeHeightChange
          ∧ |(stepInfo cfg env (stateAt cfg env n)).maximumHeight - 1|
            < 10 * cfg.terminalRelativeHeightChange)
    ∧ ((stateAt cfg env (n + 1)).terminateSimulation = true ↔
        (stepInfo cfg env (stateAt cfg env n)).maximumVelocity < cfg.terminalVelocity
          ∨ (|(stepInfo cfg env (stateAt cfg env n)).heightOfMass - 1|
                < cfg.terminalRelativeHeightChange
              ∧ |(stepInfo cfg env (stateAt cfg env n)).maximumHeight - 1|
                < 10 * cfg.terminalRelativeHeightChange))
    ∧ (∀ m : ℕ, checkAt cfg env m →
        (stateAt cfg env (m + 1)).oldAvgParticleHeight
            = (stepInfo cfg env (stateAt cfg env m)).heightOfMass
          ∧ (stateAt cfg env (m + 1)).oldMaxParticleHeight
            = (stepInfo cfg env (stateAt cfg env m)).maximumHeight
          ∧ (stateAt cfg env (m + 1)).timeLastTerminationCheck = currentTime cfg m) := by
  obtain ⟨havg, hmax, hlast⟩ := references_before_first_check cfg env n hfirst
  have hconv := heightConverged_of_unit_references cfg
    (stepInfo cfg env (stateAt cfg env n)) (stateAt cfg env n) havg hmax
  refine ⟨havg, hmax, hlast, ?_, hconv, ?_, ?_⟩
  · have hdue := hcheck.2.2.2
    rw [hlast, stateAt_timestep cfg env n hcheck.1, sub_zero] at hdue
    exact hdue
  · rw [stateAt_succ_of_running cfg env n hcheck.1,
      stepBody_terminateSimulation cfg env _ hcheck.1, hconv]
    unfold velocityConverged
    exact ⟨fun h => h.2, fun h => ⟨hcheck.2, h⟩⟩
  · intro m hm
    rw [stateAt_succ_of_running cfg env m hm.1]
    obtain ⟨h1, h2, h3⟩ := (stepBody_check_updates cfg env (stateAt cfg env m)).1 hm.2
    rw [stateAt_timestep cfg env m hm.1] at h1
    exact ⟨h2, h3, h1⟩

/-- C29 on the concrete run, whose first termination check is in step 4 at time 0.04: the
references are 1, 1 and 0 although damping began at time 0.03 and the heights are 3 and 5; the
check does not terminate the run and stores 3, 5 and 0.04. -/
theorem C29_witness :
    checkAt exampleConfig exampleEnv 4
    ∧ (∀ m < 4, ¬ checkAt exampleConfig exampleEnv m)
    ∧ (stateAt exampleConfig exampleEnv 4).timeBeginDamping = 3 / 100
    ∧ (stepInfo exampleConfig exampleEnv (stateAt exampleConfig exampleEnv 4)).heightOfMass = 3
    ∧ (stateAt exampleConfig exampleEnv 5).terminateSimulation = false
    ∧ (stateAt exampleConfig exampleEnv 5).oldAvgParticleHeight = 3
    ∧ (stateAt exampleConfig exampleEnv 5).oldMaxParticleHeight = 5
    ∧ (stateAt exampleConfig exampleEnv 5).timeLastTerminationCheck = 1 / 25
    ∧ (stateAt exampleConfig exampleEnv 4).oldAvgParticleHeight = 1
    ∧ (stateAt exampleConfig exampleEnv 4).oldMaxParticleHeight = 1
    ∧ (stateAt exampleConfig exampleEnv 4).timeLastTerminationCheck = 0 := by
  have hfirst : ∀ m < 4, ¬ checkAt exampleConfig exampleEnv m := by
    intro m hm h
    interval_cases m <;> exact absurd h.2 (by decide!)
  have h := C29_first_termination_check exampleConfig exampleEnv 4 ⟨by decide!, by decide!⟩
    hfirst
  exact ⟨⟨by decide!, by decide!⟩, hfirst, by decide!, by decide!, by decide!, by decide!,
    by decide!, by decide!, h.1, h.2.1, h.2.2.1⟩

end FirstCheck

end ParticlePacking
